import Mathlib

/-!
# Packet-capture lifecycle hooks (wlan_pkt_capture_main.c)

A shallow embedding of
`components/pkt_capture/core/src/wlan_pkt_capture_main.c` and theorems about
its staged creation, rollback and teardown of component-private state.

Conventions of the embedding.

* A nullable C pointer is an `Option Nat`; `none` is `NULL`.
* Dynamic memory is a finite list of `(address, object)` cells.  A read or a
  write through a pointer that is `NULL`, not live, or of another struct type,
  and a free of a block that is not live, are C undefined behaviour; every
  function that can meet one returns `Option`, with `none` for that case.
* The object manager, the allocator, the monitor-thread subsystem and the
  configuration store are not part of the translated file.  Where one of their
  calls can fail, the status it reports is an argument of the embedded
  function, so theorems quantify over it.
* Every call that leaves the file (allocation, free, attach, detach, monitor
  operations, configuration read, reference get/put) is appended to
  `State.trace`, in program order, which is how ordering is stated.
-/

namespace PktCapture

/-! ## Status codes and modes -/

/-- The QDF status codes this file names, plus `QDF_STATUS_E_OTHER` standing for
any other error value of the enumeration that a collaborator may report. -/
inductive QDF_STATUS where
  | QDF_STATUS_SUCCESS
  | QDF_STATUS_E_NOMEM
  | QDF_STATUS_E_INVAL
  | QDF_STATUS_E_FAILURE
  | QDF_STATUS_E_OTHER (code : Nat)
  deriving DecidableEq, Repr

open QDF_STATUS

/-- The macro `QDF_IS_STATUS_SUCCESS(status)`: `status == QDF_STATUS_SUCCESS`. -/
def QDF_IS_STATUS_SUCCESS (status : QDF_STATUS) : Bool :=
  decide (status = QDF_STATUS_SUCCESS)

/-- The macro `QDF_IS_STATUS_ERROR(status)`: `status != QDF_STATUS_SUCCESS`. -/
def QDF_IS_STATUS_ERROR (status : QDF_STATUS) : Bool :=
  decide (status ≠ QDF_STATUS_SUCCESS)

/-- A value of `enum pkt_capture_mode`, as the integer the C enum is. -/
abbrev pkt_capture_mode := Nat

/-- Modelled from the spec: the enum declaration is in a header outside the
translated file; the spec treats the plain zero and the Disabled mode as one
value, so `PACKET_CAPTURE_MODE_DISABLE` is the enumerator `0`. -/
def PACKET_CAPTURE_MODE_DISABLE : pkt_capture_mode := 0

/-! ## Structures -/

/-- The fields of `struct pkt_capture_cb_context` the file uses: the delivery
callback, its context pointer and the per-device mode. -/
structure pkt_capture_cb_context where
  mon_cb : Option Nat
  mon_ctx : Option Nat
  pkt_capture_mode : pkt_capture_mode
  deriving DecidableEq, Repr

/-- Modelled from the spec: `struct pkt_capture_mon_context` is a handle of the
monitor subsystem; the two flags record whether its monitor-thread resource (with
its pending-packet queue) is allocated and whether the thread is open. -/
structure pkt_capture_mon_context where
  thread_allocated : Bool
  thread_open : Bool
  deriving DecidableEq, Repr

/-- The fields of `struct pkt_capture_vdev_priv` the file uses. -/
structure pkt_capture_vdev_priv where
  vdev : Option Nat
  cb_ctx : Option Nat
  mon_ctx : Option Nat
  deriving DecidableEq, Repr

/-- The configuration record `struct pkt_capture_cfg`. -/
structure pkt_capture_cfg where
  pkt_capture_mode : pkt_capture_mode
  deriving DecidableEq, Repr

/-- The fields of `struct pkt_psoc_priv` the file uses. -/
structure pkt_psoc_priv where
  psoc : Option Nat
  cfg_param : pkt_capture_cfg
  deriving DecidableEq, Repr

/-- A heap cell holds one of the four structures the file allocates. -/
inductive Obj where
  | vdev_priv (v : pkt_capture_vdev_priv)
  | cb_ctx (c : pkt_capture_cb_context)
  | mon_ctx (m : pkt_capture_mon_context)
  | psoc_priv (p : pkt_psoc_priv)
  deriving DecidableEq, Repr

/-- Zero-filled `struct pkt_capture_vdev_priv`, as `qdf_mem_malloc` returns it. -/
def zero_vdev_priv : Obj := Obj.vdev_priv ⟨none, none, none⟩

/-- Zero-filled `struct pkt_capture_cb_context`. -/
def zero_cb_ctx : Obj := Obj.cb_ctx ⟨none, none, 0⟩

/-- Zero-filled `struct pkt_capture_mon_context`. -/
def zero_mon_ctx : Obj := Obj.mon_ctx ⟨false, false⟩

/-- Zero-filled `struct pkt_psoc_priv`. -/
def zero_psoc_priv : Obj := Obj.psoc_priv ⟨none, ⟨0⟩⟩

/-! ## Heap -/

/-- The live allocations: address and content of each block. -/
abbrev Heap := List (Nat × Obj)

/-- Content of the block at address `a`, `none` when no block is live there. -/
def Heap.get : Heap → Nat → Option Obj
  | [], _ => none
  | (b, o) :: h, a => if b = a then some o else Heap.get h a

/-- Overwrite the content of the block at address `a`. -/
def Heap.set (h : Heap) (a : Nat) (x : Obj) : Heap :=
  h.map (fun e => if e.1 = a then (e.1, x) else e)

/-- Remove the block at address `a`. -/
def Heap.free (h : Heap) (a : Nat) : Heap :=
  h.filter (fun e => decide (e.1 ≠ a))

/-- An address above every live block (and never `0`). -/
def Heap.fresh : Heap → Nat
  | [] => 1
  | (b, _) :: h => max (b + 1) (Heap.fresh h)

/-- The number of live allocations (distinct live addresses). -/
def Heap.count (h : Heap) : Nat := (h.map Prod.fst).dedup.length

/-! ## State -/

/-- The calls that leave the translated file, with the value each returned. -/
inductive Event where
  | qdf_mem_malloc (ret : Option Nat)
  | qdf_mem_free (ptr : Option Nat)
  | vdev_component_obj_attach (vdev priv : Nat) (ret : QDF_STATUS)
  | vdev_component_obj_detach (vdev priv : Nat) (ret : QDF_STATUS)
  | psoc_component_obj_attach (psoc priv : Nat) (ret : QDF_STATUS)
  | psoc_component_obj_detach (psoc priv : Nat) (ret : QDF_STATUS)
  | alloc_mon_thread (mon_ctx : Nat) (ret : QDF_STATUS)
  | open_mon_thread (mon_ctx : Nat) (ret : QDF_STATUS)
  | close_mon_thread (mon_ctx : Nat)
  | free_mon_pkt_freeq (mon_ctx : Nat)
  | cfg_get (psoc : Option Nat) (ret : Nat)
  | get_vdev_by_opmode (psoc : Nat) (ret : Option Nat)
  | vdev_release_ref (vdev : Nat)
  deriving DecidableEq, Repr

/-- The memory of the component and the part of its collaborators it observes.
`vdev_comp_priv` and `psoc_comp_priv` are the object manager's slot for the
packet-capture component (`WLAN_UMAC_COMP_PKT_CAPTURE`) on each device and
controller; `vdev_ref` is each device's reference count; `sta_vdev` is the
station-mode device the object manager finds for a controller; `cfg` is the
value of `CFG_PKT_CAPTURE_MODE` in each controller's configuration store. -/
structure State where
  heap : Heap
  vdev_comp_priv : Nat → Option Nat
  psoc_comp_priv : Nat → Option Nat
  vdev_ref : Nat → Nat
  sta_vdev : Nat → Option Nat
  cfg : Nat → Nat
  trace : List Event

/-- The state with no allocation, no attached private state and no device. -/
def State.empty : State :=
  ⟨[], fun _ => none, fun _ => none, fun _ => 0, fun _ => none, fun _ => 0, []⟩

/-- Append one call to the trace. -/
def State.log (s : State) (e : Event) : State :=
  { s with trace := s.trace ++ [e] }

/-- Typed read of a `struct pkt_capture_vdev_priv` through a pointer. -/
def State.read_vdev_priv (s : State) (p : Option Nat) : Option pkt_capture_vdev_priv :=
  match p with
  | none => none
  | some a =>
    match s.heap.get a with
    | some (Obj.vdev_priv v) => some v
    | _ => none

/-- Typed read of a `struct pkt_capture_cb_context` through a pointer. -/
def State.read_cb_ctx (s : State) (p : Option Nat) : Option pkt_capture_cb_context :=
  match p with
  | none => none
  | some a =>
    match s.heap.get a with
    | some (Obj.cb_ctx c) => some c
    | _ => none

/-- Typed read of a `struct pkt_capture_mon_context` through a pointer. -/
def State.read_mon_ctx (s : State) (p : Option Nat) : Option pkt_capture_mon_context :=
  match p with
  | none => none
  | some a =>
    match s.heap.get a with
    | some (Obj.mon_ctx m) => some m
    | _ => none

/-- Typed read of a `struct pkt_psoc_priv` through a pointer. -/
def State.read_psoc_priv (s : State) (p : Option Nat) : Option pkt_psoc_priv :=
  match p with
  | none => none
  | some a =>
    match s.heap.get a with
    | some (Obj.psoc_priv v) => some v
    | _ => none

/-- Store into the block at address `a` (used after a successful typed read of `a`). -/
def State.write (s : State) (a : Nat) (x : Obj) : State :=
  { s with heap := s.heap.set a x }

/-! ## Collaborators

The allocator, the object manager, the monitor subsystem and the configuration
store are outside the translated file.  Each is given the effect the driver
relies on; the status of a call that can fail is the argument `ret` (or `ok`). -/

/-- Modelled from the spec: the allocator `qdf_mem_malloc(size)`, which is outside
the translated file: `NULL` when `ok` is false, else a new zero-filled block at an
address that is not live. -/
def qdf_mem_malloc (ok : Bool) (zero : Obj) (s : State) : Option Nat × State :=
  if ok then
    (some s.heap.fresh,
      { s with heap := (s.heap.fresh, zero) :: s.heap,
               trace := s.trace ++ [Event.qdf_mem_malloc (some s.heap.fresh)] })
  else
    (none, s.log (Event.qdf_mem_malloc none))

/-- Modelled from the spec: the allocator `qdf_mem_free(ptr)`, which is outside the
translated file: nothing to release for `NULL`; releases a live block; undefined
(`none`) for a block that is not live. -/
def qdf_mem_free (ptr : Option Nat) (s : State) : Option State :=
  match ptr with
  | none => some (s.log (Event.qdf_mem_free none))
  | some a =>
    if (s.heap.get a).isSome then
      some { s with heap := s.heap.free a, trace := s.trace ++ [Event.qdf_mem_free (some a)] }
    else none

/-- Modelled from the spec: `wlan_objmgr_vdev_component_obj_attach` with the
packet-capture component identifier; on success the device's slot holds the
private state, on failure the device is left as it was. -/
def wlan_objmgr_vdev_component_obj_attach (ret : QDF_STATUS) (vdev priv : Nat) (s : State) :
    QDF_STATUS × State :=
  (ret,
    { s with
      vdev_comp_priv :=
        if ret = QDF_STATUS_SUCCESS then Function.update s.vdev_comp_priv vdev (some priv)
        else s.vdev_comp_priv,
      trace := s.trace ++ [Event.vdev_component_obj_attach vdev priv ret] })

/-- Modelled from the spec: `wlan_objmgr_vdev_component_obj_detach`; on success the
device's slot is emptied, on failure the device is left as it was. -/
def wlan_objmgr_vdev_component_obj_detach (ret : QDF_STATUS) (vdev priv : Nat) (s : State) :
    QDF_STATUS × State :=
  (ret,
    { s with
      vdev_comp_priv :=
        if ret = QDF_STATUS_SUCCESS then Function.update s.vdev_comp_priv vdev none
        else s.vdev_comp_priv,
      trace := s.trace ++ [Event.vdev_component_obj_detach vdev priv ret] })

/-- Modelled from the spec: `wlan_objmgr_psoc_component_obj_attach`, as for a
device. -/
def wlan_objmgr_psoc_component_obj_attach (ret : QDF_STATUS) (psoc priv : Nat) (s : State) :
    QDF_STATUS × State :=
  (ret,
    { s with
      psoc_comp_priv :=
        if ret = QDF_STATUS_SUCCESS then Function.update s.psoc_comp_priv psoc (some priv)
        else s.psoc_comp_priv,
      trace := s.trace ++ [Event.psoc_component_obj_attach psoc priv ret] })

/-- Modelled from the spec: `wlan_objmgr_psoc_component_obj_detach`, as for a
device. -/
def wlan_objmgr_psoc_component_obj_detach (ret : QDF_STATUS) (psoc priv : Nat) (s : State) :
    QDF_STATUS × State :=
  (ret,
    { s with
      psoc_comp_priv :=
        if ret = QDF_STATUS_SUCCESS then Function.update s.psoc_comp_priv psoc none
        else s.psoc_comp_priv,
      trace := s.trace ++ [Event.psoc_component_obj_detach psoc priv ret] })

/-- Modelled from the spec: the framework lookup `pkt_capture_vdev_get_priv(vdev)`,
the device's slot for the packet-capture component. -/
def pkt_capture_vdev_get_priv (s : State) (vdev : Nat) : Option Nat :=
  s.vdev_comp_priv vdev

/-- Modelled from the spec: the framework lookup `pkt_capture_psoc_get_priv(psoc)`. -/
def pkt_capture_psoc_get_priv (s : State) (psoc : Nat) : Option Nat :=
  s.psoc_comp_priv psoc

/-- Modelled from the spec: `wlan_objmgr_get_vdev_by_opmode_from_psoc(psoc,
QDF_STA_MODE, WLAN_PKT_CAPTURE_ID)`; when a station-mode device is found a
reference on it is taken. -/
def wlan_objmgr_get_vdev_by_opmode_from_psoc (psoc : Nat) (s : State) : Option Nat × State :=
  match s.sta_vdev psoc with
  | none => (none, s.log (Event.get_vdev_by_opmode psoc none))
  | some vdev =>
    (some vdev,
      { s with vdev_ref := Function.update s.vdev_ref vdev (s.vdev_ref vdev + 1),
               trace := s.trace ++ [Event.get_vdev_by_opmode psoc (some vdev)] })

/-- Modelled from the spec: `wlan_objmgr_vdev_release_ref(vdev, WLAN_PKT_CAPTURE_ID)`
gives one reference back. -/
def wlan_objmgr_vdev_release_ref (vdev : Nat) (s : State) : State :=
  { s with vdev_ref := Function.update s.vdev_ref vdev (s.vdev_ref vdev - 1),
           trace := s.trace ++ [Event.vdev_release_ref vdev] }

/-- Modelled from the spec: `pkt_capture_alloc_mon_thread(mon_ctx)` allocates the
monitor-thread resource of a monitor context; it may fail, changing nothing. -/
def pkt_capture_alloc_mon_thread (ret : QDF_STATUS) (mon_ctx : Option Nat) (s : State) :
    Option (QDF_STATUS × State) := do
  let a ← mon_ctx
  let m ← s.read_mon_ctx (some a)
  let s1 := s.log (Event.alloc_mon_thread a ret)
  if ret = QDF_STATUS_SUCCESS then
    pure (ret, s1.write a (Obj.mon_ctx { m with thread_allocated := true }))
  else
    pure (ret, s1)

/-- Modelled from the spec: `pkt_capture_open_mon_thread(mon_ctx)` opens the
monitor thread; it may fail, changing nothing. -/
def pkt_capture_open_mon_thread (ret : QDF_STATUS) (mon_ctx : Option Nat) (s : State) :
    Option (QDF_STATUS × State) := do
  let a ← mon_ctx
  let m ← s.read_mon_ctx (some a)
  let s1 := s.log (Event.open_mon_thread a ret)
  if ret = QDF_STATUS_SUCCESS then
    pure (ret, s1.write a (Obj.mon_ctx { m with thread_open := true }))
  else
    pure (ret, s1)

/-- Modelled from the spec: `pkt_capture_close_mon_thread(mon_ctx)` closes the
monitor thread. -/
def pkt_capture_close_mon_thread (mon_ctx : Option Nat) (s : State) : Option State := do
  let a ← mon_ctx
  let m ← s.read_mon_ctx (some a)
  pure ((s.log (Event.close_mon_thread a)).write a (Obj.mon_ctx { m with thread_open := false }))

/-- Modelled from the spec: `pkt_capture_free_mon_pkt_freeq(mon_ctx)` releases the
pending-packet queue of the monitor-thread resource. -/
def pkt_capture_free_mon_pkt_freeq (mon_ctx : Option Nat) (s : State) : Option State := do
  let a ← mon_ctx
  let m ← s.read_mon_ctx (some a)
  pure ((s.log (Event.free_mon_pkt_freeq a)).write a
    (Obj.mon_ctx { m with thread_allocated := false }))

/-- Modelled from the spec: `cfg_get(psoc, CFG_PKT_CAPTURE_MODE)` reads the
controller's configuration store. -/
def cfg_get (psoc : Option Nat) (s : State) : Option (Nat × State) := do
  let p ← psoc
  pure (s.cfg p, s.log (Event.cfg_get (some p) (s.cfg p)))

/-! ## The translated file -/

/-- Source lines 28-44: the configured mode of a controller. -/
def pkt_capture_get_mode (s : State) (psoc : Option Nat) : Option pkt_capture_mode :=
  match psoc with
  | none => some PACKET_CAPTURE_MODE_DISABLE
  | some ps =>
    match pkt_capture_psoc_get_priv s ps with
    | none => some PACKET_CAPTURE_MODE_DISABLE
    | some psoc_priv => do
      let pp ← s.read_psoc_priv (some psoc_priv)
      pure pp.cfg_param.pkt_capture_mode

/-- Source lines 46-68: register the delivery callback and its context. -/
def pkt_capture_register_callbacks (vdev : Option Nat) (mon_cb context : Option Nat)
    (s : State) : Option (QDF_STATUS × State) :=
  match vdev with
  | none => some (QDF_STATUS_E_INVAL, s)
  | some vd =>
    match pkt_capture_vdev_get_priv s vd with
    | none => some (QDF_STATUS_E_INVAL, s)
    | some vdev_priv => do
      -- vdev_priv->cb_ctx->mon_cb = mon_cb;
      let v ← s.read_vdev_priv (some vdev_priv)
      let a ← v.cb_ctx
      let c ← s.read_cb_ctx (some a)
      let s1 := s.write a (Obj.cb_ctx { c with mon_cb := mon_cb })
      -- vdev_priv->cb_ctx->mon_ctx = context;
      let v1 ← s1.read_vdev_priv (some vdev_priv)
      let a1 ← v1.cb_ctx
      let c1 ← s1.read_cb_ctx (some a1)
      let s2 := s1.write a1 (Obj.cb_ctx { c1 with mon_ctx := context })
      pure (QDF_STATUS_SUCCESS, s2)

/-- Source lines 70-89: clear the delivery callback and its context. -/
def pkt_capture_deregister_callbacks (vdev : Option Nat) (s : State) :
    Option (QDF_STATUS × State) :=
  match vdev with
  | none => some (QDF_STATUS_E_INVAL, s)
  | some vd =>
    match pkt_capture_vdev_get_priv s vd with
    | none => some (QDF_STATUS_E_INVAL, s)
    | some vdev_priv => do
      -- vdev_priv->cb_ctx->mon_cb = NULL;
      let v ← s.read_vdev_priv (some vdev_priv)
      let a ← v.cb_ctx
      let c ← s.read_cb_ctx (some a)
      let s1 := s.write a (Obj.cb_ctx { c with mon_cb := none })
      -- vdev_priv->cb_ctx->mon_ctx = NULL;
      let v1 ← s1.read_vdev_priv (some vdev_priv)
      let a1 ← v1.cb_ctx
      let c1 ← s1.read_cb_ctx (some a1)
      let s2 := s1.write a1 (Obj.cb_ctx { c1 with mon_ctx := none })
      pure (QDF_STATUS_SUCCESS, s2)

/-- Source lines 91-117: set the active mode on the controller's station-mode
device. -/
def pkt_capture_set_pktcap_mode (psoc : Option Nat) (mode : pkt_capture_mode) (s : State) :
    Option State :=
  match psoc with
  | none => some s
  | some ps =>
    match wlan_objmgr_get_vdev_by_opmode_from_psoc ps s with
    | (none, s1) => some s1
    | (some vdev, s1) =>
      match pkt_capture_vdev_get_priv s1 vdev with
      | some vdev_priv => do
        let v ← s1.read_vdev_priv (some vdev_priv)
        let a ← v.cb_ctx
        let c ← s1.read_cb_ctx (some a)
        let s2 := s1.write a (Obj.cb_ctx { c with pkt_capture_mode := mode })
        pure (wlan_objmgr_vdev_release_ref vdev s2)
      | none => some (wlan_objmgr_vdev_release_ref vdev s1)

/-- Source lines 119-147: the active mode of the controller's station-mode device. -/
def pkt_capture_get_pktcap_mode (psoc : Option Nat) (s : State) :
    Option (pkt_capture_mode × State) :=
  let mode : pkt_capture_mode := PACKET_CAPTURE_MODE_DISABLE
  match psoc with
  | none => some (0, s)
  | some ps =>
    match wlan_objmgr_get_vdev_by_opmode_from_psoc ps s with
    | (none, s1) => some (0, s1)
    | (some vdev, s1) =>
      match pkt_capture_vdev_get_priv s1 vdev with
      | none => some (mode, wlan_objmgr_vdev_release_ref vdev s1)
      | some vdev_priv => do
        let v ← s1.read_vdev_priv (some vdev_priv)
        let c ← s1.read_cb_ctx v.cb_ctx
        pure (c.pkt_capture_mode, wlan_objmgr_vdev_release_ref vdev s1)

/-- Source lines 155-169: allocate the callback context and store it in the
private state. -/
def pkt_capture_callback_ctx_create (ok : Bool) (vdev_priv : Nat) (s : State) :
    Option (QDF_STATUS × State) :=
  match qdf_mem_malloc ok zero_cb_ctx s with
  | (none, s1) => some (QDF_STATUS_E_NOMEM, s1)
  | (some cb_ctx, s1) => do
    let v ← s1.read_vdev_priv (some vdev_priv)
    pure (QDF_STATUS_SUCCESS, s1.write vdev_priv (Obj.vdev_priv { v with cb_ctx := some cb_ctx }))

/-- Source lines 177-181: free the callback context. -/
def pkt_capture_callback_ctx_destroy (vdev_priv : Nat) (s : State) : Option State := do
  let v ← s.read_vdev_priv (some vdev_priv)
  qdf_mem_free v.cb_ctx s

/-- Source lines 191-205: allocate the monitor context and store it in the
private state. -/
def pkt_capture_mon_context_create (ok : Bool) (vdev_priv : Nat) (s : State) :
    Option (QDF_STATUS × State) :=
  match qdf_mem_malloc ok zero_mon_ctx s with
  | (none, s1) => some (QDF_STATUS_E_NOMEM, s1)
  | (some mon_context, s1) => do
    let v ← s1.read_vdev_priv (some vdev_priv)
    pure (QDF_STATUS_SUCCESS,
      s1.write vdev_priv (Obj.vdev_priv { v with mon_ctx := some mon_context }))

/-- Source lines 215-219: free the monitor context. -/
def pkt_capture_mon_context_destroy (vdev_priv : Nat) (s : State) : Option State := do
  let v ← s.read_vdev_priv (some vdev_priv)
  qdf_mem_free v.mon_ctx s

/-- Source lines 227-236: load the configuration record of a controller. -/
def pkt_capture_cfg_init (psoc_priv : Nat) (s : State) : Option State := do
  let pp ← s.read_psoc_priv (some psoc_priv)
  let (val, s1) ← cfg_get pp.psoc s
  let pp1 ← s1.read_psoc_priv (some psoc_priv)
  pure (s1.write psoc_priv (Obj.psoc_priv { pp1 with cfg_param := ⟨val⟩ }))

/-- The outcomes of the calls of `pkt_capture_vdev_create_notification` that can
fail: the three allocations, the attach, the two monitor-thread calls, and the
detach of the rollback (whose status the code does not look at). -/
structure vdev_create_outcomes where
  vdev_priv_alloc : Bool
  attach : QDF_STATUS
  cb_ctx_alloc : Bool
  mon_ctx_alloc : Bool
  alloc_mon_thread : QDF_STATUS
  open_mon_thread : QDF_STATUS
  detach : QDF_STATUS
  deriving DecidableEq, Repr

/-- Source lines 297-299, label `free_vdev_priv`. -/
def free_vdev_priv (vdev_priv : Nat) (status : QDF_STATUS) (s : State) :
    Option (QDF_STATUS × State) := do
  let s1 ← qdf_mem_free (some vdev_priv) s
  pure (status, s1)

/-- Source lines 293-296, label `detach_vdev_priv`, falling through. -/
def detach_vdev_priv (o : vdev_create_outcomes) (vdev vdev_priv : Nat) (status : QDF_STATUS)
    (s : State) : Option (QDF_STATUS × State) :=
  let (_, s1) := wlan_objmgr_vdev_component_obj_detach o.detach vdev vdev_priv s
  free_vdev_priv vdev_priv status s1

/-- Source lines 291-292, label `destroy_pkt_capture_cb_context`, falling through. -/
def destroy_pkt_capture_cb_context (o : vdev_create_outcomes) (vdev vdev_priv : Nat)
    (status : QDF_STATUS) (s : State) : Option (QDF_STATUS × State) := do
  let s1 ← pkt_capture_callback_ctx_destroy vdev_priv s
  detach_vdev_priv o vdev vdev_priv status s1

/-- Source lines 289-290, label `destroy_mon_context`, falling through. -/
def destroy_mon_context (o : vdev_create_outcomes) (vdev vdev_priv : Nat)
    (status : QDF_STATUS) (s : State) : Option (QDF_STATUS × State) := do
  let s1 ← pkt_capture_mon_context_destroy vdev_priv s
  destroy_pkt_capture_cb_context o vdev vdev_priv status s1

/-- Source lines 287-288, label `open_mon_thread_fail`, falling through. -/
def open_mon_thread_fail (o : vdev_create_outcomes) (vdev vdev_priv : Nat)
    (mon_ctx : Option Nat) (status : QDF_STATUS) (s : State) : Option (QDF_STATUS × State) := do
  let s1 ← pkt_capture_free_mon_pkt_freeq mon_ctx s
  destroy_mon_context o vdev vdev_priv status s1

/-- Source lines 238-300: the staged constructor of a device's private state. -/
def pkt_capture_vdev_create_notification (o : vdev_create_outcomes) (vdev : Nat) (s : State) :
    Option (QDF_STATUS × State) :=
  match qdf_mem_malloc o.vdev_priv_alloc zero_vdev_priv s with
  | (none, s1) => some (QDF_STATUS_E_NOMEM, s1)
  | (some vdev_priv, s1) =>
    match wlan_objmgr_vdev_component_obj_attach o.attach vdev vdev_priv s1 with
    | (status, s2) =>
      if QDF_IS_STATUS_ERROR status then free_vdev_priv vdev_priv status s2
      else do
        -- vdev_priv->vdev = vdev;
        let v ← s2.read_vdev_priv (some vdev_priv)
        let s3 := s2.write vdev_priv (Obj.vdev_priv { v with vdev := some vdev })
        let (status, s4) ← pkt_capture_callback_ctx_create o.cb_ctx_alloc vdev_priv s3
        if !QDF_IS_STATUS_SUCCESS status then detach_vdev_priv o vdev vdev_priv status s4
        else do
          let (status, s5) ← pkt_capture_mon_context_create o.mon_ctx_alloc vdev_priv s4
          if QDF_IS_STATUS_ERROR status then
            destroy_pkt_capture_cb_context o vdev vdev_priv status s5
          else do
            -- mon_ctx = vdev_priv->mon_ctx;
            let v5 ← s5.read_vdev_priv (some vdev_priv)
            let mon_ctx := v5.mon_ctx
            let (status, s6) ← pkt_capture_alloc_mon_thread o.alloc_mon_thread mon_ctx s5
            if QDF_IS_STATUS_ERROR status then destroy_mon_context o vdev vdev_priv status s6
            else do
              let (status, s7) ← pkt_capture_open_mon_thread o.open_mon_thread mon_ctx s6
              if QDF_IS_STATUS_ERROR status then
                open_mon_thread_fail o vdev vdev_priv mon_ctx status s7
              else pure (status, s7)

/-- Source lines 302-326: tear down a device's private state. -/
def pkt_capture_vdev_destroy_notification (detach : QDF_STATUS) (vdev : Nat) (s : State) :
    Option (QDF_STATUS × State) :=
  match pkt_capture_vdev_get_priv s vdev with
  | none => some (QDF_STATUS_E_FAILURE, s)
  | some vdev_priv =>
    match wlan_objmgr_vdev_component_obj_detach detach vdev vdev_priv s with
    | (status, s1) => do
      let v ← s1.read_vdev_priv (some vdev_priv)
      let s2 ← pkt_capture_close_mon_thread v.mon_ctx s1
      let s3 ← pkt_capture_mon_context_destroy vdev_priv s2
      let s4 ← pkt_capture_callback_ctx_destroy vdev_priv s3
      let s5 ← qdf_mem_free (some vdev_priv) s4
      pure (status, s5)

/-- Source lines 328-354: create a controller's private state. -/
def pkt_capture_psoc_create_notification (alloc_ok : Bool) (attach : QDF_STATUS) (psoc : Nat)
    (s : State) : Option (QDF_STATUS × State) :=
  match qdf_mem_malloc alloc_ok zero_psoc_priv s with
  | (none, s1) => some (QDF_STATUS_E_NOMEM, s1)
  | (some psoc_priv, s1) =>
    match wlan_objmgr_psoc_component_obj_attach attach psoc psoc_priv s1 with
    | (status, s2) =>
      if QDF_IS_STATUS_ERROR status then do
        -- free_psoc_priv:
        let s3 ← qdf_mem_free (some psoc_priv) s2
        pure (status, s3)
      else do
        -- psoc_priv->psoc = psoc;
        let pp ← s2.read_psoc_priv (some psoc_priv)
        let s3 := s2.write psoc_priv (Obj.psoc_priv { pp with psoc := some psoc })
        let s4 ← pkt_capture_cfg_init psoc_priv s3
        pure (status, s4)

/-- Source lines 356-378: tear down a controller's private state. -/
def pkt_capture_psoc_destroy_notification (detach : QDF_STATUS) (psoc : Nat) (s : State) :
    Option (QDF_STATUS × State) :=
  match pkt_capture_psoc_get_priv s psoc with
  | none => some (QDF_STATUS_E_FAILURE, s)
  | some psoc_priv =>
    match wlan_objmgr_psoc_component_obj_detach detach psoc psoc_priv s with
    | (status, s1) =>
      if QDF_IS_STATUS_ERROR status then some (status, s1)
      else do
        let s2 ← qdf_mem_free (some psoc_priv) s1
        pure (status, s2)

/-! ## Predicates used to state the properties -/

/-- The device `vdev` has private state attached at `p`, which is live and owns a
live callback context at `c` and a live monitor context at `m`. -/
def vdev_priv_attached (s : State) (vdev p c m : Nat) : Prop :=
  pkt_capture_vdev_get_priv s vdev = some p ∧
  (s.read_vdev_priv (some p)).map (fun v => v.cb_ctx) = some (some c) ∧
  (s.read_vdev_priv (some p)).map (fun v => v.mon_ctx) = some (some m) ∧
  (s.read_cb_ctx (some c)).isSome = true ∧
  (s.read_mon_ctx (some m)).isSome = true

instance (s : State) (vdev p c m : Nat) : Decidable (vdev_priv_attached s vdev p c m) := by
  unfold vdev_priv_attached; infer_instance

/-- The controller `psoc` has private state attached at `p`, which is live. -/
def psoc_priv_attached (s : State) (psoc p : Nat) : Prop :=
  pkt_capture_psoc_get_priv s psoc = some p ∧ (s.read_psoc_priv (some p)).isSome = true

instance (s : State) (psoc p : Nat) : Decidable (psoc_priv_attached s psoc p) := by
  unfold psoc_priv_attached; infer_instance

/-- The calls that are stages of the staged constructor: allocations, attach and
the two monitor-thread calls. -/
def Event.is_stage_attempt : Event → Bool
  | Event.qdf_mem_malloc _ => true
  | Event.vdev_component_obj_attach _ _ _ => true
  | Event.alloc_mon_thread _ _ => true
  | Event.open_mon_thread _ _ => true
  | _ => false

/-- The calls that give a resource back: free, detach, close and the release of the
pending-packet queue. -/
def Event.is_release : Event → Bool
  | Event.qdf_mem_free _ => true
  | Event.vdev_component_obj_detach _ _ _ => true
  | Event.psoc_component_obj_detach _ _ _ => true
  | Event.close_mon_thread _ => true
  | Event.free_mon_pkt_freeq _ => true
  | _ => false

/-- One call of the callback interface on a device: a registration with its two
arguments, or a deregistration. -/
inductive CallbackCall where
  | register (mon_cb context : Option Nat)
  | deregister
  deriving DecidableEq, Repr

/-- Run a sequence of callback-interface calls on device `vdev`, in order. -/
def run_callback_calls (vdev : Nat) : List CallbackCall → State → Option State
  | [], s => some s
  | CallbackCall.register mon_cb context :: rest, s =>
    (pkt_capture_register_callbacks (some vdev) mon_cb context s).bind
      (fun r => run_callback_calls vdev rest r.2)
  | CallbackCall.deregister :: rest, s =>
    (pkt_capture_deregister_callbacks (some vdev) s).bind
      (fun r => run_callback_calls vdev rest r.2)

/-- A registration passes a matched pair when its callback and its context are both
present or both absent; a deregistration always does. -/
def CallbackCall.matched : CallbackCall → Bool
  | CallbackCall.register mon_cb context => mon_cb.isSome == context.isSome
  | CallbackCall.deregister => true

/-- The pair a sequence of calls leaves in a callback context that held `init`: the
arguments of the last call (empty for a deregistration). -/
def last_pair (init : Option Nat × Option Nat) : List CallbackCall → Option Nat × Option Nat
  | [] => init
  | CallbackCall.register mon_cb context :: rest => last_pair (mon_cb, context) rest
  | CallbackCall.deregister :: rest => last_pair (none, none) rest

/-- The states reachable from the empty state by completed calls of the four
lifecycle hooks and of the accessors, with arbitrary arguments and outcomes, under
the proviso that a detach of an attached object succeeds.  The object manager may
at any time change which device is a controller's station-mode device, the
configuration store and the reference counts (`env`). -/
inductive Reachable : State → Prop where
  | empty : Reachable State.empty
  | env (s : State) (sta : Nat → Option Nat) (cfg ref : Nat → Nat) :
      Reachable s → Reachable { s with sta_vdev := sta, cfg := cfg, vdev_ref := ref }
  | vdev_create (s s' : State) (o : vdev_create_outcomes) (vdev : Nat) (st : QDF_STATUS) :
      Reachable s → o.detach = QDF_STATUS.QDF_STATUS_SUCCESS →
      pkt_capture_vdev_create_notification o vdev s = some (st, s') → Reachable s'
  | vdev_destroy (s s' : State) (d : QDF_STATUS) (vdev : Nat) (st : QDF_STATUS) :
      Reachable s →
      (pkt_capture_vdev_get_priv s vdev ≠ none → d = QDF_STATUS.QDF_STATUS_SUCCESS) →
      pkt_capture_vdev_destroy_notification d vdev s = some (st, s') → Reachable s'
  | psoc_create (s s' : State) (ok : Bool) (attach : QDF_STATUS) (psoc : Nat)
      (st : QDF_STATUS) :
      Reachable s →
      pkt_capture_psoc_create_notification ok attach psoc s = some (st, s') → Reachable s'
  | psoc_destroy (s s' : State) (d : QDF_STATUS) (psoc : Nat) (st : QDF_STATUS) :
      Reachable s →
      (pkt_capture_psoc_get_priv s psoc ≠ none → d = QDF_STATUS.QDF_STATUS_SUCCESS) →
      pkt_capture_psoc_destroy_notification d psoc s = some (st, s') → Reachable s'
  | register (s s' : State) (vdev mon_cb context : Option Nat) (st : QDF_STATUS) :
      Reachable s →
      pkt_capture_register_callbacks vdev mon_cb context s = some (st, s') → Reachable s'
  | deregister (s s' : State) (vdev : Option Nat) (st : QDF_STATUS) :
      Reachable s →
      pkt_capture_deregister_callbacks vdev s = some (st, s') → Reachable s'
  | set_pktcap_mode (s s' : State) (psoc : Option Nat) (mode : pkt_capture_mode) :
      Reachable s → pkt_capture_set_pktcap_mode psoc mode s = some s' → Reachable s'
  | get_pktcap_mode (s s' : State) (psoc : Option Nat) (mode : pkt_capture_mode) :
      Reachable s → pkt_capture_get_pktcap_mode psoc s = some (mode, s') → Reachable s'

/-- What the ownership invariant needs to know of a block: its struct type and, for
a device's private state, the two context pointers. -/
inductive Shape where
  | vdev_priv (cb_ctx mon_ctx : Option Nat)
  | cb_ctx
  | mon_ctx
  | psoc_priv
  deriving DecidableEq, Repr

/-- The shape of an object. -/
def Obj.shape : Obj → Shape
  | Obj.vdev_priv v => Shape.vdev_priv v.cb_ctx v.mon_ctx
  | Obj.cb_ctx _ => Shape.cb_ctx
  | Obj.mon_ctx _ => Shape.mon_ctx
  | Obj.psoc_priv _ => Shape.psoc_priv

/-- The shape of the block at an address, `none` when no block is live there. -/
def Heap.shape (h : Heap) (a : Nat) : Option Shape :=
  (Heap.get h a).map Obj.shape

/-- The ownership invariant, on the device slots `vs`, the controller slots `ps` and
the shapes `sh` of the live blocks: every attached device private state is live and
points to a live callback context and a live monitor context; two devices share no
block; every attached controller private state is live; two controllers share no
block. -/
def ownership_inv (vs ps : Nat → Option Nat) (sh : Nat → Option Shape) : Prop :=
  (∀ vd p, vs vd = some p →
    ∃ c m, sh p = some (Shape.vdev_priv (some c) (some m)) ∧
      sh c = some Shape.cb_ctx ∧ sh m = some Shape.mon_ctx) ∧
  (∀ vd1 vd2 p1 p2 c1 c2 m1 m2, vd1 ≠ vd2 → vs vd1 = some p1 → vs vd2 = some p2 →
    sh p1 = some (Shape.vdev_priv (some c1) (some m1)) →
    sh p2 = some (Shape.vdev_priv (some c2) (some m2)) →
    p1 ≠ p2 ∧ c1 ≠ c2 ∧ m1 ≠ m2) ∧
  (∀ P q, ps P = some q → sh q = some Shape.psoc_priv) ∧
  (∀ P1 P2 q, P1 ≠ P2 → ps P1 = some q → ps P2 ≠ some q)

/-- The ownership invariant of a state. -/
def State.ownership_ok (s : State) : Prop :=
  ownership_inv s.vdev_comp_priv s.psoc_comp_priv s.heap.shape

/-! ## Concrete states -/

/-- A state in which device 7 has its private state at block 1, owning the
callback context at block 2 (a registered pair and mode 1) and the monitor context
at block 3. -/
def State.with_device : State :=
  { State.empty with
    heap := [(3, Obj.mon_ctx ⟨true, true⟩), (2, Obj.cb_ctx ⟨some 11, some 12, 1⟩),
      (1, Obj.vdev_priv ⟨some 7, some 2, some 3⟩)],
    vdev_comp_priv := fun v => if v = 7 then some 1 else none }

/-- A state in which controller 3 has its private state at block 1, with the
configured mode 2. -/
def State.with_controller : State :=
  { State.empty with
    heap := [(1, Obj.psoc_priv ⟨some 3, ⟨2⟩⟩)],
    psoc_comp_priv := fun c => if c = 3 then some 1 else none }

/-- The state `State.with_device` in which device 7 is the station-mode device of
controller 3. -/
def State.with_station_device : State :=
  { State.with_device with sta_vdev := fun c => if c = 3 then some 7 else none }

/-! ## Heap lemmas -/

theorem Heap.get_cons (b : Nat) (o : Obj) (h : Heap) (a : Nat) :
    Heap.get ((b, o) :: h) a = if b = a then some o else Heap.get h a := rfl

theorem Heap.set_cons (b : Nat) (o : Obj) (h : Heap) (a : Nat) (x : Obj) :
    Heap.set ((b, o) :: h) a x = (if b = a then (b, x) else (b, o)) :: Heap.set h a x := rfl

theorem Heap.free_cons (b : Nat) (o : Obj) (h : Heap) (a : Nat) :
    Heap.free ((b, o) :: h) a = if b = a then Heap.free h a else (b, o) :: Heap.free h a := by
  by_cases hb : b = a <;> simp [Heap.free, List.filter_cons, hb]

theorem Heap.get_of_fresh_le (h : Heap) (a : Nat) (ha : Heap.fresh h ≤ a) :
    Heap.get h a = none := by
  induction h with
  | nil => rfl
  | cons e h ih =>
    obtain ⟨b, o⟩ := e
    simp only [Heap.fresh] at ha
    have h1 : b ≠ a := by omega
    have h2 : Heap.fresh h ≤ a := by omega
    rw [Heap.get_cons, if_neg h1, ih h2]

theorem Heap.lt_fresh_of_get (h : Heap) (a : Nat) (x : Obj) (ha : Heap.get h a = some x) :
    a < Heap.fresh h := by
  by_contra hge
  rw [Heap.get_of_fresh_le h a (by omega)] at ha
  cases ha

theorem Heap.set_of_get_none (h : Heap) (a : Nat) (x : Obj) (ha : Heap.get h a = none) :
    Heap.set h a x = h := by
  induction h with
  | nil => rfl
  | cons e h ih =>
    obtain ⟨b, o⟩ := e
    rw [Heap.get_cons] at ha
    by_cases hb : b = a
    · rw [if_pos hb] at ha; cases ha
    · rw [if_neg hb] at ha
      rw [Heap.set_cons, if_neg hb, ih ha]

theorem Heap.free_of_get_none (h : Heap) (a : Nat) (ha : Heap.get h a = none) :
    Heap.free h a = h := by
  induction h with
  | nil => rfl
  | cons e h ih =>
    obtain ⟨b, o⟩ := e
    rw [Heap.get_cons] at ha
    by_cases hb : b = a
    · rw [if_pos hb] at ha; cases ha
    · rw [if_neg hb] at ha
      rw [Heap.free_cons, if_neg hb, ih ha]

theorem Heap.get_set (h : Heap) (a : Nat) (x : Obj) (b : Nat) :
    Heap.get (Heap.set h a x) b =
      if b = a then (Heap.get h b).map (fun _ => x) else Heap.get h b := by
  induction h with
  | nil => simp [Heap.set, Heap.get]
  | cons e h ih =>
    obtain ⟨k, o⟩ := e
    rw [Heap.set_cons]
    by_cases hk : k = a
    · subst hk
      rw [if_pos rfl, Heap.get_cons, Heap.get_cons, ih]
      by_cases hb : k = b
      · subst hb; simp
      · have hb2 : ¬ b = k := fun h => hb h.symm
        simp [hb, hb2]
    · rw [if_neg hk, Heap.get_cons, Heap.get_cons, ih]
      by_cases hb : k = b
      · subst hb; simp [hk]
      · simp [hb]

theorem Heap.get_free (h : Heap) (a b : Nat) :
    Heap.get (Heap.free h a) b = if b = a then none else Heap.get h b := by
  induction h with
  | nil => simp [Heap.free, Heap.get]
  | cons e h ih =>
    obtain ⟨k, o⟩ := e
    rw [Heap.free_cons]
    by_cases hk : k = a
    · subst hk
      rw [if_pos rfl, ih, Heap.get_cons]
      by_cases hb : b = k
      · simp [hb]
      · have hb2 : ¬ k = b := fun h => hb h.symm
        simp [hb, hb2]
    · rw [if_neg hk, Heap.get_cons, Heap.get_cons, ih]
      by_cases hb : k = b
      · subst hb; simp [hk]
      · simp [hb]

theorem Heap.free_set_self (h : Heap) (a : Nat) (x : Obj) :
    Heap.free (Heap.set h a x) a = Heap.free h a := by
  induction h with
  | nil => rfl
  | cons e h ih =>
    obtain ⟨k, o⟩ := e
    rw [Heap.set_cons]
    by_cases hk : k = a
    · rw [if_pos hk, Heap.free_cons, Heap.free_cons, if_pos hk, if_pos hk, ih]
    · rw [if_neg hk, Heap.free_cons, Heap.free_cons, if_neg hk, if_neg hk, ih]

theorem Heap.set_set (h : Heap) (a : Nat) (x y : Obj) :
    Heap.set (Heap.set h a x) a y = Heap.set h a y := by
  induction h with
  | nil => rfl
  | cons e h ih =>
    obtain ⟨k, o⟩ := e
    rw [Heap.set_cons, Heap.set_cons]
    by_cases hk : k = a
    · rw [if_pos hk, if_pos hk, Heap.set_cons, if_pos hk, ih]
    · rw [if_neg hk, Heap.set_cons, if_neg hk, ih]

theorem Heap.fresh_set (h : Heap) (a : Nat) (x : Obj) :
    Heap.fresh (Heap.set h a x) = Heap.fresh h := by
  induction h with
  | nil => rfl
  | cons e h ih =>
    obtain ⟨k, o⟩ := e
    rw [Heap.set_cons]
    by_cases hk : k = a
    · rw [if_pos hk]; simp only [Heap.fresh, ih]
    · rw [if_neg hk]; simp only [Heap.fresh, ih]

theorem Heap.keys_set (h : Heap) (a : Nat) (x : Obj) :
    (Heap.set h a x).map Prod.fst = h.map Prod.fst := by
  induction h with
  | nil => rfl
  | cons e h ih =>
    obtain ⟨k, o⟩ := e
    rw [Heap.set_cons]
    by_cases hk : k = a
    · rw [if_pos hk]; simp [ih]
    · rw [if_neg hk]; simp [ih]

theorem Heap.mem_keys_iff (h : Heap) (a : Nat) :
    a ∈ h.map Prod.fst ↔ (Heap.get h a).isSome = true := by
  induction h with
  | nil => simp [Heap.get]
  | cons e h ih =>
    obtain ⟨k, o⟩ := e
    rw [Heap.get_cons]
    by_cases hk : k = a
    · simp [hk]
    · have hk2 : ¬ a = k := fun h => hk h.symm
      simp [hk, hk2, ih]

theorem Heap.keys_free (h : Heap) (a : Nat) :
    (Heap.free h a).map Prod.fst = (h.map Prod.fst).filter (fun k => decide (k ≠ a)) := by
  induction h with
  | nil => rfl
  | cons e h ih =>
    obtain ⟨k, o⟩ := e
    rw [Heap.free_cons]
    by_cases hk : k = a
    · rw [if_pos hk, ih]; simp [List.filter_cons, hk]
    · rw [if_neg hk]; simp [List.filter_cons, hk, ih]

theorem Heap.count_set (h : Heap) (a : Nat) (x : Obj) :
    Heap.count (Heap.set h a x) = Heap.count h := by
  simp [Heap.count, Heap.keys_set]

theorem Heap.count_free (h : Heap) (a : Nat) (ha : (Heap.get h a).isSome = true) :
    Heap.count (Heap.free h a) + 1 = Heap.count h := by
  have hm : a ∈ (h.map Prod.fst).toFinset := by
    rw [List.mem_toFinset]; exact (Heap.mem_keys_iff h a).2 ha
  unfold Heap.count
  rw [← List.card_toFinset, ← List.card_toFinset, Heap.keys_free, List.toFinset_filter,
    Finset.filter_congr_decidable]
  have : Finset.filter (fun k => decide (k ≠ a) = true) (h.map Prod.fst).toFinset
      = (h.map Prod.fst).toFinset.erase a := by
    ext k; simp [Finset.mem_erase]; tauto
  rw [this, Finset.card_erase_of_mem hm]
  have := Finset.card_pos.2 ⟨a, hm⟩
  omega

theorem Heap.count_alloc (h : Heap) (a : Nat) (o : Obj) (ha : Heap.get h a = none) :
    Heap.count ((a, o) :: h) = Heap.count h + 1 := by
  have hm : a ∉ h.map Prod.fst := by
    rw [Heap.mem_keys_iff, ha]; simp
  unfold Heap.count
  rw [List.map_cons, List.dedup_cons_of_not_mem hm, List.length_cons]

@[simp] theorem Heap.get_fresh (h : Heap) : Heap.get h (Heap.fresh h) = none :=
  Heap.get_of_fresh_le h _ (Nat.le_refl _)

@[simp] theorem Heap.get_fresh_add (h : Heap) (n : Nat) : Heap.get h (Heap.fresh h + n) = none :=
  Heap.get_of_fresh_le h _ (Nat.le_add_right _ _)

@[simp] theorem Heap.set_fresh (h : Heap) (x : Obj) : Heap.set h (Heap.fresh h) x = h :=
  Heap.set_of_get_none h _ x (Heap.get_fresh h)

@[simp] theorem Heap.set_fresh_add (h : Heap) (n : Nat) (x : Obj) :
    Heap.set h (Heap.fresh h + n) x = h :=
  Heap.set_of_get_none h _ x (Heap.get_fresh_add h n)

@[simp] theorem Heap.free_fresh (h : Heap) : Heap.free h (Heap.fresh h) = h :=
  Heap.free_of_get_none h _ (Heap.get_fresh h)

@[simp] theorem Heap.free_fresh_add (h : Heap) (n : Nat) : Heap.free h (Heap.fresh h + n) = h :=
  Heap.free_of_get_none h _ (Heap.get_fresh_add h n)

@[simp] theorem Heap.fresh_alloc (h : Heap) (o : Obj) :
    Heap.fresh ((Heap.fresh h, o) :: h) = Heap.fresh h + 1 := by
  simp [Heap.fresh]

@[simp] theorem Heap.fresh_alloc_two (h : Heap) (o o1 : Obj) :
    Heap.fresh ((Heap.fresh h + 1, o) :: (Heap.fresh h, o1) :: h) = Heap.fresh h + 2 := by
  simp only [Heap.fresh]; omega

theorem Heap.count_alloc_three (h : Heap) (x y z : Obj) :
    Heap.count ((Heap.fresh h + 2, z) :: (Heap.fresh h + 1, y) :: (Heap.fresh h, x) :: h)
      = Heap.count h + 3 := by
  have c1 := Heap.count_alloc h (Heap.fresh h) x (by simp)
  have c2 := Heap.count_alloc ((Heap.fresh h, x) :: h) (Heap.fresh h + 1) y
    (by simp [Heap.get_cons])
  have c3 := Heap.count_alloc ((Heap.fresh h + 1, y) :: (Heap.fresh h, x) :: h)
    (Heap.fresh h + 2) z (by simp [Heap.get_cons])
  omega

theorem Heap.shape_cons (a : Nat) (o : Obj) (h : Heap) (x : Nat) :
    Heap.shape ((a, o) :: h) x = if a = x then some o.shape else Heap.shape h x := by
  unfold Heap.shape
  rw [Heap.get_cons]
  split <;> rfl

theorem Heap.shape_free (h : Heap) (a x : Nat) :
    Heap.shape (Heap.free h a) x = if x = a then none else Heap.shape h x := by
  unfold Heap.shape
  rw [Heap.get_free]
  split <;> rfl

theorem Heap.shape_set_cb (h : Heap) (a : Nat) (c x : pkt_capture_cb_context)
    (hc : Heap.get h a = some (Obj.cb_ctx c)) :
    Heap.shape (Heap.set h a (Obj.cb_ctx x)) = Heap.shape h := by
  funext b
  unfold Heap.shape
  rw [Heap.get_set]
  by_cases hb : b = a
  · subst hb; simp [hc, Obj.shape]
  · simp [hb]

theorem Heap.get_of_shape_vdev_priv (h : Heap) (p : Nat) (c m : Option Nat)
    (hs : Heap.shape h p = some (Shape.vdev_priv c m)) :
    ∃ back, Heap.get h p = some (Obj.vdev_priv ⟨back, c, m⟩) := by
  unfold Heap.shape at hs
  cases hg : Heap.get h p with
  | none => rw [hg] at hs; cases hs
  | some x =>
    rw [hg] at hs
    cases x with
    | vdev_priv v =>
      obtain ⟨back, vc, vm⟩ := v
      simp only [Option.map_some', Obj.shape, Option.some.injEq, Shape.vdev_priv.injEq] at hs
      obtain ⟨e1, e2⟩ := hs
      subst e1; subst e2
      exact ⟨back, rfl⟩
    | cb_ctx _ => simp [Obj.shape] at hs
    | mon_ctx _ => simp [Obj.shape] at hs
    | psoc_priv _ => simp [Obj.shape] at hs

theorem Heap.get_of_shape_cb_ctx (h : Heap) (a : Nat)
    (hs : Heap.shape h a = some Shape.cb_ctx) :
    ∃ cc, Heap.get h a = some (Obj.cb_ctx cc) := by
  unfold Heap.shape at hs
  cases hg : Heap.get h a with
  | none => rw [hg] at hs; cases hs
  | some x =>
    rw [hg] at hs
    cases x with
    | cb_ctx cc => exact ⟨cc, rfl⟩
    | vdev_priv _ => simp [Obj.shape] at hs
    | mon_ctx _ => simp [Obj.shape] at hs
    | psoc_priv _ => simp [Obj.shape] at hs

theorem Heap.get_of_shape_mon_ctx (h : Heap) (a : Nat)
    (hs : Heap.shape h a = some Shape.mon_ctx) :
    ∃ mc, Heap.get h a = some (Obj.mon_ctx mc) := by
  unfold Heap.shape at hs
  cases hg : Heap.get h a with
  | none => rw [hg] at hs; cases hs
  | some x =>
    rw [hg] at hs
    cases x with
    | mon_ctx mc => exact ⟨mc, rfl⟩
    | vdev_priv _ => simp [Obj.shape] at hs
    | cb_ctx _ => simp [Obj.shape] at hs
    | psoc_priv _ => simp [Obj.shape] at hs

theorem Heap.get_of_shape_psoc_priv (h : Heap) (a : Nat)
    (hs : Heap.shape h a = some Shape.psoc_priv) :
    ∃ pp, Heap.get h a = some (Obj.psoc_priv pp) := by
  unfold Heap.shape at hs
  cases hg : Heap.get h a with
  | none => rw [hg] at hs; cases hs
  | some x =>
    rw [hg] at hs
    cases x with
    | psoc_priv pp => exact ⟨pp, rfl⟩
    | vdev_priv _ => simp [Obj.shape] at hs
    | cb_ctx _ => simp [Obj.shape] at hs
    | mon_ctx _ => simp [Obj.shape] at hs

/-! ## Typed reads and the attachment predicates -/

theorem State.read_vdev_priv_some (s : State) (p : Nat) (v : pkt_capture_vdev_priv) :
    s.read_vdev_priv (some p) = some v ↔ s.heap.get p = some (Obj.vdev_priv v) := by
  cases h : s.heap.get p with
  | none => simp [State.read_vdev_priv, State.read_cb_ctx, State.read_mon_ctx,
      State.read_psoc_priv, h]
  | some x =>
    cases x <;> simp [State.read_vdev_priv, State.read_cb_ctx, State.read_mon_ctx,
      State.read_psoc_priv, h]

theorem State.read_cb_ctx_some (s : State) (p : Nat) (v : pkt_capture_cb_context) :
    s.read_cb_ctx (some p) = some v ↔ s.heap.get p = some (Obj.cb_ctx v) := by
  cases h : s.heap.get p with
  | none => simp [State.read_vdev_priv, State.read_cb_ctx, State.read_mon_ctx,
      State.read_psoc_priv, h]
  | some x =>
    cases x <;> simp [State.read_vdev_priv, State.read_cb_ctx, State.read_mon_ctx,
      State.read_psoc_priv, h]

theorem State.read_mon_ctx_some (s : State) (p : Nat) (v : pkt_capture_mon_context) :
    s.read_mon_ctx (some p) = some v ↔ s.heap.get p = some (Obj.mon_ctx v) := by
  cases h : s.heap.get p with
  | none => simp [State.read_vdev_priv, State.read_cb_ctx, State.read_mon_ctx,
      State.read_psoc_priv, h]
  | some x =>
    cases x <;> simp [State.read_vdev_priv, State.read_cb_ctx, State.read_mon_ctx,
      State.read_psoc_priv, h]

theorem State.read_psoc_priv_some (s : State) (p : Nat) (v : pkt_psoc_priv) :
    s.read_psoc_priv (some p) = some v ↔ s.heap.get p = some (Obj.psoc_priv v) := by
  cases h : s.heap.get p with
  | none => simp [State.read_vdev_priv, State.read_cb_ctx, State.read_mon_ctx,
      State.read_psoc_priv, h]
  | some x =>
    cases x <;> simp [State.read_vdev_priv, State.read_cb_ctx, State.read_mon_ctx,
      State.read_psoc_priv, h]

/-- What `vdev_priv_attached` says about the heap cells. -/
theorem vdev_priv_attached_cells (s : State) (vdev p c m : Nat)
    (h : vdev_priv_attached s vdev p c m) :
    pkt_capture_vdev_get_priv s vdev = some p ∧
    (∃ back, s.heap.get p = some (Obj.vdev_priv ⟨back, some c, some m⟩)) ∧
    (∃ cc, s.heap.get c = some (Obj.cb_ctx cc)) ∧
    (∃ mc, s.heap.get m = some (Obj.mon_ctx mc)) ∧
    p ≠ c ∧ p ≠ m ∧ c ≠ m := by
  obtain ⟨h0, h1, h2, h3, h4⟩ := h
  cases hv : s.read_vdev_priv (some p) with
  | none => rw [hv] at h1; cases h1
  | some v =>
    rw [hv] at h1 h2
    obtain ⟨back, vc, vm⟩ := v
    simp only [Option.map_some', Option.some.injEq] at h1 h2
    subst h1; subst h2
    have hp := (State.read_vdev_priv_some s p _).1 hv
    cases hc : s.read_cb_ctx (some c) with
    | none => rw [hc] at h3; cases h3
    | some cc =>
      have hc1 := (State.read_cb_ctx_some s c _).1 hc
      cases hm : s.read_mon_ctx (some m) with
      | none => rw [hm] at h4; cases h4
      | some mc =>
        have hm1 := (State.read_mon_ctx_some s m _).1 hm
        refine ⟨h0, ⟨back, hp⟩, ⟨cc, hc1⟩, ⟨mc, hm1⟩, ?_, ?_, ?_⟩
        · intro e; rw [e, hc1] at hp; cases hp
        · intro e; rw [e, hm1] at hp; cases hp
        · intro e; rw [e, hm1] at hc1; cases hc1

theorem psoc_priv_attached_cells (s : State) (psoc p : Nat) (h : psoc_priv_attached s psoc p) :
    pkt_capture_psoc_get_priv s psoc = some p ∧
    ∃ pp, s.heap.get p = some (Obj.psoc_priv pp) := by
  obtain ⟨h0, h1⟩ := h
  cases hv : s.read_psoc_priv (some p) with
  | none => rw [hv] at h1; cases h1
  | some v => exact ⟨h0, v, (State.read_psoc_priv_some s p v).1 hv⟩

/-- What `vdev_priv_attached` gives the accessors: the private state and the
callback context it points to can be read. -/
theorem vdev_priv_attached_reads (s : State) (vd p c m : Nat)
    (h : vdev_priv_attached s vd p c m) :
    pkt_capture_vdev_get_priv s vd = some p ∧
    ∃ v cc, s.read_vdev_priv (some p) = some v ∧ v.cb_ctx = some c ∧
      s.read_cb_ctx (some c) = some cc := by
  obtain ⟨h0, ⟨back, hp⟩, ⟨cc, hc⟩, -, -, -, -⟩ := vdev_priv_attached_cells s vd p c m h
  exact ⟨h0, ⟨back, some c, some m⟩, cc, (State.read_vdev_priv_some s p _).2 hp, rfl,
    (State.read_cb_ctx_some s c cc).2 hc⟩

/-- The private state at `p` and the callback context it points to can be read. -/
theorem cb_ctx_readable_or_not (s : State) (p : Nat) :
    (∃ v a c, s.read_vdev_priv (some p) = some v ∧ v.cb_ctx = some a ∧
      s.read_cb_ctx (some a) = some c) ∨
    (s.read_vdev_priv (some p)).bind
      (fun v => v.cb_ctx.bind (fun a => s.read_cb_ctx (some a))) = none := by
  cases hv : s.read_vdev_priv (some p) with
  | none => exact Or.inr rfl
  | some v =>
    cases ha : v.cb_ctx with
    | none => right; simp [ha]
    | some a =>
      cases hc : s.read_cb_ctx (some a) with
      | none => right; simp [ha, hc]
      | some c => exact Or.inl ⟨v, a, c, rfl, ha, hc⟩

/-- Overwriting a callback context leaves every private state readable as before. -/
theorem read_vdev_priv_of_set_cb (s s' : State) (a : Nat) (x c : pkt_capture_cb_context)
    (hh : s'.heap = s.heap.set a (Obj.cb_ctx x)) (hc : s.read_cb_ctx (some a) = some c)
    (p : Nat) (v : pkt_capture_vdev_priv) (hv : s.read_vdev_priv (some p) = some v) :
    s'.read_vdev_priv (some p) = some v := by
  have hp := (State.read_vdev_priv_some s p v).1 hv
  have hc1 := (State.read_cb_ctx_some s a c).1 hc
  have hpa : p ≠ a := by
    intro e; rw [e, hc1] at hp; cases hp
  rw [State.read_vdev_priv_some, hh, Heap.get_set, if_neg hpa]
  exact hp

/-- Overwriting a callback context makes it read as the value written. -/
theorem read_cb_ctx_of_set_cb (s s' : State) (a : Nat) (x c : pkt_capture_cb_context)
    (hh : s'.heap = s.heap.set a (Obj.cb_ctx x)) (hc : s.read_cb_ctx (some a) = some c) :
    s'.read_cb_ctx (some a) = some x := by
  have hc1 := (State.read_cb_ctx_some s a c).1 hc
  rw [State.read_cb_ctx_some, hh, Heap.get_set, if_pos rfl, hc1]
  rfl

/-- Overwriting a callback context leaves a controller's private state as it was. -/
theorem psoc_cell_of_set_cb (s : State) (a : Nat) (c x : pkt_capture_cb_context) (q : Nat)
    (pp : pkt_psoc_priv) (hc : s.read_cb_ctx (some a) = some c)
    (hq : s.heap.get q = some (Obj.psoc_priv pp)) :
    (s.heap.set a (Obj.cb_ctx x)).get q = some (Obj.psoc_priv pp) := by
  have hc1 := (State.read_cb_ctx_some s a c).1 hc
  have hqa : q ≠ a := by
    intro e; rw [e, hc1] at hq; cases hq
  rw [Heap.get_set, if_neg hqa, hq]

/-- Overwriting the callback context of a device leaves its private state attached. -/
theorem vdev_priv_attached_of_set_cb (s s' : State) (vd p c m : Nat)
    (x : pkt_capture_cb_context) (h : vdev_priv_attached s vd p c m)
    (hh : s'.heap = s.heap.set c (Obj.cb_ctx x))
    (hv : s'.vdev_comp_priv = s.vdev_comp_priv) : vdev_priv_attached s' vd p c m := by
  obtain ⟨h0, ⟨back, hp⟩, ⟨cc, hc⟩, ⟨mc, hm⟩, hpc, hpm, hcm⟩ :=
    vdev_priv_attached_cells s vd p c m h
  have hmc : m ≠ c := fun e => hcm e.symm
  refine ⟨?_, ?_, ?_, ?_, ?_⟩
  · simp only [pkt_capture_vdev_get_priv] at h0 ⊢
    rw [hv]; exact h0
  · simp [State.read_vdev_priv, hh, Heap.get_set, hpc, hp]
  · simp [State.read_vdev_priv, hh, Heap.get_set, hpc, hp]
  · simp [State.read_cb_ctx, hh, Heap.get_set, hc]
  · simp [State.read_mon_ctx, hh, Heap.get_set, hmc, hm]

/-- The configured mode depends only on the controller's slot and on the block it
points to. -/
theorem get_mode_of_cell (s : State) (ps q : Nat) (pp : pkt_psoc_priv)
    (hslot : s.psoc_comp_priv ps = some q) (hcell : s.heap.get q = some (Obj.psoc_priv pp)) :
    pkt_capture_get_mode s (some ps) = some pp.cfg_param.pkt_capture_mode := by
  simp [pkt_capture_get_mode, pkt_capture_psoc_get_priv, hslot, State.read_psoc_priv, hcell]

/-! ## The hooks, outcome by outcome

Each lemma computes the result of a hook or an accessor for one combination of
outcomes. -/

theorem vdev_create_priv_alloc_fail (o : vdev_create_outcomes) (vdev : Nat) (s : State)
    (h1 : o.vdev_priv_alloc = false) :
    pkt_capture_vdev_create_notification o vdev s =
      some (QDF_STATUS_E_NOMEM, { s with trace := s.trace ++ [Event.qdf_mem_malloc none] }) := by
  simp [pkt_capture_vdev_create_notification, qdf_mem_malloc, h1, State.log]

theorem vdev_create_attach_fail (o : vdev_create_outcomes) (vdev : Nat) (s : State)
    (h1 : o.vdev_priv_alloc = true) (h2 : o.attach ≠ QDF_STATUS_SUCCESS) :
    pkt_capture_vdev_create_notification o vdev s =
      some (o.attach, { s with trace := s.trace ++
        [Event.qdf_mem_malloc (some s.heap.fresh),
         Event.vdev_component_obj_attach vdev s.heap.fresh o.attach,
         Event.qdf_mem_free (some s.heap.fresh)] }) := by
  simp [pkt_capture_vdev_create_notification, qdf_mem_malloc, h1, h2, State.log,
    wlan_objmgr_vdev_component_obj_attach, QDF_IS_STATUS_ERROR, free_vdev_priv, qdf_mem_free,
    Heap.get_cons, Heap.free_cons]

theorem vdev_create_cb_ctx_alloc_fail (o : vdev_create_outcomes) (vdev : Nat) (s : State)
    (h1 : o.vdev_priv_alloc = true) (h2 : o.attach = QDF_STATUS_SUCCESS)
    (h3 : o.cb_ctx_alloc = false) :
    pkt_capture_vdev_create_notification o vdev s =
      some (QDF_STATUS_E_NOMEM, { s with
        vdev_comp_priv :=
          if o.detach = QDF_STATUS_SUCCESS then
            Function.update (Function.update s.vdev_comp_priv vdev (some s.heap.fresh)) vdev none
          else Function.update s.vdev_comp_priv vdev (some s.heap.fresh),
        trace := s.trace ++
        [Event.qdf_mem_malloc (some s.heap.fresh),
         Event.vdev_component_obj_attach vdev s.heap.fresh QDF_STATUS_SUCCESS,
         Event.qdf_mem_malloc none,
         Event.vdev_component_obj_detach vdev s.heap.fresh o.detach,
         Event.qdf_mem_free (some s.heap.fresh)] }) := by
  simp [pkt_capture_vdev_create_notification, qdf_mem_malloc, h1, h2, h3, State.log,
    wlan_objmgr_vdev_component_obj_attach, QDF_IS_STATUS_ERROR, QDF_IS_STATUS_SUCCESS,
    free_vdev_priv, qdf_mem_free, detach_vdev_priv, wlan_objmgr_vdev_component_obj_detach,
    pkt_capture_callback_ctx_create, State.read_vdev_priv, State.write, zero_vdev_priv,
    Heap.get_cons, Heap.free_cons, Heap.set_cons]

theorem vdev_create_mon_ctx_alloc_fail (o : vdev_create_outcomes) (vdev : Nat) (s : State)
    (h1 : o.vdev_priv_alloc = true) (h2 : o.attach = QDF_STATUS_SUCCESS)
    (h3 : o.cb_ctx_alloc = true) (h4 : o.mon_ctx_alloc = false) :
    pkt_capture_vdev_create_notification o vdev s =
      some (QDF_STATUS_E_NOMEM, { s with
        vdev_comp_priv :=
          if o.detach = QDF_STATUS_SUCCESS then
            Function.update (Function.update s.vdev_comp_priv vdev (some s.heap.fresh)) vdev none
          else Function.update s.vdev_comp_priv vdev (some s.heap.fresh),
        trace := s.trace ++
        [Event.qdf_mem_malloc (some s.heap.fresh),
         Event.vdev_component_obj_attach vdev s.heap.fresh QDF_STATUS_SUCCESS,
         Event.qdf_mem_malloc (some (s.heap.fresh + 1)),
         Event.qdf_mem_malloc none,
         Event.qdf_mem_free (some (s.heap.fresh + 1)),
         Event.vdev_component_obj_detach vdev s.heap.fresh o.detach,
         Event.qdf_mem_free (some s.heap.fresh)] }) := by
  simp [pkt_capture_vdev_create_notification, qdf_mem_malloc, h1, h2, h3, h4, State.log,
    wlan_objmgr_vdev_component_obj_attach, QDF_IS_STATUS_ERROR, QDF_IS_STATUS_SUCCESS,
    free_vdev_priv, qdf_mem_free, detach_vdev_priv, wlan_objmgr_vdev_component_obj_detach,
    destroy_pkt_capture_cb_context, pkt_capture_callback_ctx_destroy,
    pkt_capture_mon_context_create,
    pkt_capture_callback_ctx_create, State.read_vdev_priv, State.write, zero_vdev_priv,
    Heap.get_cons, Heap.free_cons, Heap.set_cons]

theorem vdev_create_alloc_mon_thread_fail (o : vdev_create_outcomes) (vdev : Nat) (s : State)
    (h1 : o.vdev_priv_alloc = true) (h2 : o.attach = QDF_STATUS_SUCCESS)
    (h3 : o.cb_ctx_alloc = true) (h4 : o.mon_ctx_alloc = true)
    (h5 : o.alloc_mon_thread ≠ QDF_STATUS_SUCCESS) :
    pkt_capture_vdev_create_notification o vdev s =
      some (o.alloc_mon_thread, { s with
        vdev_comp_priv :=
          if o.detach = QDF_STATUS_SUCCESS then
            Function.update (Function.update s.vdev_comp_priv vdev (some s.heap.fresh)) vdev none
          else Function.update s.vdev_comp_priv vdev (some s.heap.fresh),
        trace := s.trace ++
        [Event.qdf_mem_malloc (some s.heap.fresh),
         Event.vdev_component_obj_attach vdev s.heap.fresh QDF_STATUS_SUCCESS,
         Event.qdf_mem_malloc (some (s.heap.fresh + 1)),
         Event.qdf_mem_malloc (some (s.heap.fresh + 2)),
         Event.alloc_mon_thread (s.heap.fresh + 2) o.alloc_mon_thread,
         Event.qdf_mem_free (some (s.heap.fresh + 2)),
         Event.qdf_mem_free (some (s.heap.fresh + 1)),
         Event.vdev_component_obj_detach vdev s.heap.fresh o.detach,
         Event.qdf_mem_free (some s.heap.fresh)] }) := by
  simp [pkt_capture_vdev_create_notification, qdf_mem_malloc, h1, h2, h3, h4, h5, State.log,
    wlan_objmgr_vdev_component_obj_attach, QDF_IS_STATUS_ERROR, QDF_IS_STATUS_SUCCESS,
    free_vdev_priv, qdf_mem_free, detach_vdev_priv, wlan_objmgr_vdev_component_obj_detach,
    destroy_pkt_capture_cb_context, pkt_capture_callback_ctx_destroy,
    destroy_mon_context, pkt_capture_mon_context_destroy,
    pkt_capture_mon_context_create, pkt_capture_alloc_mon_thread,
    pkt_capture_callback_ctx_create, State.read_vdev_priv, State.read_mon_ctx, State.write,
    zero_vdev_priv, zero_mon_ctx, zero_cb_ctx,
    Heap.get_cons, Heap.free_cons, Heap.set_cons]

theorem vdev_create_open_mon_thread_fail (o : vdev_create_outcomes) (vdev : Nat) (s : State)
    (h1 : o.vdev_priv_alloc = true) (h2 : o.attach = QDF_STATUS_SUCCESS)
    (h3 : o.cb_ctx_alloc = true) (h4 : o.mon_ctx_alloc = true)
    (h5 : o.alloc_mon_thread = QDF_STATUS_SUCCESS)
    (h6 : o.open_mon_thread ≠ QDF_STATUS_SUCCESS) :
    pkt_capture_vdev_create_notification o vdev s =
      some (o.open_mon_thread, { s with
        vdev_comp_priv :=
          if o.detach = QDF_STATUS_SUCCESS then
            Function.update (Function.update s.vdev_comp_priv vdev (some s.heap.fresh)) vdev none
          else Function.update s.vdev_comp_priv vdev (some s.heap.fresh),
        trace := s.trace ++
        [Event.qdf_mem_malloc (some s.heap.fresh),
         Event.vdev_component_obj_attach vdev s.heap.fresh QDF_STATUS_SUCCESS,
         Event.qdf_mem_malloc (some (s.heap.fresh + 1)),
         Event.qdf_mem_malloc (some (s.heap.fresh + 2)),
         Event.alloc_mon_thread (s.heap.fresh + 2) QDF_STATUS_SUCCESS,
         Event.open_mon_thread (s.heap.fresh + 2) o.open_mon_thread,
         Event.free_mon_pkt_freeq (s.heap.fresh + 2),
         Event.qdf_mem_free (some (s.heap.fresh + 2)),
         Event.qdf_mem_free (some (s.heap.fresh + 1)),
         Event.vdev_component_obj_detach vdev s.heap.fresh o.detach,
         Event.qdf_mem_free (some s.heap.fresh)] }) := by
  simp [pkt_capture_vdev_create_notification, qdf_mem_malloc, h1, h2, h3, h4, h5, h6, State.log,
    wlan_objmgr_vdev_component_obj_attach, QDF_IS_STATUS_ERROR, QDF_IS_STATUS_SUCCESS,
    free_vdev_priv, qdf_mem_free, detach_vdev_priv, wlan_objmgr_vdev_component_obj_detach,
    destroy_pkt_capture_cb_context, pkt_capture_callback_ctx_destroy,
    destroy_mon_context, pkt_capture_mon_context_destroy, open_mon_thread_fail,
    pkt_capture_free_mon_pkt_freeq, pkt_capture_open_mon_thread,
    pkt_capture_mon_context_create, pkt_capture_alloc_mon_thread,
    pkt_capture_callback_ctx_create, State.read_vdev_priv, State.read_mon_ctx, State.write,
    zero_vdev_priv, zero_mon_ctx, zero_cb_ctx,
    Heap.get_cons, Heap.free_cons, Heap.set_cons]

theorem vdev_create_all_succeed (o : vdev_create_outcomes) (vdev : Nat) (s : State)
    (h1 : o.vdev_priv_alloc = true) (h2 : o.attach = QDF_STATUS_SUCCESS)
    (h3 : o.cb_ctx_alloc = true) (h4 : o.mon_ctx_alloc = true)
    (h5 : o.alloc_mon_thread = QDF_STATUS_SUCCESS)
    (h6 : o.open_mon_thread = QDF_STATUS_SUCCESS) :
    pkt_capture_vdev_create_notification o vdev s =
      some (QDF_STATUS_SUCCESS, { s with
        heap :=
          (s.heap.fresh + 2, Obj.mon_ctx ⟨true, true⟩) ::
          (s.heap.fresh + 1, Obj.cb_ctx ⟨none, none, 0⟩) ::
          (s.heap.fresh,
            Obj.vdev_priv ⟨some vdev, some (s.heap.fresh + 1), some (s.heap.fresh + 2)⟩) ::
          s.heap,
        vdev_comp_priv := Function.update s.vdev_comp_priv vdev (some s.heap.fresh),
        trace := s.trace ++
        [Event.qdf_mem_malloc (some s.heap.fresh),
         Event.vdev_component_obj_attach vdev s.heap.fresh QDF_STATUS_SUCCESS,
         Event.qdf_mem_malloc (some (s.heap.fresh + 1)),
         Event.qdf_mem_malloc (some (s.heap.fresh + 2)),
         Event.alloc_mon_thread (s.heap.fresh + 2) QDF_STATUS_SUCCESS,
         Event.open_mon_thread (s.heap.fresh + 2) QDF_STATUS_SUCCESS] }) := by
  simp [pkt_capture_vdev_create_notification, qdf_mem_malloc, h1, h2, h3, h4, h5, h6, State.log,
    wlan_objmgr_vdev_component_obj_attach, QDF_IS_STATUS_ERROR, QDF_IS_STATUS_SUCCESS,
    pkt_capture_open_mon_thread,
    pkt_capture_mon_context_create, pkt_capture_alloc_mon_thread,
    pkt_capture_callback_ctx_create, State.read_vdev_priv, State.read_mon_ctx, State.write,
    zero_vdev_priv, zero_mon_ctx, zero_cb_ctx,
    Heap.get_cons, Heap.free_cons, Heap.set_cons]

/-- The state a successful creation leaves has the device's private state attached,
with an empty callback context. -/
theorem vdev_create_all_succeed_attached (o : vdev_create_outcomes) (vdev : Nat) (s : State)
    (h1 : o.vdev_priv_alloc = true) (h2 : o.attach = QDF_STATUS_SUCCESS)
    (h3 : o.cb_ctx_alloc = true) (h4 : o.mon_ctx_alloc = true)
    (h5 : o.alloc_mon_thread = QDF_STATUS_SUCCESS)
    (h6 : o.open_mon_thread = QDF_STATUS_SUCCESS) :
    ∃ s', pkt_capture_vdev_create_notification o vdev s = some (QDF_STATUS_SUCCESS, s') ∧
      vdev_priv_attached s' vdev s.heap.fresh (s.heap.fresh + 1) (s.heap.fresh + 2) ∧
      s'.read_cb_ctx (some (s.heap.fresh + 1)) = some ⟨none, none, 0⟩ := by
  refine ⟨_, vdev_create_all_succeed o vdev s h1 h2 h3 h4 h5 h6, ⟨?_, ?_, ?_, ?_, ?_⟩, ?_⟩
  · simp [pkt_capture_vdev_get_priv]
  · simp [State.read_vdev_priv, Heap.get_cons]
  · simp [State.read_vdev_priv, Heap.get_cons]
  · simp [State.read_cb_ctx, Heap.get_cons]
  · simp [State.read_mon_ctx, Heap.get_cons]
  · simp [State.read_cb_ctx, Heap.get_cons]

/-- The staged constructor touches no controller slot and no block that was live. -/
theorem vdev_create_frame (o : vdev_create_outcomes) (vdev : Nat) (s : State) :
    ∃ st s', pkt_capture_vdev_create_notification o vdev s = some (st, s') ∧
      s'.psoc_comp_priv = s.psoc_comp_priv ∧
      ∀ a x, s.heap.get a = some x → s'.heap.get a = some x := by
  by_cases h1 : o.vdev_priv_alloc = true
  swap
  · have h1 : o.vdev_priv_alloc = false := by simpa using h1
    exact ⟨_, _, vdev_create_priv_alloc_fail o vdev s h1, rfl, fun a x h => h⟩
  by_cases h2 : o.attach = QDF_STATUS_SUCCESS
  swap
  · exact ⟨_, _, vdev_create_attach_fail o vdev s h1 h2, rfl, fun a x h => h⟩
  by_cases h3 : o.cb_ctx_alloc = true
  swap
  · have h3 : o.cb_ctx_alloc = false := by simpa using h3
    exact ⟨_, _, vdev_create_cb_ctx_alloc_fail o vdev s h1 h2 h3, rfl, fun a x h => h⟩
  by_cases h4 : o.mon_ctx_alloc = true
  swap
  · have h4 : o.mon_ctx_alloc = false := by simpa using h4
    exact ⟨_, _, vdev_create_mon_ctx_alloc_fail o vdev s h1 h2 h3 h4, rfl, fun a x h => h⟩
  by_cases h5 : o.alloc_mon_thread = QDF_STATUS_SUCCESS
  swap
  · exact ⟨_, _, vdev_create_alloc_mon_thread_fail o vdev s h1 h2 h3 h4 h5, rfl,
      fun a x h => h⟩
  by_cases h6 : o.open_mon_thread = QDF_STATUS_SUCCESS
  swap
  · exact ⟨_, _, vdev_create_open_mon_thread_fail o vdev s h1 h2 h3 h4 h5 h6, rfl,
      fun a x h => h⟩
  · refine ⟨_, _, vdev_create_all_succeed o vdev s h1 h2 h3 h4 h5 h6, rfl, fun a x h => ?_⟩
    have hlt := Heap.lt_fresh_of_get s.heap a x h
    have e1 : ¬ s.heap.fresh + 2 = a := by omega
    have e2 : ¬ s.heap.fresh + 1 = a := by omega
    have e3 : ¬ s.heap.fresh = a := by omega
    simp [Heap.get_cons, e1, e2, e3, h]

theorem vdev_destroy_attached (d : QDF_STATUS) (vdev p c m : Nat) (s : State)
    (h : vdev_priv_attached s vdev p c m) :
    pkt_capture_vdev_destroy_notification d vdev s =
      some (d, { s with
        heap := ((s.heap.free m).free c).free p,
        vdev_comp_priv :=
          if d = QDF_STATUS_SUCCESS then Function.update s.vdev_comp_priv vdev none
          else s.vdev_comp_priv,
        trace := s.trace ++
          [Event.vdev_component_obj_detach vdev p d,
           Event.close_mon_thread m,
           Event.qdf_mem_free (some m),
           Event.qdf_mem_free (some c),
           Event.qdf_mem_free (some p)] }) := by
  obtain ⟨h0, ⟨back, hp⟩, ⟨cc, hc⟩, ⟨mc, hm⟩, hpc, hpm, hcm⟩ :=
    vdev_priv_attached_cells s vdev p c m h
  have hcp : c ≠ p := fun e => hpc e.symm
  have hmp : m ≠ p := fun e => hpm e.symm
  have hmc : m ≠ c := fun e => hcm e.symm
  simp [pkt_capture_vdev_destroy_notification, h0, wlan_objmgr_vdev_component_obj_detach,
    State.read_vdev_priv, State.read_mon_ctx, State.read_cb_ctx, State.write, State.log,
    pkt_capture_close_mon_thread, pkt_capture_mon_context_destroy,
    pkt_capture_callback_ctx_destroy, qdf_mem_free, Heap.get_set, Heap.get_free,
    Heap.free_set_self, hp, hc, hm, hpc, hpm, hcm, hcp, hmp, hmc]

theorem psoc_create_alloc_fail (attach : QDF_STATUS) (psoc : Nat) (s : State) :
    pkt_capture_psoc_create_notification false attach psoc s =
      some (QDF_STATUS_E_NOMEM, { s with trace := s.trace ++ [Event.qdf_mem_malloc none] }) := by
  simp [pkt_capture_psoc_create_notification, qdf_mem_malloc, State.log]

theorem psoc_create_attach_fail (attach : QDF_STATUS) (psoc : Nat) (s : State)
    (ha : attach ≠ QDF_STATUS_SUCCESS) :
    pkt_capture_psoc_create_notification true attach psoc s =
      some (attach, { s with trace := s.trace ++
        [Event.qdf_mem_malloc (some s.heap.fresh),
         Event.psoc_component_obj_attach psoc s.heap.fresh attach,
         Event.qdf_mem_free (some s.heap.fresh)] }) := by
  simp [pkt_capture_psoc_create_notification, qdf_mem_malloc, State.log, ha,
    wlan_objmgr_psoc_component_obj_attach, QDF_IS_STATUS_ERROR, qdf_mem_free,
    Heap.get_cons, Heap.free_cons]

theorem psoc_create_all_succeed (psoc : Nat) (s : State) :
    pkt_capture_psoc_create_notification true QDF_STATUS_SUCCESS psoc s =
      some (QDF_STATUS_SUCCESS, { s with
        heap := (s.heap.fresh, Obj.psoc_priv ⟨some psoc, ⟨s.cfg psoc⟩⟩) :: s.heap,
        psoc_comp_priv := Function.update s.psoc_comp_priv psoc (some s.heap.fresh),
        trace := s.trace ++
        [Event.qdf_mem_malloc (some s.heap.fresh),
         Event.psoc_component_obj_attach psoc s.heap.fresh QDF_STATUS_SUCCESS,
         Event.cfg_get (some psoc) (s.cfg psoc)] }) := by
  simp [pkt_capture_psoc_create_notification, qdf_mem_malloc, State.log,
    wlan_objmgr_psoc_component_obj_attach, QDF_IS_STATUS_ERROR, pkt_capture_cfg_init, cfg_get,
    State.read_psoc_priv, State.write, zero_psoc_priv, Heap.get_cons, Heap.set_cons]

theorem psoc_destroy_detach_ok (psoc p : Nat) (s : State) (h : psoc_priv_attached s psoc p) :
    pkt_capture_psoc_destroy_notification QDF_STATUS_SUCCESS psoc s =
      some (QDF_STATUS_SUCCESS, { s with
        heap := s.heap.free p,
        psoc_comp_priv := Function.update s.psoc_comp_priv psoc none,
        trace := s.trace ++
          [Event.psoc_component_obj_detach psoc p QDF_STATUS_SUCCESS,
           Event.qdf_mem_free (some p)] }) := by
  obtain ⟨h0, pp, hp⟩ := psoc_priv_attached_cells s psoc p h
  simp [pkt_capture_psoc_destroy_notification, h0, wlan_objmgr_psoc_component_obj_detach,
    QDF_IS_STATUS_ERROR, qdf_mem_free, hp]

theorem psoc_destroy_detach_fail (d : QDF_STATUS) (psoc p : Nat) (s : State)
    (h0 : pkt_capture_psoc_get_priv s psoc = some p) (hd : d ≠ QDF_STATUS_SUCCESS) :
    pkt_capture_psoc_destroy_notification d psoc s =
      some (d, { s with
        trace := s.trace ++ [Event.psoc_component_obj_detach psoc p d] }) := by
  simp [pkt_capture_psoc_destroy_notification, h0, wlan_objmgr_psoc_component_obj_detach,
    QDF_IS_STATUS_ERROR, hd]

/-- What the controller's destroy hook does on either detach outcome: for every
controller with attached (live) private state,
`pkt_capture_psoc_destroy_notification` returns the detach status; when the detach
succeeds it then frees the private state, which is no longer attached; when the
detach fails it returns at once, the private state stays allocated and attached and
nothing is freed. -/
theorem psoc_destroy_frees_iff_detached (d : QDF_STATUS) (psoc p : Nat) (s : State)
    (h : psoc_priv_attached s psoc p) :
    ∃ s', pkt_capture_psoc_destroy_notification d psoc s = some (d, s') ∧
      (d = QDF_STATUS_SUCCESS →
        s'.heap = s.heap.free p ∧ s'.heap.get p = none ∧
        pkt_capture_psoc_get_priv s' psoc = none ∧
        s'.trace = s.trace ++
          [Event.psoc_component_obj_detach psoc p d, Event.qdf_mem_free (some p)]) ∧
      (d ≠ QDF_STATUS_SUCCESS →
        s'.heap = s.heap ∧ psoc_priv_attached s' psoc p ∧
        s'.trace = s.trace ++ [Event.psoc_component_obj_detach psoc p d]) := by
  by_cases hd : d = QDF_STATUS_SUCCESS
  · subst hd
    refine ⟨_, psoc_destroy_detach_ok psoc p s h, fun _ => ⟨rfl, ?_, ?_, rfl⟩,
      fun hne => absurd rfl hne⟩
    · simp [Heap.get_free]
    · simp [pkt_capture_psoc_get_priv]
  · refine ⟨_, psoc_destroy_detach_fail d psoc p s h.1 hd, fun he => absurd he hd,
      fun _ => ⟨rfl, h, rfl⟩⟩

theorem register_callbacks_attached (vd p a : Nat) (v : pkt_capture_vdev_priv)
    (c : pkt_capture_cb_context) (mon_cb context : Option Nat) (s : State)
    (h0 : pkt_capture_vdev_get_priv s vd = some p)
    (hv : s.read_vdev_priv (some p) = some v) (ha : v.cb_ctx = some a)
    (hc : s.read_cb_ctx (some a) = some c) :
    pkt_capture_register_callbacks (some vd) mon_cb context s =
      some (QDF_STATUS_SUCCESS,
        { s with heap := s.heap.set a (Obj.cb_ctx ⟨mon_cb, context, c.pkt_capture_mode⟩) }) := by
  have hp := (State.read_vdev_priv_some s p v).1 hv
  have hc1 := (State.read_cb_ctx_some s a c).1 hc
  have hpa : p ≠ a := by
    intro e; rw [e, hc1] at hp; cases hp
  simp [pkt_capture_register_callbacks, h0, State.read_vdev_priv, State.read_cb_ctx,
    State.write, Heap.get_set, Heap.set_set, hp, hc1, ha, hpa]

theorem register_callbacks_no_priv (vd : Nat) (mon_cb context : Option Nat) (s : State)
    (h0 : pkt_capture_vdev_get_priv s vd = none) :
    pkt_capture_register_callbacks (some vd) mon_cb context s
      = some (QDF_STATUS_E_INVAL, s) := by
  simp [pkt_capture_register_callbacks, h0]

/-- With private state attached but not readable, registering is undefined. -/
theorem register_callbacks_undefined (vd p : Nat) (mon_cb context : Option Nat) (s : State)
    (h0 : pkt_capture_vdev_get_priv s vd = some p)
    (hno : (s.read_vdev_priv (some p)).bind
      (fun v => v.cb_ctx.bind (fun a => s.read_cb_ctx (some a))) = none) :
    pkt_capture_register_callbacks (some vd) mon_cb context s = none := by
  cases hv : s.read_vdev_priv (some p) with
  | none => simp [pkt_capture_register_callbacks, h0, hv]
  | some v =>
    rw [hv] at hno
    cases ha : v.cb_ctx with
    | none => simp [pkt_capture_register_callbacks, h0, hv, ha]
    | some a =>
      simp only [Option.some_bind, ha] at hno
      simp [pkt_capture_register_callbacks, h0, hv, ha, hno]

theorem deregister_callbacks_attached (vd p a : Nat) (v : pkt_capture_vdev_priv)
    (c : pkt_capture_cb_context) (s : State)
    (h0 : pkt_capture_vdev_get_priv s vd = some p)
    (hv : s.read_vdev_priv (some p) = some v) (ha : v.cb_ctx = some a)
    (hc : s.read_cb_ctx (some a) = some c) :
    pkt_capture_deregister_callbacks (some vd) s =
      some (QDF_STATUS_SUCCESS,
        { s with heap := s.heap.set a (Obj.cb_ctx ⟨none, none, c.pkt_capture_mode⟩) }) := by
  have hp := (State.read_vdev_priv_some s p v).1 hv
  have hc1 := (State.read_cb_ctx_some s a c).1 hc
  have hpa : p ≠ a := by
    intro e; rw [e, hc1] at hp; cases hp
  simp [pkt_capture_deregister_callbacks, h0, State.read_vdev_priv, State.read_cb_ctx,
    State.write, Heap.get_set, Heap.set_set, hp, hc1, ha, hpa]

theorem deregister_callbacks_no_priv (vd : Nat) (s : State)
    (h0 : pkt_capture_vdev_get_priv s vd = none) :
    pkt_capture_deregister_callbacks (some vd) s = some (QDF_STATUS_E_INVAL, s) := by
  simp [pkt_capture_deregister_callbacks, h0]

/-- With private state attached but not readable, deregistering is undefined. -/
theorem deregister_callbacks_undefined (vd p : Nat) (s : State)
    (h0 : pkt_capture_vdev_get_priv s vd = some p)
    (hno : (s.read_vdev_priv (some p)).bind
      (fun v => v.cb_ctx.bind (fun a => s.read_cb_ctx (some a))) = none) :
    pkt_capture_deregister_callbacks (some vd) s = none := by
  cases hv : s.read_vdev_priv (some p) with
  | none => simp [pkt_capture_deregister_callbacks, h0, hv]
  | some v =>
    rw [hv] at hno
    cases ha : v.cb_ctx with
    | none => simp [pkt_capture_deregister_callbacks, h0, hv, ha]
    | some a =>
      simp only [Option.some_bind, ha] at hno
      simp [pkt_capture_deregister_callbacks, h0, hv, ha, hno]

theorem vdev_ref_get_release (f : Nat → Nat) (v : Nat) :
    Function.update (Function.update f v (f v + 1)) v
      (Function.update f v (f v + 1) v - 1) = f := by
  funext x
  by_cases hx : x = v
  · subst hx; simp
  · simp [Function.update, hx]

theorem set_pktcap_mode_no_psoc (mode : pkt_capture_mode) (s : State) :
    pkt_capture_set_pktcap_mode none mode s = some s := rfl

theorem set_pktcap_mode_no_vdev (ps : Nat) (mode : pkt_capture_mode) (s : State)
    (hsta : s.sta_vdev ps = none) :
    pkt_capture_set_pktcap_mode (some ps) mode s =
      some { s with trace := s.trace ++ [Event.get_vdev_by_opmode ps none] } := by
  simp [pkt_capture_set_pktcap_mode, wlan_objmgr_get_vdev_by_opmode_from_psoc, hsta, State.log]

theorem set_pktcap_mode_no_priv (ps vd : Nat) (mode : pkt_capture_mode) (s : State)
    (hsta : s.sta_vdev ps = some vd) (h0 : pkt_capture_vdev_get_priv s vd = none) :
    pkt_capture_set_pktcap_mode (some ps) mode s =
      some { s with trace := s.trace ++
        [Event.get_vdev_by_opmode ps (some vd), Event.vdev_release_ref vd] } := by
  simp only [pkt_capture_vdev_get_priv] at h0
  simp [pkt_capture_set_pktcap_mode, wlan_objmgr_get_vdev_by_opmode_from_psoc, hsta,
    pkt_capture_vdev_get_priv, h0, wlan_objmgr_vdev_release_ref, vdev_ref_get_release]

theorem set_pktcap_mode_attached (ps vd p a : Nat) (v : pkt_capture_vdev_priv)
    (c : pkt_capture_cb_context) (mode : pkt_capture_mode) (s : State)
    (hsta : s.sta_vdev ps = some vd)
    (h0 : pkt_capture_vdev_get_priv s vd = some p)
    (hv : s.read_vdev_priv (some p) = some v) (ha : v.cb_ctx = some a)
    (hc : s.read_cb_ctx (some a) = some c) :
    pkt_capture_set_pktcap_mode (some ps) mode s =
      some { s with
        heap := s.heap.set a (Obj.cb_ctx ⟨c.mon_cb, c.mon_ctx, mode⟩),
        trace := s.trace ++
          [Event.get_vdev_by_opmode ps (some vd), Event.vdev_release_ref vd] } := by
  have hp := (State.read_vdev_priv_some s p v).1 hv
  have hc1 := (State.read_cb_ctx_some s a c).1 hc
  simp only [pkt_capture_vdev_get_priv] at h0
  simp [pkt_capture_set_pktcap_mode, wlan_objmgr_get_vdev_by_opmode_from_psoc, hsta,
    pkt_capture_vdev_get_priv, h0, wlan_objmgr_vdev_release_ref, vdev_ref_get_release,
    State.read_vdev_priv, State.read_cb_ctx, State.write, hp, hc1, ha]

/-- With private state attached but not readable, setting the mode is undefined. -/
theorem set_pktcap_mode_undefined (ps vd p : Nat) (mode : pkt_capture_mode) (s : State)
    (hsta : s.sta_vdev ps = some vd) (h0 : pkt_capture_vdev_get_priv s vd = some p)
    (hno : (s.read_vdev_priv (some p)).bind
      (fun v => v.cb_ctx.bind (fun a => s.read_cb_ctx (some a))) = none) :
    pkt_capture_set_pktcap_mode (some ps) mode s = none := by
  simp only [pkt_capture_vdev_get_priv] at h0
  cases hv : s.read_vdev_priv (some p) with
  | none =>
    simp only [State.read_vdev_priv] at hv
    simp [pkt_capture_set_pktcap_mode, wlan_objmgr_get_vdev_by_opmode_from_psoc, hsta,
      pkt_capture_vdev_get_priv, h0, State.read_vdev_priv, hv]
  | some v =>
    rw [hv] at hno
    simp only [State.read_vdev_priv] at hv
    cases ha : v.cb_ctx with
    | none =>
      simp [pkt_capture_set_pktcap_mode, wlan_objmgr_get_vdev_by_opmode_from_psoc, hsta,
        pkt_capture_vdev_get_priv, h0, State.read_vdev_priv, hv, ha]
    | some a =>
      simp only [Option.some_bind, ha] at hno
      simp only [State.read_cb_ctx] at hno
      simp [pkt_capture_set_pktcap_mode, wlan_objmgr_get_vdev_by_opmode_from_psoc, hsta,
        pkt_capture_vdev_get_priv, h0, State.read_vdev_priv, hv, ha, State.read_cb_ctx, hno]

theorem get_pktcap_mode_no_psoc (s : State) :
    pkt_capture_get_pktcap_mode none s = some (0, s) := rfl

theorem get_pktcap_mode_no_vdev (ps : Nat) (s : State) (hsta : s.sta_vdev ps = none) :
    pkt_capture_get_pktcap_mode (some ps) s =
      some (0, { s with trace := s.trace ++ [Event.get_vdev_by_opmode ps none] }) := by
  simp [pkt_capture_get_pktcap_mode, wlan_objmgr_get_vdev_by_opmode_from_psoc, hsta, State.log]

theorem get_pktcap_mode_no_priv (ps vd : Nat) (s : State)
    (hsta : s.sta_vdev ps = some vd) (h0 : pkt_capture_vdev_get_priv s vd = none) :
    pkt_capture_get_pktcap_mode (some ps) s =
      some (PACKET_CAPTURE_MODE_DISABLE, { s with trace := s.trace ++
        [Event.get_vdev_by_opmode ps (some vd), Event.vdev_release_ref vd] }) := by
  simp only [pkt_capture_vdev_get_priv] at h0
  simp [pkt_capture_get_pktcap_mode, wlan_objmgr_get_vdev_by_opmode_from_psoc, hsta,
    pkt_capture_vdev_get_priv, h0, wlan_objmgr_vdev_release_ref, vdev_ref_get_release]

theorem get_pktcap_mode_attached (ps vd p a : Nat) (v : pkt_capture_vdev_priv)
    (c : pkt_capture_cb_context) (s : State)
    (hsta : s.sta_vdev ps = some vd)
    (h0 : pkt_capture_vdev_get_priv s vd = some p)
    (hv : s.read_vdev_priv (some p) = some v) (ha : v.cb_ctx = some a)
    (hc : s.read_cb_ctx (some a) = some c) :
    pkt_capture_get_pktcap_mode (some ps) s =
      some (c.pkt_capture_mode, { s with trace := s.trace ++
        [Event.get_vdev_by_opmode ps (some vd), Event.vdev_release_ref vd] }) := by
  have hp := (State.read_vdev_priv_some s p v).1 hv
  have hc1 := (State.read_cb_ctx_some s a c).1 hc
  simp only [pkt_capture_vdev_get_priv] at h0
  simp [pkt_capture_get_pktcap_mode, wlan_objmgr_get_vdev_by_opmode_from_psoc, hsta,
    pkt_capture_vdev_get_priv, h0, wlan_objmgr_vdev_release_ref, vdev_ref_get_release,
    State.read_vdev_priv, State.read_cb_ctx, hp, hc1, ha]

/-- With private state attached but not readable, reading the mode is undefined. -/
theorem get_pktcap_mode_undefined (ps vd p : Nat) (s : State)
    (hsta : s.sta_vdev ps = some vd) (h0 : pkt_capture_vdev_get_priv s vd = some p)
    (hno : (s.read_vdev_priv (some p)).bind
      (fun v => v.cb_ctx.bind (fun a => s.read_cb_ctx (some a))) = none) :
    pkt_capture_get_pktcap_mode (some ps) s = none := by
  simp only [pkt_capture_vdev_get_priv] at h0
  cases hv : s.read_vdev_priv (some p) with
  | none =>
    simp only [State.read_vdev_priv] at hv
    simp [pkt_capture_get_pktcap_mode, wlan_objmgr_get_vdev_by_opmode_from_psoc, hsta,
      pkt_capture_vdev_get_priv, h0, State.read_vdev_priv, hv]
  | some v =>
    rw [hv] at hno
    simp only [State.read_vdev_priv] at hv
    cases ha : v.cb_ctx with
    | none =>
      simp [pkt_capture_get_pktcap_mode, wlan_objmgr_get_vdev_by_opmode_from_psoc, hsta,
        pkt_capture_vdev_get_priv, h0, State.read_vdev_priv, hv, ha, State.read_cb_ctx]
    | some a =>
      simp only [Option.some_bind, ha] at hno
      simp only [State.read_cb_ctx] at hno
      simp [pkt_capture_get_pktcap_mode, wlan_objmgr_get_vdev_by_opmode_from_psoc, hsta,
        pkt_capture_vdev_get_priv, h0, State.read_vdev_priv, hv, ha, State.read_cb_ctx, hno]

/-- A sequence of callback-interface calls on a device with attached (live) private
state runs to its end and leaves in the callback context the pair of its last call,
the mode untouched. -/
theorem run_callback_calls_attached (vd p c m : Nat) (calls : List CallbackCall) :
    ∀ (s : State) (cc : pkt_capture_cb_context), vdev_priv_attached s vd p c m →
      s.read_cb_ctx (some c) = some cc →
      ∃ s' cc', run_callback_calls vd calls s = some s' ∧
        vdev_priv_attached s' vd p c m ∧
        s'.read_cb_ctx (some c) = some cc' ∧
        (cc'.mon_cb, cc'.mon_ctx) = last_pair (cc.mon_cb, cc.mon_ctx) calls ∧
        cc'.pkt_capture_mode = cc.pkt_capture_mode := by
  induction calls with
  | nil =>
    intro s cc h hc
    exact ⟨s, cc, rfl, h, hc, rfl, rfl⟩
  | cons call rest ih =>
    intro s cc h hc
    obtain ⟨h0, v, cc1, hv, ha, hc1⟩ := vdev_priv_attached_reads s vd p c m h
    have hcc : cc1 = cc := by rw [hc] at hc1; exact (Option.some.inj hc1).symm
    subst hcc
    cases call with
    | register mon_cb context =>
      let s1 : State :=
        { s with heap := s.heap.set c (Obj.cb_ctx ⟨mon_cb, context, cc1.pkt_capture_mode⟩) }
      have hreg : pkt_capture_register_callbacks (some vd) mon_cb context s
          = some (QDF_STATUS_SUCCESS, s1) :=
        register_callbacks_attached vd p c v cc1 mon_cb context s h0 hv ha hc
      have h1 : vdev_priv_attached s1 vd p c m :=
        vdev_priv_attached_of_set_cb s s1 vd p c m _ h rfl rfl
      have hc2 : s1.read_cb_ctx (some c) = some ⟨mon_cb, context, cc1.pkt_capture_mode⟩ :=
        read_cb_ctx_of_set_cb s s1 c _ cc1 rfl hc
      obtain ⟨s', cc', hrun, hatt, hread, hpair, hmode⟩ := ih s1 _ h1 hc2
      refine ⟨s', cc', ?_, hatt, hread, hpair, hmode⟩
      simp only [run_callback_calls, hreg, Option.some_bind]
      exact hrun
    | deregister =>
      let s1 : State :=
        { s with heap := s.heap.set c (Obj.cb_ctx ⟨none, none, cc1.pkt_capture_mode⟩) }
      have hreg : pkt_capture_deregister_callbacks (some vd) s
          = some (QDF_STATUS_SUCCESS, s1) :=
        deregister_callbacks_attached vd p c v cc1 s h0 hv ha hc
      have h1 : vdev_priv_attached s1 vd p c m :=
        vdev_priv_attached_of_set_cb s s1 vd p c m _ h rfl rfl
      have hc2 : s1.read_cb_ctx (some c) = some ⟨none, none, cc1.pkt_capture_mode⟩ :=
        read_cb_ctx_of_set_cb s s1 c _ cc1 rfl hc
      obtain ⟨s', cc', hrun, hatt, hread, hpair, hmode⟩ := ih s1 _ h1 hc2
      refine ⟨s', cc', ?_, hatt, hread, hpair, hmode⟩
      simp only [run_callback_calls, hreg, Option.some_bind]
      exact hrun

/-- Matched calls leave a matched pair. -/
theorem last_pair_matched (calls : List CallbackCall) :
    ∀ (init : Option Nat × Option Nat), init.1.isSome = init.2.isSome →
      (∀ call ∈ calls, call.matched = true) →
      ((last_pair init calls).1 = none ↔ (last_pair init calls).2 = none) := by
  induction calls with
  | nil =>
    intro init hinit _
    obtain ⟨a, b⟩ := init
    cases a <;> cases b <;> simp_all [last_pair]
  | cons call rest ih =>
    intro init hinit hall
    have hrest : ∀ c ∈ rest, c.matched = true := fun c hc => hall c (List.mem_cons_of_mem _ hc)
    have hcall := hall call (List.mem_cons_self _ _)
    cases call with
    | register mon_cb context =>
      simp only [last_pair]
      apply ih _ _ hrest
      simpa [CallbackCall.matched] using hcall
    | deregister =>
      simp only [last_pair]
      exact ih _ rfl hrest

/-! ## The ownership invariant -/

theorem ownership_clear_vslot (vs ps : Nat → Option Nat) (sh : Nat → Option Shape)
    (vd : Nat) (h : ownership_inv vs ps sh) :
    ownership_inv (Function.update vs vd none) ps sh := by
  obtain ⟨i1, i2, i3, i4⟩ := h
  have hsub : ∀ v p, Function.update vs vd none v = some p → vs v = some p := by
    intro v p hv
    by_cases e : v = vd
    · subst e; simp at hv
    · simpa [Function.update, e] using hv
  refine ⟨?_, ?_, i3, i4⟩
  · intro v p hv
    exact i1 v p (hsub v p hv)
  · intro v1 v2 p1 p2 c1 c2 m1 m2 hne h1 h2 s1 s2
    exact i2 v1 v2 p1 p2 c1 c2 m1 m2 hne (hsub _ _ h1) (hsub _ _ h2) s1 s2

theorem ownership_free_device (vs ps : Nat → Option Nat) (sh sh' : Nat → Option Shape)
    (vd p c m : Nat) (h : ownership_inv vs ps sh) (hvd : vs vd = some p)
    (hp : sh p = some (Shape.vdev_priv (some c) (some m)))
    (hsh : ∀ x, sh' x = if x = p then none else if x = c then none else
      if x = m then none else sh x) :
    ownership_inv (Function.update vs vd none) ps sh' := by
  obtain ⟨i1, i2, i3, i4⟩ := h
  obtain ⟨c0, m0, hp0, hc, hm⟩ := i1 vd p hvd
  rw [hp] at hp0
  simp only [Option.some.injEq, Shape.vdev_priv.injEq] at hp0
  obtain ⟨e1, e2⟩ := hp0
  subst e1; subst e2
  have hsub : ∀ v q, Function.update vs vd none v = some q → v ≠ vd ∧ vs v = some q := by
    intro v q hv
    by_cases e : v = vd
    · subst e; simp at hv
    · exact ⟨e, by simpa [Function.update, e] using hv⟩
  have hkeep : ∀ x y, sh' x = some y → sh x = some y := by
    intro x y hx
    rw [hsh] at hx
    split_ifs at hx
    exact hx
  have hsame : ∀ x, x ≠ p → x ≠ c → x ≠ m → sh' x = sh x := by
    intro x h1 h2 h3
    rw [hsh, if_neg h1, if_neg h2, if_neg h3]
  refine ⟨?_, ?_, ?_, i4⟩
  · intro v q hv
    obtain ⟨hne, hq⟩ := hsub v q hv
    obtain ⟨c', m', hq', hc', hm'⟩ := i1 v q hq
    obtain ⟨n1, n2, n3⟩ := i2 v vd q p c' c m' m hne hq hvd hq' hp
    refine ⟨c', m', ?_, ?_, ?_⟩
    · rw [hsame q n1 (by intro e; rw [e, hc] at hq'; cases hq')
        (by intro e; rw [e, hm] at hq'; cases hq')]
      exact hq'
    · rw [hsame c' (by intro e; rw [e, hp] at hc'; cases hc') n2
        (by intro e; rw [e, hm] at hc'; cases hc')]
      exact hc'
    · rw [hsame m' (by intro e; rw [e, hp] at hm'; cases hm')
        (by intro e; rw [e, hc] at hm'; cases hm') n3]
      exact hm'
  · intro v1 v2 p1 p2 c1 c2 m1 m2 hne h1 h2 s1 s2
    exact i2 v1 v2 p1 p2 c1 c2 m1 m2 hne (hsub _ _ h1).2 (hsub _ _ h2).2
      (hkeep _ _ s1) (hkeep _ _ s2)
  · intro P q hq
    have hq' := i3 P q hq
    rw [hsame q (by intro e; rw [e, hp] at hq'; cases hq')
      (by intro e; rw [e, hc] at hq'; cases hq')
      (by intro e; rw [e, hm] at hq'; cases hq')]
    exact hq'

theorem ownership_free_psoc (vs ps : Nat → Option Nat) (sh sh' : Nat → Option Shape)
    (P q : Nat) (h : ownership_inv vs ps sh) (hP : ps P = some q)
    (hsh : ∀ x, sh' x = if x = q then none else sh x) :
    ownership_inv vs (Function.update ps P none) sh' := by
  obtain ⟨i1, i2, i3, i4⟩ := h
  have hq := i3 P q hP
  have hsub : ∀ R r, Function.update ps P none R = some r → R ≠ P ∧ ps R = some r := by
    intro R r hR
    by_cases e : R = P
    · subst e; simp at hR
    · exact ⟨e, by simpa [Function.update, e] using hR⟩
  have hkeep : ∀ x y, sh' x = some y → sh x = some y := by
    intro x y hx
    rw [hsh] at hx
    split_ifs at hx
    exact hx
  have hsame : ∀ x, x ≠ q → sh' x = sh x := by
    intro x h1
    rw [hsh, if_neg h1]
  refine ⟨?_, ?_, ?_, ?_⟩
  · intro v p hv
    obtain ⟨c', m', hp', hc', hm'⟩ := i1 v p hv
    refine ⟨c', m', ?_, ?_, ?_⟩
    · rw [hsame p (by intro e; rw [e, hq] at hp'; cases hp')]; exact hp'
    · rw [hsame c' (by intro e; rw [e, hq] at hc'; cases hc')]; exact hc'
    · rw [hsame m' (by intro e; rw [e, hq] at hm'; cases hm')]; exact hm'
  · intro v1 v2 p1 p2 c1 c2 m1 m2 hne h1 h2 s1 s2
    exact i2 v1 v2 p1 p2 c1 c2 m1 m2 hne h1 h2 (hkeep _ _ s1) (hkeep _ _ s2)
  · intro R r hR
    obtain ⟨hne, hr⟩ := hsub R r hR
    have hrq : r ≠ q := by
      intro e
      rw [e] at hr
      exact i4 R P q hne hr hP
    rw [hsame r hrq]
    exact i3 R r hr
  · intro R1 R2 r hne h1 h2
    exact i4 R1 R2 r hne (hsub _ _ h1).2 (hsub _ _ h2).2

theorem ownership_add_device (vs ps : Nat → Option Nat) (sh sh' : Nat → Option Shape)
    (vd p c m : Nat) (h : ownership_inv vs ps sh)
    (hp : sh p = none) (hc : sh c = none) (hm : sh m = none)
    (hpc : p ≠ c) (hpm : p ≠ m) (hcm : c ≠ m)
    (hsh : ∀ x, sh' x = if m = x then some Shape.mon_ctx else
      if c = x then some Shape.cb_ctx else
      if p = x then some (Shape.vdev_priv (some c) (some m)) else sh x) :
    ownership_inv (Function.update vs vd (some p)) ps sh' := by
  obtain ⟨i1, i2, i3, i4⟩ := h
  have hold : ∀ x y, sh x = some y → sh' x = some y := by
    intro x y hx
    have n1 : ¬ m = x := by intro e; rw [← e, hm] at hx; cases hx
    have n2 : ¬ c = x := by intro e; rw [← e, hc] at hx; cases hx
    have n3 : ¬ p = x := by intro e; rw [← e, hp] at hx; cases hx
    rw [hsh, if_neg n1, if_neg n2, if_neg n3]
    exact hx
  have hp' : sh' p = some (Shape.vdev_priv (some c) (some m)) := by
    rw [hsh, if_neg (fun e => hpm e.symm), if_neg (fun e => hpc e.symm), if_pos rfl]
  have hc' : sh' c = some Shape.cb_ctx := by
    rw [hsh, if_neg (fun e => hcm e.symm), if_pos rfl]
  have hm' : sh' m = some Shape.mon_ctx := by
    rw [hsh, if_pos rfl]
  have hslot : ∀ v q, Function.update vs vd (some p) v = some q →
      (v = vd ∧ q = p) ∨ (v ≠ vd ∧ vs v = some q) := by
    intro v q hv
    by_cases e : v = vd
    · subst e
      simp at hv
      exact Or.inl ⟨rfl, hv.symm⟩
    · exact Or.inr ⟨e, by simpa [Function.update, e] using hv⟩
  have hlive : ∀ v q, vs v = some q → q ≠ p := by
    intro v q hv e
    obtain ⟨c2, m2, hq, -, -⟩ := i1 v q hv
    rw [e, hp] at hq; cases hq
  have hdiff : ∀ v q c2 m2, vs v = some q →
      sh' q = some (Shape.vdev_priv (some c2) (some m2)) →
      sh q = some (Shape.vdev_priv (some c2) (some m2)) ∧ q ≠ p ∧ c2 ≠ c ∧ m2 ≠ m := by
    intro v q c2 m2 hv hq'
    obtain ⟨c3, m3, hq, hc3, hm3⟩ := i1 v q hv
    have := hold q _ hq
    rw [this] at hq'
    simp only [Option.some.injEq, Shape.vdev_priv.injEq] at hq'
    obtain ⟨e1, e2⟩ := hq'
    subst e1; subst e2
    refine ⟨hq, hlive v q hv, ?_, ?_⟩
    · intro e; rw [e, hc] at hc3; cases hc3
    · intro e; rw [e, hm] at hm3; cases hm3
  refine ⟨?_, ?_, ?_, i4⟩
  · intro v q hv
    rcases hslot v q hv with ⟨-, e⟩ | ⟨-, hq⟩
    · subst e
      exact ⟨c, m, hp', hc', hm'⟩
    · obtain ⟨c2, m2, h1, h2, h3⟩ := i1 v q hq
      exact ⟨c2, m2, hold _ _ h1, hold _ _ h2, hold _ _ h3⟩
  · intro v1 v2 p1 p2 c1 c2 m1 m2 hne h1 h2 s1 s2
    rcases hslot v1 p1 h1 with ⟨e1, f1⟩ | ⟨n1, q1⟩
    · rcases hslot v2 p2 h2 with ⟨e2, -⟩ | ⟨n2, q2⟩
      · exact absurd (e1.trans e2.symm) hne
      · subst f1
        rw [hp'] at s1
        simp only [Option.some.injEq, Shape.vdev_priv.injEq] at s1
        obtain ⟨a1, a2⟩ := s1
        subst a1; subst a2
        obtain ⟨-, d1, d2, d3⟩ := hdiff v2 p2 c2 m2 q2 s2
        exact ⟨fun e => d1 e.symm, fun e => d2 e.symm, fun e => d3 e.symm⟩
    · rcases hslot v2 p2 h2 with ⟨e2, f2⟩ | ⟨n2, q2⟩
      · subst f2
        rw [hp'] at s2
        simp only [Option.some.injEq, Shape.vdev_priv.injEq] at s2
        obtain ⟨a1, a2⟩ := s2
        subst a1; subst a2
        obtain ⟨-, d1, d2, d3⟩ := hdiff v1 p1 c1 m1 q1 s1
        exact ⟨d1, d2, d3⟩
      · exact i2 v1 v2 p1 p2 c1 c2 m1 m2 hne q1 q2 (hdiff v1 p1 c1 m1 q1 s1).1
          (hdiff v2 p2 c2 m2 q2 s2).1
  · intro P q hq
    exact hold _ _ (i3 P q hq)

theorem ownership_add_psoc (vs ps : Nat → Option Nat) (sh sh' : Nat → Option Shape)
    (P q : Nat) (h : ownership_inv vs ps sh) (hq : sh q = none)
    (hsh : ∀ x, sh' x = if q = x then some Shape.psoc_priv else sh x) :
    ownership_inv vs (Function.update ps P (some q)) sh' := by
  obtain ⟨i1, i2, i3, i4⟩ := h
  have hold : ∀ x y, sh x = some y → sh' x = some y := by
    intro x y hx
    have n1 : ¬ q = x := by intro e; rw [← e, hq] at hx; cases hx
    rw [hsh, if_neg n1]
    exact hx
  have hback : ∀ x y, y ≠ Shape.psoc_priv → sh' x = some y → sh x = some y := by
    intro x y hy hx
    rw [hsh] at hx
    split_ifs at hx with e
    · cases hx; exact absurd rfl hy
    · exact hx
  have hslot : ∀ R r, Function.update ps P (some q) R = some r →
      (R = P ∧ r = q) ∨ (R ≠ P ∧ ps R = some r) := by
    intro R r hR
    by_cases e : R = P
    · subst e
      simp at hR
      exact Or.inl ⟨rfl, hR.symm⟩
    · exact Or.inr ⟨e, by simpa [Function.update, e] using hR⟩
  have hlive : ∀ R r, ps R = some r → r ≠ q := by
    intro R r hR e
    have := i3 R r hR
    rw [e, hq] at this; cases this
  refine ⟨?_, ?_, ?_, ?_⟩
  · intro v p hv
    obtain ⟨c2, m2, h1, h2, h3⟩ := i1 v p hv
    exact ⟨c2, m2, hold _ _ h1, hold _ _ h2, hold _ _ h3⟩
  · intro v1 v2 p1 p2 c1 c2 m1 m2 hne h1 h2 s1 s2
    exact i2 v1 v2 p1 p2 c1 c2 m1 m2 hne h1 h2
      (hback _ _ (by intro e; cases e) s1) (hback _ _ (by intro e; cases e) s2)
  · intro R r hR
    rcases hslot R r hR with ⟨-, e⟩ | ⟨-, hr⟩
    · subst e; rw [hsh, if_pos rfl]
    · exact hold _ _ (i3 R r hr)
  · intro R1 R2 r hne h1 h2
    rcases hslot R1 r h1 with ⟨e1, f1⟩ | ⟨n1, q1⟩
    · rcases hslot R2 r h2 with ⟨e2, -⟩ | ⟨n2, q2⟩
      · exact hne (e1.trans e2.symm)
      · exact hlive R2 r q2 f1
    · rcases hslot R2 r h2 with ⟨e2, f2⟩ | ⟨n2, q2⟩
      · exact hlive R1 r q1 f2
      · exact i4 R1 R2 r hne q1 q2

/-- Under the ownership invariant an attached device private state is live with
live contexts. -/
theorem vdev_priv_attached_of_ownership (s : State) (hs : s.ownership_ok) (vd p : Nat)
    (h0 : pkt_capture_vdev_get_priv s vd = some p) :
    ∃ c m, vdev_priv_attached s vd p c m ∧
      s.heap.shape p = some (Shape.vdev_priv (some c) (some m)) := by
  obtain ⟨c, m, hp, hc, hm⟩ := hs.1 vd p h0
  obtain ⟨back, gp⟩ := Heap.get_of_shape_vdev_priv s.heap p _ _ hp
  obtain ⟨cc, gc⟩ := Heap.get_of_shape_cb_ctx s.heap c hc
  obtain ⟨mc, gm⟩ := Heap.get_of_shape_mon_ctx s.heap m hm
  refine ⟨c, m, ⟨h0, ?_, ?_, ?_, ?_⟩, hp⟩
  · simp [State.read_vdev_priv, gp]
  · simp [State.read_vdev_priv, gp]
  · simp [State.read_cb_ctx, gc]
  · simp [State.read_mon_ctx, gm]

/-- Under the ownership invariant an attached controller private state is live. -/
theorem psoc_priv_attached_of_ownership (s : State) (hs : s.ownership_ok) (P q : Nat)
    (h0 : pkt_capture_psoc_get_priv s P = some q) : psoc_priv_attached s P q := by
  obtain ⟨pp, gq⟩ := Heap.get_of_shape_psoc_priv s.heap q (hs.2.2.1 P q h0)
  exact ⟨h0, by simp [State.read_psoc_priv, gq]⟩

/-- A state with the slots and the shapes of a state that satisfies the ownership
invariant satisfies it. -/
theorem ownership_of_same (s s' : State) (hs : s.ownership_ok)
    (h1 : s'.vdev_comp_priv = s.vdev_comp_priv) (h2 : s'.psoc_comp_priv = s.psoc_comp_priv)
    (h3 : s'.heap.shape = s.heap.shape) : s'.ownership_ok := by
  unfold State.ownership_ok
  rw [h1, h2, h3]
  exact hs

theorem register_callbacks_keeps_shapes (vdev mon_cb context : Option Nat) (st : QDF_STATUS)
    (s s' : State) (h : pkt_capture_register_callbacks vdev mon_cb context s = some (st, s')) :
    s'.vdev_comp_priv = s.vdev_comp_priv ∧ s'.psoc_comp_priv = s.psoc_comp_priv ∧
      s'.heap.shape = s.heap.shape := by
  cases vdev with
  | none => cases h; exact ⟨rfl, rfl, rfl⟩
  | some vd =>
    cases h0 : pkt_capture_vdev_get_priv s vd with
    | none =>
      rw [register_callbacks_no_priv vd mon_cb context s h0] at h; cases h
      exact ⟨rfl, rfl, rfl⟩
    | some p =>
      rcases cb_ctx_readable_or_not s p with ⟨v, a, c, hv, ha, hc⟩ | hno
      · rw [register_callbacks_attached vd p a v c mon_cb context s h0 hv ha hc] at h
        cases h
        exact ⟨rfl, rfl, Heap.shape_set_cb s.heap a c _ ((State.read_cb_ctx_some s a c).1 hc)⟩
      · rw [register_callbacks_undefined vd p mon_cb context s h0 hno] at h; cases h

theorem deregister_callbacks_keeps_shapes (vdev : Option Nat) (st : QDF_STATUS)
    (s s' : State) (h : pkt_capture_deregister_callbacks vdev s = some (st, s')) :
    s'.vdev_comp_priv = s.vdev_comp_priv ∧ s'.psoc_comp_priv = s.psoc_comp_priv ∧
      s'.heap.shape = s.heap.shape := by
  cases vdev with
  | none => cases h; exact ⟨rfl, rfl, rfl⟩
  | some vd =>
    cases h0 : pkt_capture_vdev_get_priv s vd with
    | none =>
      rw [deregister_callbacks_no_priv vd s h0] at h; cases h
      exact ⟨rfl, rfl, rfl⟩
    | some p =>
      rcases cb_ctx_readable_or_not s p with ⟨v, a, c, hv, ha, hc⟩ | hno
      · rw [deregister_callbacks_attached vd p a v c s h0 hv ha hc] at h
        cases h
        exact ⟨rfl, rfl, Heap.shape_set_cb s.heap a c _ ((State.read_cb_ctx_some s a c).1 hc)⟩
      · rw [deregister_callbacks_undefined vd p s h0 hno] at h; cases h

theorem set_pktcap_mode_keeps_shapes (psoc : Option Nat) (mode : pkt_capture_mode)
    (s s' : State) (h : pkt_capture_set_pktcap_mode psoc mode s = some s') :
    s'.vdev_comp_priv = s.vdev_comp_priv ∧ s'.psoc_comp_priv = s.psoc_comp_priv ∧
      s'.heap.shape = s.heap.shape := by
  cases psoc with
  | none => cases h; exact ⟨rfl, rfl, rfl⟩
  | some ps =>
    cases hsta : s.sta_vdev ps with
    | none =>
      rw [set_pktcap_mode_no_vdev ps mode s hsta] at h; cases h; exact ⟨rfl, rfl, rfl⟩
    | some vd =>
      cases h0 : pkt_capture_vdev_get_priv s vd with
      | none =>
        rw [set_pktcap_mode_no_priv ps vd mode s hsta h0] at h; cases h
        exact ⟨rfl, rfl, rfl⟩
      | some p =>
        rcases cb_ctx_readable_or_not s p with ⟨v, a, c, hv, ha, hc⟩ | hno
        · rw [set_pktcap_mode_attached ps vd p a v c mode s hsta h0 hv ha hc] at h
          cases h
          exact ⟨rfl, rfl,
            Heap.shape_set_cb s.heap a c _ ((State.read_cb_ctx_some s a c).1 hc)⟩
        · rw [set_pktcap_mode_undefined ps vd p mode s hsta h0 hno] at h; cases h

theorem get_pktcap_mode_keeps_shapes (psoc : Option Nat) (r : pkt_capture_mode)
    (s s' : State) (h : pkt_capture_get_pktcap_mode psoc s = some (r, s')) :
    s'.vdev_comp_priv = s.vdev_comp_priv ∧ s'.psoc_comp_priv = s.psoc_comp_priv ∧
      s'.heap.shape = s.heap.shape := by
  cases psoc with
  | none => cases h; exact ⟨rfl, rfl, rfl⟩
  | some ps =>
    cases hsta : s.sta_vdev ps with
    | none =>
      rw [get_pktcap_mode_no_vdev ps s hsta] at h; cases h; exact ⟨rfl, rfl, rfl⟩
    | some vd =>
      cases h0 : pkt_capture_vdev_get_priv s vd with
      | none =>
        rw [get_pktcap_mode_no_priv ps vd s hsta h0] at h; cases h
        exact ⟨rfl, rfl, rfl⟩
      | some p =>
        rcases cb_ctx_readable_or_not s p with ⟨v, a, c, hv, ha, hc⟩ | hno
        · rw [get_pktcap_mode_attached ps vd p a v c s hsta h0 hv ha hc] at h
          cases h
          exact ⟨rfl, rfl, rfl⟩
        · rw [get_pktcap_mode_undefined ps vd p s hsta h0 hno] at h; cases h

theorem vdev_create_keeps_ownership (o : vdev_create_outcomes) (vdev : Nat) (st : QDF_STATUS)
    (s s' : State) (hs : s.ownership_ok) (hdet : o.detach = QDF_STATUS_SUCCESS)
    (h : pkt_capture_vdev_create_notification o vdev s = some (st, s')) :
    s'.ownership_ok := by
  have hclear : ownership_inv
      (Function.update (Function.update s.vdev_comp_priv vdev (some s.heap.fresh)) vdev none)
      s.psoc_comp_priv s.heap.shape := by
    rw [Function.update_idem]
    exact ownership_clear_vslot _ _ _ vdev hs
  by_cases h1 : o.vdev_priv_alloc = true
  swap
  · have h1 : o.vdev_priv_alloc = false := by simpa using h1
    rw [vdev_create_priv_alloc_fail o vdev s h1] at h; cases h; exact hs
  by_cases h2 : o.attach = QDF_STATUS_SUCCESS
  swap
  · rw [vdev_create_attach_fail o vdev s h1 h2] at h; cases h; exact hs
  by_cases h3 : o.cb_ctx_alloc = true
  swap
  · have h3 : o.cb_ctx_alloc = false := by simpa using h3
    rw [vdev_create_cb_ctx_alloc_fail o vdev s h1 h2 h3] at h; cases h
    simpa [State.ownership_ok, hdet] using hclear
  by_cases h4 : o.mon_ctx_alloc = true
  swap
  · have h4 : o.mon_ctx_alloc = false := by simpa using h4
    rw [vdev_create_mon_ctx_alloc_fail o vdev s h1 h2 h3 h4] at h; cases h
    simpa [State.ownership_ok, hdet] using hclear
  by_cases h5 : o.alloc_mon_thread = QDF_STATUS_SUCCESS
  swap
  · rw [vdev_create_alloc_mon_thread_fail o vdev s h1 h2 h3 h4 h5] at h; cases h
    simpa [State.ownership_ok, hdet] using hclear
  by_cases h6 : o.open_mon_thread = QDF_STATUS_SUCCESS
  swap
  · rw [vdev_create_open_mon_thread_fail o vdev s h1 h2 h3 h4 h5 h6] at h; cases h
    simpa [State.ownership_ok, hdet] using hclear
  · rw [vdev_create_all_succeed o vdev s h1 h2 h3 h4 h5 h6] at h; cases h
    refine ownership_add_device _ _ s.heap.shape _ vdev s.heap.fresh (s.heap.fresh + 1)
      (s.heap.fresh + 2) hs ?_ ?_ ?_ (by omega) (by omega) (by omega) ?_
    · simp [Heap.shape]
    · simp [Heap.shape]
    · simp [Heap.shape]
    · intro x
      simp only [Heap.shape_cons, Obj.shape]

theorem vdev_destroy_keeps_ownership (d : QDF_STATUS) (vdev : Nat) (st : QDF_STATUS)
    (s s' : State) (hs : s.ownership_ok)
    (hd : pkt_capture_vdev_get_priv s vdev ≠ none → d = QDF_STATUS_SUCCESS)
    (h : pkt_capture_vdev_destroy_notification d vdev s = some (st, s')) :
    s'.ownership_ok := by
  cases h0 : pkt_capture_vdev_get_priv s vdev with
  | none =>
    simp [pkt_capture_vdev_destroy_notification, h0] at h
    rw [← h.2]; exact hs
  | some p =>
    have hd' : d = QDF_STATUS_SUCCESS := hd (by rw [h0]; simp)
    subst hd'
    obtain ⟨c, m, hatt, hshape⟩ := vdev_priv_attached_of_ownership s hs vdev p h0
    rw [vdev_destroy_attached QDF_STATUS_SUCCESS vdev p c m s hatt] at h
    cases h
    refine ownership_free_device _ _ s.heap.shape _ vdev p c m hs h0 hshape ?_
    intro x
    simp only [Heap.shape_free]

theorem psoc_create_keeps_ownership (ok : Bool) (attach : QDF_STATUS) (psoc : Nat)
    (st : QDF_STATUS) (s s' : State) (hs : s.ownership_ok)
    (h : pkt_capture_psoc_create_notification ok attach psoc s = some (st, s')) :
    s'.ownership_ok := by
  cases ok with
  | false => rw [psoc_create_alloc_fail attach psoc s] at h; cases h; exact hs
  | true =>
    by_cases ha : attach = QDF_STATUS_SUCCESS
    · subst ha
      rw [psoc_create_all_succeed psoc s] at h; cases h
      refine ownership_add_psoc _ _ s.heap.shape _ psoc s.heap.fresh hs ?_ ?_
      · simp [Heap.shape]
      · intro x
        simp only [Heap.shape_cons, Obj.shape]
    · rw [psoc_create_attach_fail attach psoc s ha] at h; cases h; exact hs

theorem psoc_destroy_keeps_ownership (d : QDF_STATUS) (psoc : Nat) (st : QDF_STATUS)
    (s s' : State) (hs : s.ownership_ok)
    (hd : pkt_capture_psoc_get_priv s psoc ≠ none → d = QDF_STATUS_SUCCESS)
    (h : pkt_capture_psoc_destroy_notification d psoc s = some (st, s')) :
    s'.ownership_ok := by
  cases h0 : pkt_capture_psoc_get_priv s psoc with
  | none =>
    simp [pkt_capture_psoc_destroy_notification, h0] at h
    rw [← h.2]; exact hs
  | some q =>
    have hd' : d = QDF_STATUS_SUCCESS := hd (by rw [h0]; simp)
    subst hd'
    have hatt := psoc_priv_attached_of_ownership s hs psoc q h0
    rw [psoc_destroy_detach_ok psoc q s hatt] at h
    cases h
    refine ownership_free_psoc _ _ s.heap.shape _ psoc q hs h0 ?_
    intro x
    simp only [Heap.shape_free]

/-- Every reachable state satisfies the ownership invariant. -/
theorem reachable_ownership (s : State) (h : Reachable s) : s.ownership_ok := by
  induction h with
  | empty =>
    refine ⟨?_, ?_, ?_, ?_⟩
    · intro vd p h; cases h
    · intro v1 v2 p1 p2 c1 c2 m1 m2 _ h; cases h
    · intro P q h; cases h
    · intro P1 P2 q _ h; cases h
  | env s sta cfg ref _ ih => exact ih
  | vdev_create s s' o vdev st _ hdet hstep ih =>
    exact vdev_create_keeps_ownership o vdev st s s' ih hdet hstep
  | vdev_destroy s s' d vdev st _ hd hstep ih =>
    exact vdev_destroy_keeps_ownership d vdev st s s' ih hd hstep
  | psoc_create s s' ok attach psoc st _ hstep ih =>
    exact psoc_create_keeps_ownership ok attach psoc st s s' ih hstep
  | psoc_destroy s s' d psoc st _ hd hstep ih =>
    exact psoc_destroy_keeps_ownership d psoc st s s' ih hd hstep
  | register s s' vdev mon_cb context st _ hstep ih =>
    obtain ⟨h1, h2, h3⟩ := register_callbacks_keeps_shapes vdev mon_cb context st s s' hstep
    exact ownership_of_same s s' ih h1 h2 h3
  | deregister s s' vdev st _ hstep ih =>
    obtain ⟨h1, h2, h3⟩ := deregister_callbacks_keeps_shapes vdev st s s' hstep
    exact ownership_of_same s s' ih h1 h2 h3
  | set_pktcap_mode s s' psoc mode _ hstep ih =>
    obtain ⟨h1, h2, h3⟩ := set_pktcap_mode_keeps_shapes psoc mode s s' hstep
    exact ownership_of_same s s' ih h1 h2 h3
  | get_pktcap_mode s s' psoc mode _ hstep ih =>
    obtain ⟨h1, h2, h3⟩ := get_pktcap_mode_keeps_shapes psoc mode s s' hstep
    exact ownership_of_same s s' ih h1 h2 h3

/-! ## Staged creation of a device's private state: rollback -/

/-- C1, as stated, fails when the detach of the rollback fails.  Device 7 is created
on the empty state, every stage succeeding but the open of the monitor thread, and
the detach of the rollback reports `QDF_STATUS_E_FAILURE` (the code does not look at
that status): the call returns the open error, block 1 has been freed, and the
lookup on device 7 still returns block 1. -/
theorem vdev_create_rollback_detach_failure_stays_attached :
    pkt_capture_vdev_get_priv State.empty 7 = none ∧
    (pkt_capture_vdev_create_notification
        ⟨true, QDF_STATUS_SUCCESS, true, true, QDF_STATUS_SUCCESS, QDF_STATUS_E_FAILURE,
          QDF_STATUS_E_FAILURE⟩ 7 State.empty).map
      (fun r => (r.1, pkt_capture_vdev_get_priv r.2 7, r.2.heap.get 1, r.2.heap))
      = some (QDF_STATUS_E_FAILURE, some 1, none, []) := by
  decide

/-- C1, amended: whenever `pkt_capture_vdev_create_notification` returns an error,
whatever the pre-state and whatever the outcomes of its six fallible stages, the
calls it made are the acquisitions up to the failing stage followed by the matching
releases in strict reverse order (for an open failure: release the pending-packet
queue, free the monitor context, free the callback context, detach, free the private
state); the heap is exactly the heap before the call, so no allocation of the call
is live.  When the detach of the rollback succeeds, every private state attached
afterwards was attached before the call, so a device that had none has none.  When
that detach fails after a successful attach, the lookup on the device still returns
the private state of the call, which has been freed. -/
theorem vdev_create_failure_unwinds_in_reverse (o : vdev_create_outcomes) (vdev : Nat)
    (s : State)
    (herr : (pkt_capture_vdev_create_notification o vdev s).map Prod.fst
      ≠ some QDF_STATUS_SUCCESS) :
    ∃ st s' t, pkt_capture_vdev_create_notification o vdev s = some (st, s') ∧
      st ≠ QDF_STATUS_SUCCESS ∧
      s'.trace = s.trace ++ t ∧
      ((o.vdev_priv_alloc = false ∧
          t = [Event.qdf_mem_malloc none]) ∨
       (o.vdev_priv_alloc = true ∧ o.attach ≠ QDF_STATUS_SUCCESS ∧
          t = [Event.qdf_mem_malloc (some s.heap.fresh),
               Event.vdev_component_obj_attach vdev s.heap.fresh o.attach,
               Event.qdf_mem_free (some s.heap.fresh)]) ∨
       (o.vdev_priv_alloc = true ∧ o.attach = QDF_STATUS_SUCCESS ∧ o.cb_ctx_alloc = false ∧
          t = [Event.qdf_mem_malloc (some s.heap.fresh),
               Event.vdev_component_obj_attach vdev s.heap.fresh QDF_STATUS_SUCCESS,
               Event.qdf_mem_malloc none,
               Event.vdev_component_obj_detach vdev s.heap.fresh o.detach,
               Event.qdf_mem_free (some s.heap.fresh)]) ∨
       (o.vdev_priv_alloc = true ∧ o.attach = QDF_STATUS_SUCCESS ∧ o.cb_ctx_alloc = true ∧
          o.mon_ctx_alloc = false ∧
          t = [Event.qdf_mem_malloc (some s.heap.fresh),
               Event.vdev_component_obj_attach vdev s.heap.fresh QDF_STATUS_SUCCESS,
               Event.qdf_mem_malloc (some (s.heap.fresh + 1)),
               Event.qdf_mem_malloc none,
               Event.qdf_mem_free (some (s.heap.fresh + 1)),
               Event.vdev_component_obj_detach vdev s.heap.fresh o.detach,
               Event.qdf_mem_free (some s.heap.fresh)]) ∨
       (o.vdev_priv_alloc = true ∧ o.attach = QDF_STATUS_SUCCESS ∧ o.cb_ctx_alloc = true ∧
          o.mon_ctx_alloc = true ∧ o.alloc_mon_thread ≠ QDF_STATUS_SUCCESS ∧
          t = [Event.qdf_mem_malloc (some s.heap.fresh),
               Event.vdev_component_obj_attach vdev s.heap.fresh QDF_STATUS_SUCCESS,
               Event.qdf_mem_malloc (some (s.heap.fresh + 1)),
               Event.qdf_mem_malloc (some (s.heap.fresh + 2)),
               Event.alloc_mon_thread (s.heap.fresh + 2) o.alloc_mon_thread,
               Event.qdf_mem_free (some (s.heap.fresh + 2)),
               Event.qdf_mem_free (some (s.heap.fresh + 1)),
               Event.vdev_component_obj_detach vdev s.heap.fresh o.detach,
               Event.qdf_mem_free (some s.heap.fresh)]) ∨
       (o.vdev_priv_alloc = true ∧ o.attach = QDF_STATUS_SUCCESS ∧ o.cb_ctx_alloc = true ∧
          o.mon_ctx_alloc = true ∧ o.alloc_mon_thread = QDF_STATUS_SUCCESS ∧
          o.open_mon_thread ≠ QDF_STATUS_SUCCESS ∧
          t = [Event.qdf_mem_malloc (some s.heap.fresh),
               Event.vdev_component_obj_attach vdev s.heap.fresh QDF_STATUS_SUCCESS,
               Event.qdf_mem_malloc (some (s.heap.fresh + 1)),
               Event.qdf_mem_malloc (some (s.heap.fresh + 2)),
               Event.alloc_mon_thread (s.heap.fresh + 2) QDF_STATUS_SUCCESS,
               Event.open_mon_thread (s.heap.fresh + 2) o.open_mon_thread,
               Event.free_mon_pkt_freeq (s.heap.fresh + 2),
               Event.qdf_mem_free (some (s.heap.fresh + 2)),
               Event.qdf_mem_free (some (s.heap.fresh + 1)),
               Event.vdev_component_obj_detach vdev s.heap.fresh o.detach,
               Event.qdf_mem_free (some s.heap.fresh)])) ∧
      s'.heap = s.heap ∧
      (o.detach = QDF_STATUS_SUCCESS →
        (∀ v q, pkt_capture_vdev_get_priv s' v = some q →
          pkt_capture_vdev_get_priv s v = some q) ∧
        (pkt_capture_vdev_get_priv s vdev = none →
          pkt_capture_vdev_get_priv s' vdev = none)) ∧
      (o.detach ≠ QDF_STATUS_SUCCESS → o.vdev_priv_alloc = true →
        o.attach = QDF_STATUS_SUCCESS →
        pkt_capture_vdev_get_priv s' vdev = some s.heap.fresh ∧
        s'.heap.get s.heap.fresh = none) := by
  have hupd : ∀ (f : Nat → Option Nat) (v q : Nat) (x : Option Nat),
      Function.update (Function.update f vdev x) vdev none v = some q → f v = some q := by
    intro f v q x h
    by_cases hv : v = vdev
    · subst hv; simp at h
    · simpa [Function.update, hv] using h
  by_cases h1 : o.vdev_priv_alloc = true
  swap
  · have h1 : o.vdev_priv_alloc = false := by simpa using h1
    refine ⟨_, _, _, vdev_create_priv_alloc_fail o vdev s h1, by simp, rfl, Or.inl ⟨h1, rfl⟩,
      rfl, fun _ => ⟨fun v q h => h, fun h => h⟩, fun _ ha _ => absurd ha (by simp [h1])⟩
  by_cases h2 : o.attach = QDF_STATUS_SUCCESS
  swap
  · refine ⟨_, _, _, vdev_create_attach_fail o vdev s h1 h2, h2, rfl,
      Or.inr (Or.inl ⟨h1, h2, rfl⟩), rfl, fun _ => ⟨fun v q h => h, fun h => h⟩,
      fun _ _ ha => absurd ha h2⟩
  by_cases h3 : o.cb_ctx_alloc = true
  swap
  · have h3 : o.cb_ctx_alloc = false := by simpa using h3
    refine ⟨_, _, _, vdev_create_cb_ctx_alloc_fail o vdev s h1 h2 h3, by simp, rfl,
      Or.inr (Or.inr (Or.inl ⟨h1, h2, h3, rfl⟩)), rfl, fun hd => ⟨fun v q h => ?_, fun _ => ?_⟩,
      fun hd _ _ => ⟨?_, ?_⟩⟩
    · simp only [pkt_capture_vdev_get_priv, hd, if_true] at h ⊢
      exact hupd _ _ _ _ h
    · simp [pkt_capture_vdev_get_priv, hd]
    · simp [pkt_capture_vdev_get_priv, hd]
    · simp
  by_cases h4 : o.mon_ctx_alloc = true
  swap
  · have h4 : o.mon_ctx_alloc = false := by simpa using h4
    refine ⟨_, _, _, vdev_create_mon_ctx_alloc_fail o vdev s h1 h2 h3 h4, by simp, rfl,
      Or.inr (Or.inr (Or.inr (Or.inl ⟨h1, h2, h3, h4, rfl⟩))), rfl,
      fun hd => ⟨fun v q h => ?_, fun _ => ?_⟩, fun hd _ _ => ⟨?_, ?_⟩⟩
    · simp only [pkt_capture_vdev_get_priv, hd, if_true] at h ⊢
      exact hupd _ _ _ _ h
    · simp [pkt_capture_vdev_get_priv, hd]
    · simp [pkt_capture_vdev_get_priv, hd]
    · simp
  by_cases h5 : o.alloc_mon_thread = QDF_STATUS_SUCCESS
  swap
  · refine ⟨_, _, _, vdev_create_alloc_mon_thread_fail o vdev s h1 h2 h3 h4 h5, h5, rfl,
      Or.inr (Or.inr (Or.inr (Or.inr (Or.inl ⟨h1, h2, h3, h4, h5, rfl⟩)))), rfl,
      fun hd => ⟨fun v q h => ?_, fun _ => ?_⟩, fun hd _ _ => ⟨?_, ?_⟩⟩
    · simp only [pkt_capture_vdev_get_priv, hd, if_true] at h ⊢
      exact hupd _ _ _ _ h
    · simp [pkt_capture_vdev_get_priv, hd]
    · simp [pkt_capture_vdev_get_priv, hd]
    · simp
  by_cases h6 : o.open_mon_thread = QDF_STATUS_SUCCESS
  swap
  · refine ⟨_, _, _, vdev_create_open_mon_thread_fail o vdev s h1 h2 h3 h4 h5 h6, h6, rfl,
      Or.inr (Or.inr (Or.inr (Or.inr (Or.inr ⟨h1, h2, h3, h4, h5, h6, rfl⟩)))), rfl,
      fun hd => ⟨fun v q h => ?_, fun _ => ?_⟩, fun hd _ _ => ⟨?_, ?_⟩⟩
    · simp only [pkt_capture_vdev_get_priv, hd, if_true] at h ⊢
      exact hupd _ _ _ _ h
    · simp [pkt_capture_vdev_get_priv, hd]
    · simp [pkt_capture_vdev_get_priv, hd]
    · simp
  · exfalso
    apply herr
    rw [vdev_create_all_succeed o vdev s h1 h2 h3 h4 h5 h6]
    rfl

/-- The rollback theorem at a concrete input: device 7, empty state, the open of the
monitor thread failing and the detach of the rollback succeeding. -/
theorem vdev_create_failure_unwinds_in_reverse_witness :
    (pkt_capture_vdev_create_notification
        ⟨true, QDF_STATUS_SUCCESS, true, true, QDF_STATUS_SUCCESS, QDF_STATUS_E_FAILURE,
          QDF_STATUS_SUCCESS⟩ 7 State.empty).map Prod.fst ≠ some QDF_STATUS_SUCCESS ∧
    ∃ st s' t, pkt_capture_vdev_create_notification
        ⟨true, QDF_STATUS_SUCCESS, true, true, QDF_STATUS_SUCCESS, QDF_STATUS_E_FAILURE,
          QDF_STATUS_SUCCESS⟩ 7 State.empty = some (st, s') ∧
      st ≠ QDF_STATUS_SUCCESS ∧ s'.trace = State.empty.trace ++ t ∧
      s'.heap = State.empty.heap ∧ pkt_capture_vdev_get_priv s' 7 = none :=
  ⟨by decide,
    (vdev_create_failure_unwinds_in_reverse _ 7 State.empty (by decide)).imp
      fun _ h => h.imp fun _ h => h.imp fun _ h =>
        ⟨h.1, h.2.1, h.2.2.1, h.2.2.2.2.1, (h.2.2.2.2.2.1 rfl).2 rfl⟩⟩

/-! ## Teardown of a controller's private state -/

/-- C2: the controller's destroy hook evaluated where it departs from the
specification.  On a controller whose private state is attached at block 1, with
the detach reporting `QDF_STATUS_E_FAILURE`, the hook makes the detach call only and
returns that status; block 1 is still allocated, whereas the specification has the
private state freed whether the detach succeeds or fails (as the device hook does). -/
theorem psoc_destroy_detach_failure_keeps_block :
    psoc_priv_attached
      State.with_controller 3 1 ∧
    (pkt_capture_psoc_destroy_notification QDF_STATUS_E_FAILURE 3
      State.with_controller).map
      (fun r => (r.1, r.2.heap.get 1, r.2.trace))
      = some (QDF_STATUS_E_FAILURE, some (Obj.psoc_priv ⟨some 3, ⟨2⟩⟩),
          [Event.psoc_component_obj_detach 3 1 QDF_STATUS_E_FAILURE]) := by
  decide

/-! ## Teardown leaves nothing behind -/

/-- C3, as stated, fails when the detach fails.  Device 7 is created (all stages
succeed) and destroyed with the detach reporting `QDF_STATUS_E_FAILURE`: the lookup
on the device still returns block 1, which is no longer allocated.  Controller 3 is
created and destroyed the same way: its private state is still attached and the
count of live allocations is 1, not the 0 it was before the create. -/
theorem destroy_detach_failure_still_reachable :
    ((pkt_capture_vdev_create_notification
        ⟨true, QDF_STATUS_SUCCESS, true, true, QDF_STATUS_SUCCESS, QDF_STATUS_SUCCESS,
          QDF_STATUS_SUCCESS⟩ 7 State.empty).bind
      (fun r => pkt_capture_vdev_destroy_notification QDF_STATUS_E_FAILURE 7 r.2)).map
      (fun r => (r.1, pkt_capture_vdev_get_priv r.2 7, r.2.heap.get 1))
      = some (QDF_STATUS_E_FAILURE, some 1, none) ∧
    ((pkt_capture_psoc_create_notification true QDF_STATUS_SUCCESS 3 State.empty).bind
      (fun r => pkt_capture_psoc_destroy_notification QDF_STATUS_E_FAILURE 3 r.2)).map
      (fun r => (r.1, pkt_capture_psoc_get_priv r.2 3, r.2.heap.count))
      = some (QDF_STATUS_E_FAILURE, some 1, 1) ∧
    State.empty.heap.count = 0 := by
  decide

/-- C3, amended: whatever events led to the state, after a destroy hook has run on
an object with attached (live) private state and the detach succeeded, the lookup on
that object returns nothing, the private state and every sub-resource it owned
(callback context, monitor context) are released, no other block is touched, and
the count of live allocations has gone down by exactly what the matching create
added (three blocks for a device, one for a controller).  For a device the blocks
are released whatever the detach reports; when it fails the lookup still returns
the private state. -/
theorem destroy_releases_private_state (s : State) :
    (∀ d vdev p c m, vdev_priv_attached s vdev p c m →
      ∃ s', pkt_capture_vdev_destroy_notification d vdev s = some (d, s') ∧
        s'.heap.get p = none ∧ s'.heap.get c = none ∧ s'.heap.get m = none ∧
        (∀ a, a ≠ p → a ≠ c → a ≠ m → s'.heap.get a = s.heap.get a) ∧
        s'.heap.count + 3 = s.heap.count ∧
        (d = QDF_STATUS_SUCCESS → pkt_capture_vdev_get_priv s' vdev = none) ∧
        (d ≠ QDF_STATUS_SUCCESS → pkt_capture_vdev_get_priv s' vdev = some p)) ∧
    (∀ psoc p, psoc_priv_attached s psoc p →
      ∃ s', pkt_capture_psoc_destroy_notification QDF_STATUS_SUCCESS psoc s
          = some (QDF_STATUS_SUCCESS, s') ∧
        s'.heap.get p = none ∧
        (∀ a, a ≠ p → s'.heap.get a = s.heap.get a) ∧
        s'.heap.count + 1 = s.heap.count ∧
        pkt_capture_psoc_get_priv s' psoc = none) ∧
    (∀ o vdev, o.vdev_priv_alloc = true → o.attach = QDF_STATUS_SUCCESS →
      o.cb_ctx_alloc = true → o.mon_ctx_alloc = true →
      o.alloc_mon_thread = QDF_STATUS_SUCCESS → o.open_mon_thread = QDF_STATUS_SUCCESS →
      ∃ s', pkt_capture_vdev_create_notification o vdev s = some (QDF_STATUS_SUCCESS, s') ∧
        s'.heap.count = s.heap.count + 3) ∧
    (∀ psoc,
      ∃ s', pkt_capture_psoc_create_notification true QDF_STATUS_SUCCESS psoc s
          = some (QDF_STATUS_SUCCESS, s') ∧
        s'.heap.count = s.heap.count + 1) := by
  refine ⟨?_, ?_, ?_, ?_⟩
  · intro d vdev p c m h
    obtain ⟨h0, ⟨back, hp⟩, ⟨cc, hc⟩, ⟨mc, hm⟩, hpc, hpm, hcm⟩ :=
      vdev_priv_attached_cells s vdev p c m h
    have hcp : c ≠ p := fun e => hpc e.symm
    have hmp : m ≠ p := fun e => hpm e.symm
    have hmc : m ≠ c := fun e => hcm e.symm
    refine ⟨_, vdev_destroy_attached d vdev p c m s h, ?_, ?_, ?_, ?_, ?_, ?_, ?_⟩
    · simp [Heap.get_free]
    · simp [Heap.get_free]
    · simp [Heap.get_free]
    · intro a h1 h2 h3
      simp [Heap.get_free, h1, h2, h3]
    · have c1 := Heap.count_free s.heap m (by simp [hm])
      have c2 := Heap.count_free (s.heap.free m) c (by simp [Heap.get_free, hc, hcm])
      have c3 := Heap.count_free ((s.heap.free m).free c) p
        (by simp [Heap.get_free, hp, hpc, hpm])
      simp only
      omega
    · intro hd
      simp [pkt_capture_vdev_get_priv, hd]
    · intro hd
      simpa [pkt_capture_vdev_get_priv, hd] using h0
  · intro psoc p h
    obtain ⟨h0, pp, hp⟩ := psoc_priv_attached_cells s psoc p h
    refine ⟨_, psoc_destroy_detach_ok psoc p s h, ?_, ?_, ?_, ?_⟩
    · simp [Heap.get_free]
    · intro a h1
      simp [Heap.get_free, h1]
    · exact Heap.count_free s.heap p (by simp [hp])
    · simp [pkt_capture_psoc_get_priv]
  · intro o vdev h1 h2 h3 h4 h5 h6
    exact ⟨_, vdev_create_all_succeed o vdev s h1 h2 h3 h4 h5 h6,
      Heap.count_alloc_three s.heap _ _ _⟩
  · intro psoc
    exact ⟨_, psoc_create_all_succeed psoc s, Heap.count_alloc s.heap _ _ (by simp)⟩

/-- The release theorem at a concrete input: device 7 of `State.with_device`, the
detach succeeding. -/
theorem destroy_releases_private_state_witness :
    vdev_priv_attached
      State.with_device 7 1 2 3 ∧
    ∃ s', pkt_capture_vdev_destroy_notification QDF_STATUS_SUCCESS 7
      State.with_device
        = some (QDF_STATUS_SUCCESS, s') ∧
      s'.heap.get 1 = none ∧ s'.heap.get 2 = none ∧ s'.heap.get 3 = none ∧
      pkt_capture_vdev_get_priv s' 7 = none :=
  ⟨by decide,
    ((destroy_releases_private_state _).1 QDF_STATUS_SUCCESS 7 1 2 3 (by decide)).imp
      fun _ h => ⟨h.1, h.2.1, h.2.2.1, h.2.2.2.1, h.2.2.2.2.2.2.1 rfl⟩⟩

/-! ## Staged creation: status and success -/

/-- C4: `pkt_capture_vdev_create_notification` always returns; it returns success
exactly when all six stages succeed; otherwise it returns the status of the first
failing stage (`QDF_STATUS_E_NOMEM` for the three allocations, the reported status
for attach, monitor-thread alloc and monitor-thread open), and the stages attempted
are those up to and including the first failing one, none after it. -/
theorem vdev_create_returns_first_failure (o : vdev_create_outcomes) (vdev : Nat) (s : State) :
    ∃ st s' t, pkt_capture_vdev_create_notification o vdev s = some (st, s') ∧
      s'.trace = s.trace ++ t ∧
      (st = QDF_STATUS_SUCCESS ↔
        (o.vdev_priv_alloc = true ∧ o.attach = QDF_STATUS_SUCCESS ∧ o.cb_ctx_alloc = true ∧
          o.mon_ctx_alloc = true ∧ o.alloc_mon_thread = QDF_STATUS_SUCCESS ∧
          o.open_mon_thread = QDF_STATUS_SUCCESS)) ∧
      ((o.vdev_priv_alloc = false ∧ st = QDF_STATUS_E_NOMEM ∧
          t.filter Event.is_stage_attempt = [Event.qdf_mem_malloc none]) ∨
       (o.vdev_priv_alloc = true ∧ o.attach ≠ QDF_STATUS_SUCCESS ∧ st = o.attach ∧
          t.filter Event.is_stage_attempt =
            [Event.qdf_mem_malloc (some s.heap.fresh),
             Event.vdev_component_obj_attach vdev s.heap.fresh o.attach]) ∨
       (o.vdev_priv_alloc = true ∧ o.attach = QDF_STATUS_SUCCESS ∧ o.cb_ctx_alloc = false ∧
          st = QDF_STATUS_E_NOMEM ∧
          t.filter Event.is_stage_attempt =
            [Event.qdf_mem_malloc (some s.heap.fresh),
             Event.vdev_component_obj_attach vdev s.heap.fresh QDF_STATUS_SUCCESS,
             Event.qdf_mem_malloc none]) ∨
       (o.vdev_priv_alloc = true ∧ o.attach = QDF_STATUS_SUCCESS ∧ o.cb_ctx_alloc = true ∧
          o.mon_ctx_alloc = false ∧ st = QDF_STATUS_E_NOMEM ∧
          t.filter Event.is_stage_attempt =
            [Event.qdf_mem_malloc (some s.heap.fresh),
             Event.vdev_component_obj_attach vdev s.heap.fresh QDF_STATUS_SUCCESS,
             Event.qdf_mem_malloc (some (s.heap.fresh + 1)),
             Event.qdf_mem_malloc none]) ∨
       (o.vdev_priv_alloc = true ∧ o.attach = QDF_STATUS_SUCCESS ∧ o.cb_ctx_alloc = true ∧
          o.mon_ctx_alloc = true ∧ o.alloc_mon_thread ≠ QDF_STATUS_SUCCESS ∧
          st = o.alloc_mon_thread ∧
          t.filter Event.is_stage_attempt =
            [Event.qdf_mem_malloc (some s.heap.fresh),
             Event.vdev_component_obj_attach vdev s.heap.fresh QDF_STATUS_SUCCESS,
             Event.qdf_mem_malloc (some (s.heap.fresh + 1)),
             Event.qdf_mem_malloc (some (s.heap.fresh + 2)),
             Event.alloc_mon_thread (s.heap.fresh + 2) o.alloc_mon_thread]) ∨
       (o.vdev_priv_alloc = true ∧ o.attach = QDF_STATUS_SUCCESS ∧ o.cb_ctx_alloc = true ∧
          o.mon_ctx_alloc = true ∧ o.alloc_mon_thread = QDF_STATUS_SUCCESS ∧
          o.open_mon_thread ≠ QDF_STATUS_SUCCESS ∧ st = o.open_mon_thread ∧
          t.filter Event.is_stage_attempt =
            [Event.qdf_mem_malloc (some s.heap.fresh),
             Event.vdev_component_obj_attach vdev s.heap.fresh QDF_STATUS_SUCCESS,
             Event.qdf_mem_malloc (some (s.heap.fresh + 1)),
             Event.qdf_mem_malloc (some (s.heap.fresh + 2)),
             Event.alloc_mon_thread (s.heap.fresh + 2) QDF_STATUS_SUCCESS,
             Event.open_mon_thread (s.heap.fresh + 2) o.open_mon_thread]) ∨
       (o.vdev_priv_alloc = true ∧ o.attach = QDF_STATUS_SUCCESS ∧ o.cb_ctx_alloc = true ∧
          o.mon_ctx_alloc = true ∧ o.alloc_mon_thread = QDF_STATUS_SUCCESS ∧
          o.open_mon_thread = QDF_STATUS_SUCCESS ∧ st = QDF_STATUS_SUCCESS ∧
          t.filter Event.is_stage_attempt =
            [Event.qdf_mem_malloc (some s.heap.fresh),
             Event.vdev_component_obj_attach vdev s.heap.fresh QDF_STATUS_SUCCESS,
             Event.qdf_mem_malloc (some (s.heap.fresh + 1)),
             Event.qdf_mem_malloc (some (s.heap.fresh + 2)),
             Event.alloc_mon_thread (s.heap.fresh + 2) QDF_STATUS_SUCCESS,
             Event.open_mon_thread (s.heap.fresh + 2) QDF_STATUS_SUCCESS])) := by
  by_cases h1 : o.vdev_priv_alloc = true
  swap
  · have h1 : o.vdev_priv_alloc = false := by simpa using h1
    exact ⟨_, _, _, vdev_create_priv_alloc_fail o vdev s h1, rfl, by simp [h1],
      Or.inl ⟨h1, rfl, rfl⟩⟩
  by_cases h2 : o.attach = QDF_STATUS_SUCCESS
  swap
  · exact ⟨_, _, _, vdev_create_attach_fail o vdev s h1 h2, rfl, by simp [h2],
      Or.inr (Or.inl ⟨h1, h2, rfl, rfl⟩)⟩
  by_cases h3 : o.cb_ctx_alloc = true
  swap
  · have h3 : o.cb_ctx_alloc = false := by simpa using h3
    exact ⟨_, _, _, vdev_create_cb_ctx_alloc_fail o vdev s h1 h2 h3, rfl, by simp [h3],
      Or.inr (Or.inr (Or.inl ⟨h1, h2, h3, rfl, rfl⟩))⟩
  by_cases h4 : o.mon_ctx_alloc = true
  swap
  · have h4 : o.mon_ctx_alloc = false := by simpa using h4
    exact ⟨_, _, _, vdev_create_mon_ctx_alloc_fail o vdev s h1 h2 h3 h4, rfl, by simp [h4],
      Or.inr (Or.inr (Or.inr (Or.inl ⟨h1, h2, h3, h4, rfl, rfl⟩)))⟩
  by_cases h5 : o.alloc_mon_thread = QDF_STATUS_SUCCESS
  swap
  · exact ⟨_, _, _, vdev_create_alloc_mon_thread_fail o vdev s h1 h2 h3 h4 h5, rfl,
      by simp [h5], Or.inr (Or.inr (Or.inr (Or.inr (Or.inl ⟨h1, h2, h3, h4, h5, rfl, rfl⟩))))⟩
  by_cases h6 : o.open_mon_thread = QDF_STATUS_SUCCESS
  swap
  · exact ⟨_, _, _, vdev_create_open_mon_thread_fail o vdev s h1 h2 h3 h4 h5 h6, rfl,
      by simp [h6],
      Or.inr (Or.inr (Or.inr (Or.inr (Or.inr (Or.inl ⟨h1, h2, h3, h4, h5, h6, rfl, rfl⟩)))))⟩
  · exact ⟨_, _, _, vdev_create_all_succeed o vdev s h1 h2 h3 h4 h5 h6, rfl,
      by simp [h1, h2, h3, h4, h5, h6],
      Or.inr (Or.inr (Or.inr (Or.inr (Or.inr (Or.inr ⟨h1, h2, h3, h4, h5, h6, rfl, rfl⟩)))))⟩

/-- C5: when all six stages succeed, `pkt_capture_vdev_create_notification` returns
success and afterwards the device has a private state attached whose back-reference
is the device, which owns a live callback context and a live monitor context whose
monitor-thread resource is allocated and open; the three blocks are new, every
block live before keeps its content, and the call made no release and no detach:
its calls are exactly the six acquisitions. -/
theorem vdev_create_success_post_state (o : vdev_create_outcomes) (vdev : Nat) (s : State)
    (h1 : o.vdev_priv_alloc = true) (h2 : o.attach = QDF_STATUS_SUCCESS)
    (h3 : o.cb_ctx_alloc = true) (h4 : o.mon_ctx_alloc = true)
    (h5 : o.alloc_mon_thread = QDF_STATUS_SUCCESS)
    (h6 : o.open_mon_thread = QDF_STATUS_SUCCESS) :
    ∃ s' p c m t,
      pkt_capture_vdev_create_notification o vdev s = some (QDF_STATUS_SUCCESS, s') ∧
      pkt_capture_vdev_get_priv s' vdev = some p ∧
      s'.read_vdev_priv (some p) = some ⟨some vdev, some c, some m⟩ ∧
      (s'.read_cb_ctx (some c)).isSome = true ∧
      s'.read_mon_ctx (some m) = some ⟨true, true⟩ ∧
      s.heap.get p = none ∧ s.heap.get c = none ∧ s.heap.get m = none ∧
      (∀ a, (s.heap.get a).isSome = true → s'.heap.get a = s.heap.get a) ∧
      s'.heap.count = s.heap.count + 3 ∧
      s'.trace = s.trace ++ t ∧
      t = [Event.qdf_mem_malloc (some p),
           Event.vdev_component_obj_attach vdev p QDF_STATUS_SUCCESS,
           Event.qdf_mem_malloc (some c),
           Event.qdf_mem_malloc (some m),
           Event.alloc_mon_thread m QDF_STATUS_SUCCESS,
           Event.open_mon_thread m QDF_STATUS_SUCCESS] ∧
      t.filter Event.is_release = [] := by
  refine ⟨_, s.heap.fresh, s.heap.fresh + 1, s.heap.fresh + 2, _,
    vdev_create_all_succeed o vdev s h1 h2 h3 h4 h5 h6, ?_, ?_, ?_, ?_, ?_, ?_, ?_, ?_, ?_,
    rfl, rfl, rfl⟩
  · simp [pkt_capture_vdev_get_priv]
  · simp [State.read_vdev_priv, Heap.get_cons]
  · simp [State.read_cb_ctx, Heap.get_cons]
  · simp [State.read_mon_ctx, Heap.get_cons]
  · simp
  · simp
  · simp
  · intro a ha
    have hlt : a < s.heap.fresh := by
      by_contra hge
      rw [Heap.get_of_fresh_le s.heap a (by omega)] at ha
      simp at ha
    have e1 : ¬ s.heap.fresh + 2 = a := by omega
    have e2 : ¬ s.heap.fresh + 1 = a := by omega
    have e3 : ¬ s.heap.fresh = a := by omega
    simp [Heap.get_cons, e1, e2, e3]
  · have c1 := Heap.count_alloc s.heap s.heap.fresh
      (Obj.vdev_priv ⟨some vdev, some (s.heap.fresh + 1), some (s.heap.fresh + 2)⟩) (by simp)
    have c2 := Heap.count_alloc ((s.heap.fresh,
      Obj.vdev_priv ⟨some vdev, some (s.heap.fresh + 1), some (s.heap.fresh + 2)⟩) :: s.heap)
      (s.heap.fresh + 1) (Obj.cb_ctx ⟨none, none, 0⟩) (by simp [Heap.get_cons])
    have c3 := Heap.count_alloc ((s.heap.fresh + 1, Obj.cb_ctx ⟨none, none, 0⟩) ::
      (s.heap.fresh,
      Obj.vdev_priv ⟨some vdev, some (s.heap.fresh + 1), some (s.heap.fresh + 2)⟩) :: s.heap)
      (s.heap.fresh + 2) (Obj.mon_ctx ⟨true, true⟩) (by simp [Heap.get_cons])
    simp only at c1 c2 c3 ⊢
    omega

/-- The success theorem at a concrete input: device 7, empty state. -/
theorem vdev_create_success_post_state_witness :
    ∃ s' p c m t,
      pkt_capture_vdev_create_notification
        ⟨true, QDF_STATUS_SUCCESS, true, true, QDF_STATUS_SUCCESS, QDF_STATUS_SUCCESS,
          QDF_STATUS_SUCCESS⟩ 7 State.empty = some (QDF_STATUS_SUCCESS, s') ∧
      pkt_capture_vdev_get_priv s' 7 = some p ∧
      s'.read_vdev_priv (some p) = some ⟨some 7, some c, some m⟩ ∧
      (s'.read_cb_ctx (some c)).isSome = true ∧
      s'.read_mon_ctx (some m) = some ⟨true, true⟩ ∧
      State.empty.heap.get p = none ∧ State.empty.heap.get c = none ∧
      State.empty.heap.get m = none ∧
      (∀ a, (State.empty.heap.get a).isSome = true →
        s'.heap.get a = State.empty.heap.get a) ∧
      s'.heap.count = State.empty.heap.count + 3 ∧
      s'.trace = State.empty.trace ++ t ∧
      t = [Event.qdf_mem_malloc (some p),
           Event.vdev_component_obj_attach 7 p QDF_STATUS_SUCCESS,
           Event.qdf_mem_malloc (some c),
           Event.qdf_mem_malloc (some m),
           Event.alloc_mon_thread m QDF_STATUS_SUCCESS,
           Event.open_mon_thread m QDF_STATUS_SUCCESS] ∧
      t.filter Event.is_release = [] :=
  vdev_create_success_post_state
    ⟨true, QDF_STATUS_SUCCESS, true, true, QDF_STATUS_SUCCESS, QDF_STATUS_SUCCESS,
      QDF_STATUS_SUCCESS⟩ 7 State.empty rfl rfl rfl rfl rfl rfl

/-! ## Teardown of a device's private state -/

/-- C6: for every device with attached (live) private state and whatever status the
detach reports, `pkt_capture_vdev_destroy_notification` returns that status after
making exactly these calls in this order: detach from the device, close the monitor
thread, free the monitor context, free the callback context, free the private state;
afterwards none of the three blocks is live. -/
theorem vdev_destroy_teardown_order (d : QDF_STATUS) (vdev p c m : Nat) (s : State)
    (h : vdev_priv_attached s vdev p c m) :
    ∃ s', pkt_capture_vdev_destroy_notification d vdev s = some (d, s') ∧
      s'.trace = s.trace ++
        [Event.vdev_component_obj_detach vdev p d,
         Event.close_mon_thread m,
         Event.qdf_mem_free (some m),
         Event.qdf_mem_free (some c),
         Event.qdf_mem_free (some p)] ∧
      s'.heap.get m = none ∧ s'.heap.get c = none ∧ s'.heap.get p = none := by
  refine ⟨_, vdev_destroy_attached d vdev p c m s h, rfl, ?_, ?_, ?_⟩ <;>
    simp [Heap.get_free]

/-- The teardown order at a concrete input: device 7 of `State.with_device`, the
detach failing. -/
theorem vdev_destroy_teardown_order_witness :
    vdev_priv_attached
      State.with_device 7 1 2 3 ∧
    ∃ s', pkt_capture_vdev_destroy_notification QDF_STATUS_E_FAILURE 7
      State.with_device
        = some (QDF_STATUS_E_FAILURE, s') ∧
      s'.trace = State.empty.trace ++
        [Event.vdev_component_obj_detach 7 1 QDF_STATUS_E_FAILURE,
         Event.close_mon_thread 3,
         Event.qdf_mem_free (some 3),
         Event.qdf_mem_free (some 2),
         Event.qdf_mem_free (some 1)] ∧
      s'.heap.get 3 = none ∧ s'.heap.get 2 = none ∧ s'.heap.get 1 = none :=
  ⟨by decide, vdev_destroy_teardown_order QDF_STATUS_E_FAILURE 7 1 2 3 _ (by decide)⟩

/-! ## Controller creation -/

/-- C7: `pkt_capture_psoc_create_notification` always returns and is all-or-nothing.
If the allocation fails it returns `QDF_STATUS_E_NOMEM`; if the attach fails it frees
the allocation and returns the attach status; in both cases the heap and every
controller's slot are as before the call (a controller that had no private state has
none) and the configuration source is not read.  If both succeed it returns success,
the controller's slot holds a new live private state whose back-reference is the
controller and whose configuration record is the value read from the configuration
source. -/
theorem psoc_create_all_or_nothing (alloc_ok : Bool) (attach : QDF_STATUS) (psoc : Nat)
    (s : State) :
    ∃ st s' t, pkt_capture_psoc_create_notification alloc_ok attach psoc s = some (st, s') ∧
      s'.trace = s.trace ++ t ∧
      ((alloc_ok = false ∧ st = QDF_STATUS_E_NOMEM ∧
          s'.heap = s.heap ∧ s'.psoc_comp_priv = s.psoc_comp_priv ∧
          (pkt_capture_psoc_get_priv s psoc = none →
            pkt_capture_psoc_get_priv s' psoc = none) ∧
          t = [Event.qdf_mem_malloc none]) ∨
       (alloc_ok = true ∧ attach ≠ QDF_STATUS_SUCCESS ∧ st = attach ∧
          s'.heap = s.heap ∧ s'.psoc_comp_priv = s.psoc_comp_priv ∧
          (pkt_capture_psoc_get_priv s psoc = none →
            pkt_capture_psoc_get_priv s' psoc = none) ∧
          t = [Event.qdf_mem_malloc (some s.heap.fresh),
               Event.psoc_component_obj_attach psoc s.heap.fresh attach,
               Event.qdf_mem_free (some s.heap.fresh)]) ∨
       (alloc_ok = true ∧ attach = QDF_STATUS_SUCCESS ∧ st = QDF_STATUS_SUCCESS ∧
          s.heap.get s.heap.fresh = none ∧
          pkt_capture_psoc_get_priv s' psoc = some s.heap.fresh ∧
          s'.read_psoc_priv (some s.heap.fresh) = some ⟨some psoc, ⟨s.cfg psoc⟩⟩ ∧
          t = [Event.qdf_mem_malloc (some s.heap.fresh),
               Event.psoc_component_obj_attach psoc s.heap.fresh QDF_STATUS_SUCCESS,
               Event.cfg_get (some psoc) (s.cfg psoc)])) := by
  cases alloc_ok with
  | false =>
    exact ⟨_, _, _, psoc_create_alloc_fail attach psoc s, rfl,
      Or.inl ⟨rfl, rfl, rfl, rfl, fun h => h, rfl⟩⟩
  | true =>
    by_cases ha : attach = QDF_STATUS_SUCCESS
    · subst ha
      refine ⟨_, _, _, psoc_create_all_succeed psoc s, rfl,
        Or.inr (Or.inr ⟨rfl, rfl, rfl, by simp, ?_, ?_, rfl⟩)⟩
      · simp [pkt_capture_psoc_get_priv]
      · simp [State.read_psoc_priv, Heap.get_cons]
    · exact ⟨_, _, _, psoc_create_attach_fail attach psoc s ha, rfl,
        Or.inr (Or.inl ⟨rfl, ha, rfl, rfl, rfl, fun h => h, rfl⟩)⟩

/-! ## Destroy hooks without private state -/

/-- C8: called on an object with no attached private state, both destroy hooks
return `QDF_STATUS_E_FAILURE` (the status the specification calls InvalidState) and
leave the whole state as it was: no call is made, so no detach, close or free. -/
theorem destroy_without_private_state (d : QDF_STATUS) (s : State) :
    (∀ vdev, pkt_capture_vdev_get_priv s vdev = none →
      pkt_capture_vdev_destroy_notification d vdev s = some (QDF_STATUS_E_FAILURE, s)) ∧
    (∀ psoc, pkt_capture_psoc_get_priv s psoc = none →
      pkt_capture_psoc_destroy_notification d psoc s = some (QDF_STATUS_E_FAILURE, s)) := by
  constructor
  · intro vdev h
    simp [pkt_capture_vdev_destroy_notification, h]
  · intro psoc h
    simp [pkt_capture_psoc_destroy_notification, h]

/-- Both destroy hooks on the empty state. -/
theorem destroy_without_private_state_witness :
    pkt_capture_vdev_get_priv State.empty 7 = none ∧
    pkt_capture_psoc_get_priv State.empty 3 = none ∧
    pkt_capture_vdev_destroy_notification QDF_STATUS_SUCCESS 7 State.empty
      = some (QDF_STATUS_E_FAILURE, State.empty) ∧
    pkt_capture_psoc_destroy_notification QDF_STATUS_SUCCESS 3 State.empty
      = some (QDF_STATUS_E_FAILURE, State.empty) :=
  ⟨rfl, rfl,
    (destroy_without_private_state QDF_STATUS_SUCCESS State.empty).1 7 rfl,
    (destroy_without_private_state QDF_STATUS_SUCCESS State.empty).2 3 rfl⟩

/-! ## Accessors -/

/-- C9: `pkt_capture_get_mode` returns the configuration value stored in the
controller's private state when the controller is given and its private state is
attached (and live); it returns `PACKET_CAPTURE_MODE_DISABLE` when the controller is
absent or has no attached private state; and after a successful
`pkt_capture_psoc_create_notification` on a controller whose configuration source
holds `V` it returns `V`. -/
theorem get_mode_returns_configured_value (s : State) :
    (∀ psoc p pp, pkt_capture_psoc_get_priv s psoc = some p →
      s.read_psoc_priv (some p) = some pp →
      pkt_capture_get_mode s (some psoc) = some pp.cfg_param.pkt_capture_mode) ∧
    pkt_capture_get_mode s none = some PACKET_CAPTURE_MODE_DISABLE ∧
    (∀ psoc, pkt_capture_psoc_get_priv s psoc = none →
      pkt_capture_get_mode s (some psoc) = some PACKET_CAPTURE_MODE_DISABLE) ∧
    (∀ psoc V, s.cfg psoc = V →
      ∃ s', pkt_capture_psoc_create_notification true QDF_STATUS_SUCCESS psoc s
          = some (QDF_STATUS_SUCCESS, s') ∧
        pkt_capture_get_mode s' (some psoc) = some V) := by
  refine ⟨?_, rfl, ?_, ?_⟩
  · intro psoc p pp h0 hp
    simp [pkt_capture_get_mode, h0, hp]
  · intro psoc h0
    simp [pkt_capture_get_mode, h0]
  · intro psoc V hV
    refine ⟨_, psoc_create_all_succeed psoc s, ?_⟩
    simp [pkt_capture_get_mode, pkt_capture_psoc_get_priv, State.read_psoc_priv,
      Heap.get_cons, hV]

/-- The configured mode of controllers 3 (private state attached) and 4 (none) of
`State.with_controller`. -/
theorem get_mode_returns_configured_value_witness :
    pkt_capture_psoc_get_priv
      State.with_controller 3 = some 1 ∧
    pkt_capture_get_mode
      State.with_controller (some 3) = some 2 ∧
    pkt_capture_get_mode
      State.with_controller (some 4)
      = some PACKET_CAPTURE_MODE_DISABLE :=
  ⟨rfl,
    (get_mode_returns_configured_value _).1 3 1 ⟨some 3, ⟨2⟩⟩ rfl rfl,
    (get_mode_returns_configured_value _).2.2.1 4 rfl⟩

/-- C10: `pkt_capture_register_callbacks` returns `QDF_STATUS_E_INVAL` exactly when
the device is absent or has no attached private state, and then the state is as it
was.  When the device has attached (live) private state with a callback context, it
returns success and the callback context holds exactly the given callback and the
given context, whatever pair it held before; its mode field, every other block, and
every slot, reference count and trace of the state are unchanged. -/
theorem register_callbacks_last_writer_wins (vdev mon_cb context : Option Nat) (s : State) :
    ((pkt_capture_register_callbacks vdev mon_cb context s).map Prod.fst
        = some QDF_STATUS_E_INVAL ↔
      (vdev = none ∨ ∃ vd, vdev = some vd ∧ pkt_capture_vdev_get_priv s vd = none)) ∧
    ((vdev = none ∨ ∃ vd, vdev = some vd ∧ pkt_capture_vdev_get_priv s vd = none) →
      pkt_capture_register_callbacks vdev mon_cb context s = some (QDF_STATUS_E_INVAL, s)) ∧
    (∀ vd p v a c, vdev = some vd → pkt_capture_vdev_get_priv s vd = some p →
      s.read_vdev_priv (some p) = some v → v.cb_ctx = some a →
      s.read_cb_ctx (some a) = some c →
      ∃ s', pkt_capture_register_callbacks vdev mon_cb context s
          = some (QDF_STATUS_SUCCESS, s') ∧
        s'.read_cb_ctx (some a) = some ⟨mon_cb, context, c.pkt_capture_mode⟩ ∧
        (∀ b, b ≠ a → s'.heap.get b = s.heap.get b) ∧
        s'.vdev_comp_priv = s.vdev_comp_priv ∧ s'.psoc_comp_priv = s.psoc_comp_priv ∧
        s'.vdev_ref = s.vdev_ref ∧ s'.sta_vdev = s.sta_vdev ∧ s'.cfg = s.cfg ∧
        s'.trace = s.trace) := by
  have habs : (vdev = none ∨ ∃ vd, vdev = some vd ∧ pkt_capture_vdev_get_priv s vd = none) →
      pkt_capture_register_callbacks vdev mon_cb context s = some (QDF_STATUS_E_INVAL, s) := by
    rintro (h | ⟨vd, h, h0⟩)
    · subst h; rfl
    · subst h; simp [pkt_capture_register_callbacks, h0]
  refine ⟨⟨?_, fun h => by rw [habs h]; rfl⟩, habs, ?_⟩
  · intro h
    cases vdev with
    | none => exact Or.inl rfl
    | some vd =>
      cases h0 : pkt_capture_vdev_get_priv s vd with
      | none => exact Or.inr ⟨vd, rfl, h0⟩
      | some p =>
        exfalso
        cases hv : s.read_vdev_priv (some p) with
        | none => simp [pkt_capture_register_callbacks, h0, hv] at h
        | some v =>
          cases ha : v.cb_ctx with
          | none => simp [pkt_capture_register_callbacks, h0, hv, ha] at h
          | some a =>
            cases hc : s.read_cb_ctx (some a) with
            | none => simp [pkt_capture_register_callbacks, h0, hv, ha, hc] at h
            | some c =>
              rw [register_callbacks_attached vd p a v c mon_cb context s h0 hv ha hc] at h
              simp at h
  · intro vd p v a c hvd h0 hv ha hc
    subst hvd
    have hc1 := (State.read_cb_ctx_some s a c).1 hc
    refine ⟨_, register_callbacks_attached vd p a v c mon_cb context s h0 hv ha hc,
      ?_, ?_, rfl, rfl, rfl, rfl, rfl, rfl⟩
    · simp [State.read_cb_ctx, Heap.get_set, hc1]
    · intro b hb
      simp [Heap.get_set, hb]

/-- Registration on device 7 of `State.with_device`, which already holds a pair. -/
theorem register_callbacks_last_writer_wins_witness :
    pkt_capture_vdev_get_priv
      State.with_device 7 = some 1 ∧
    ∃ s', pkt_capture_register_callbacks (some 7) (some 21) (some 22)
      State.with_device
        = some (QDF_STATUS_SUCCESS, s') ∧
      s'.read_cb_ctx (some 2) = some ⟨some 21, some 22, 1⟩ :=
  ⟨rfl,
    ((register_callbacks_last_writer_wins (some 7) (some 21) (some 22) State.with_device).2.2
      7 1 ⟨some 7, some 2, some 3⟩ 2 ⟨some 11, some 12, 1⟩ rfl rfl rfl rfl rfl).imp
      fun _ h => ⟨h.1, h.2.1⟩⟩

/-! ## Registration, deregistration and the active mode -/

/-- C11: for every device with attached (live) private state and every
callback/context pair, `pkt_capture_register_callbacks` followed by
`pkt_capture_deregister_callbacks` succeeds and leaves both the callback field and
the context field empty and the mode field as it was; so, the device being the
controller's station-mode device, `pkt_capture_get_pktcap_mode` afterwards returns
what it returned before, and after `pkt_capture_set_pktcap_mode` with mode `mode`,
a registration and a deregistration it still returns `mode`. -/
theorem register_then_deregister_keeps_mode (vd p c m : Nat) (mon_cb context : Option Nat)
    (s : State) (h : vdev_priv_attached s vd p c m) :
    ∃ s1 s2 cc, s.read_cb_ctx (some c) = some cc ∧
      pkt_capture_register_callbacks (some vd) mon_cb context s
        = some (QDF_STATUS_SUCCESS, s1) ∧
      pkt_capture_deregister_callbacks (some vd) s1 = some (QDF_STATUS_SUCCESS, s2) ∧
      s2.read_cb_ctx (some c) = some ⟨none, none, cc.pkt_capture_mode⟩ ∧
      (∀ ps, s.sta_vdev ps = some vd →
        (pkt_capture_get_pktcap_mode (some ps) s).map Prod.fst = some cc.pkt_capture_mode ∧
        (pkt_capture_get_pktcap_mode (some ps) s2).map Prod.fst
          = some cc.pkt_capture_mode) ∧
      (∀ ps mode, s.sta_vdev ps = some vd →
        ∃ t1 t2 t3 t4, pkt_capture_set_pktcap_mode (some ps) mode s = some t1 ∧
          pkt_capture_register_callbacks (some vd) mon_cb context t1
            = some (QDF_STATUS_SUCCESS, t2) ∧
          pkt_capture_deregister_callbacks (some vd) t2 = some (QDF_STATUS_SUCCESS, t3) ∧
          pkt_capture_get_pktcap_mode (some ps) t3 = some (mode, t4)) := by
  obtain ⟨h0, v, cc, hv, ha, hc⟩ := vdev_priv_attached_reads s vd p c m h
  have hreg := register_callbacks_attached vd p c v cc mon_cb context s h0 hv ha hc
  let s1 : State :=
    { s with heap := s.heap.set c (Obj.cb_ctx ⟨mon_cb, context, cc.pkt_capture_mode⟩) }
  have hv1 : s1.read_vdev_priv (some p) = some v :=
    read_vdev_priv_of_set_cb s s1 c _ cc rfl hc p v hv
  have hc1 : s1.read_cb_ctx (some c) = some ⟨mon_cb, context, cc.pkt_capture_mode⟩ :=
    read_cb_ctx_of_set_cb s s1 c _ cc rfl hc
  have hdereg := deregister_callbacks_attached vd p c v _ s1 h0 hv1 ha hc1
  let s2 : State :=
    { s1 with heap := s1.heap.set c (Obj.cb_ctx ⟨none, none, cc.pkt_capture_mode⟩) }
  have hv2 : s2.read_vdev_priv (some p) = some v :=
    read_vdev_priv_of_set_cb s1 s2 c _ _ rfl hc1 p v hv1
  have hc2 : s2.read_cb_ctx (some c) = some ⟨none, none, cc.pkt_capture_mode⟩ :=
    read_cb_ctx_of_set_cb s1 s2 c _ _ rfl hc1
  refine ⟨s1, s2, cc, hc, hreg, hdereg, hc2, ?_, ?_⟩
  · intro ps hsta
    constructor
    · rw [get_pktcap_mode_attached ps vd p c v cc s hsta h0 hv ha hc]; rfl
    · rw [get_pktcap_mode_attached ps vd p c v _ s2 hsta h0 hv2 ha hc2]; rfl
  · intro ps mode hsta
    have hset := set_pktcap_mode_attached ps vd p c v cc mode s hsta h0 hv ha hc
    let t1 : State :=
      { s with
        heap := s.heap.set c (Obj.cb_ctx ⟨cc.mon_cb, cc.mon_ctx, mode⟩),
        trace := s.trace ++
          [Event.get_vdev_by_opmode ps (some vd), Event.vdev_release_ref vd] }
    have hvt1 : t1.read_vdev_priv (some p) = some v :=
      read_vdev_priv_of_set_cb s t1 c _ cc rfl hc p v hv
    have hct1 : t1.read_cb_ctx (some c) = some ⟨cc.mon_cb, cc.mon_ctx, mode⟩ :=
      read_cb_ctx_of_set_cb s t1 c _ cc rfl hc
    have hreg1 := register_callbacks_attached vd p c v _ mon_cb context t1 h0 hvt1 ha hct1
    let t2 : State :=
      { t1 with heap := t1.heap.set c (Obj.cb_ctx ⟨mon_cb, context, mode⟩) }
    have hvt2 : t2.read_vdev_priv (some p) = some v :=
      read_vdev_priv_of_set_cb t1 t2 c _ _ rfl hct1 p v hvt1
    have hct2 : t2.read_cb_ctx (some c) = some ⟨mon_cb, context, mode⟩ :=
      read_cb_ctx_of_set_cb t1 t2 c _ _ rfl hct1
    have hdereg1 := deregister_callbacks_attached vd p c v _ t2 h0 hvt2 ha hct2
    let t3 : State :=
      { t2 with heap := t2.heap.set c (Obj.cb_ctx ⟨none, none, mode⟩) }
    have hvt3 : t3.read_vdev_priv (some p) = some v :=
      read_vdev_priv_of_set_cb t2 t3 c _ _ rfl hct2 p v hvt2
    have hct3 : t3.read_cb_ctx (some c) = some ⟨none, none, mode⟩ :=
      read_cb_ctx_of_set_cb t2 t3 c _ _ rfl hct2
    have hget := get_pktcap_mode_attached ps vd p c v _ t3 hsta h0 hvt3 ha hct3
    exact ⟨t1, t2, t3, _, hset, hreg1, hdereg1, hget⟩

/-- Registration then deregistration on device 7 of `State.with_station_device`,
whose callback context holds mode 1. -/
theorem register_then_deregister_keeps_mode_witness :
    vdev_priv_attached State.with_station_device 7 1 2 3 ∧
    ∃ s1 s2 cc, State.with_station_device.read_cb_ctx (some 2) = some cc ∧
      pkt_capture_register_callbacks (some 7) (some 21) (some 22) State.with_station_device
        = some (QDF_STATUS_SUCCESS, s1) ∧
      pkt_capture_deregister_callbacks (some 7) s1 = some (QDF_STATUS_SUCCESS, s2) ∧
      s2.read_cb_ctx (some 2) = some ⟨none, none, cc.pkt_capture_mode⟩ :=
  ⟨by decide,
    (register_then_deregister_keeps_mode 7 1 2 3 (some 21) (some 22)
      State.with_station_device (by decide)).imp
      fun _ h => h.imp fun _ h => h.imp fun _ h => ⟨h.1, h.2.1, h.2.2.1, h.2.2.2.1⟩⟩

/-- C12: for every controller whose station-mode device has attached (live) private
state and every mode `mode`, `pkt_capture_set_pktcap_mode` followed by
`pkt_capture_get_pktcap_mode` on that controller returns `mode`. -/
theorem set_then_get_pktcap_mode (ps vd p c m : Nat) (mode : pkt_capture_mode) (s : State)
    (hsta : s.sta_vdev ps = some vd) (h : vdev_priv_attached s vd p c m) :
    ∃ s1 s2, pkt_capture_set_pktcap_mode (some ps) mode s = some s1 ∧
      pkt_capture_get_pktcap_mode (some ps) s1 = some (mode, s2) := by
  obtain ⟨h0, v, cc, hv, ha, hc⟩ := vdev_priv_attached_reads s vd p c m h
  have hset := set_pktcap_mode_attached ps vd p c v cc mode s hsta h0 hv ha hc
  let s1 : State :=
    { s with
      heap := s.heap.set c (Obj.cb_ctx ⟨cc.mon_cb, cc.mon_ctx, mode⟩),
      trace := s.trace ++
        [Event.get_vdev_by_opmode ps (some vd), Event.vdev_release_ref vd] }
  have hv1 : s1.read_vdev_priv (some p) = some v :=
    read_vdev_priv_of_set_cb s s1 c _ cc rfl hc p v hv
  have hc1 : s1.read_cb_ctx (some c) = some ⟨cc.mon_cb, cc.mon_ctx, mode⟩ :=
    read_cb_ctx_of_set_cb s s1 c _ cc rfl hc
  exact ⟨s1, _, hset, get_pktcap_mode_attached ps vd p c v _ s1 hsta h0 hv1 ha hc1⟩

/-- Setting mode 5 on controller 3 of `State.with_station_device` and reading it
back. -/
theorem set_then_get_pktcap_mode_witness :
    State.with_station_device.sta_vdev 3 = some 7 ∧
    vdev_priv_attached State.with_station_device 7 1 2 3 ∧
    ∃ s1 s2, pkt_capture_set_pktcap_mode (some 3) 5 State.with_station_device = some s1 ∧
      pkt_capture_get_pktcap_mode (some 3) s1 = some (5, s2) :=
  ⟨rfl, by decide,
    set_then_get_pktcap_mode 3 7 1 2 3 5 State.with_station_device rfl (by decide)⟩

/-! ## The callback pair -/

/-- C13, as stated, fails: the arguments of a registration are stored as given.
After creating device 7 on the empty state (its callback context is block 2) and
registering callback 21 with no context, the callback field holds 21 and the
context field is empty. -/
theorem callback_without_context_after_register :
    ((pkt_capture_vdev_create_notification
        ⟨true, QDF_STATUS_SUCCESS, true, true, QDF_STATUS_SUCCESS, QDF_STATUS_SUCCESS,
          QDF_STATUS_SUCCESS⟩ 7 State.empty).bind
      (fun r => run_callback_calls 7 [CallbackCall.register (some 21) none] r.2)).bind
      (fun s => s.read_cb_ctx (some 2))
      = some ⟨some 21, none, 0⟩ := by
  decide

/-- C13, amended: in every state reached from a freshly created device object by any
sequence of `pkt_capture_register_callbacks` and `pkt_capture_deregister_callbacks`
calls, the callback and context fields of the device's callback context hold the two
arguments of the last registration, or are both empty when the last call is a
deregistration or there is no call; so the callback field is empty if and only if
the context field is empty whenever every registration passes a callback and a
context that are both present or both absent. -/
theorem callback_pair_is_last_registered (o : vdev_create_outcomes) (vdev : Nat) (s0 : State)
    (calls : List CallbackCall)
    (h1 : o.vdev_priv_alloc = true) (h2 : o.attach = QDF_STATUS_SUCCESS)
    (h3 : o.cb_ctx_alloc = true) (h4 : o.mon_ctx_alloc = true)
    (h5 : o.alloc_mon_thread = QDF_STATUS_SUCCESS)
    (h6 : o.open_mon_thread = QDF_STATUS_SUCCESS) :
    ∃ s s' p c m cc,
      pkt_capture_vdev_create_notification o vdev s0 = some (QDF_STATUS_SUCCESS, s) ∧
      run_callback_calls vdev calls s = some s' ∧
      vdev_priv_attached s' vdev p c m ∧
      s'.read_cb_ctx (some c) = some cc ∧
      (cc.mon_cb, cc.mon_ctx) = last_pair (none, none) calls ∧
      ((∀ call ∈ calls, call.matched = true) → (cc.mon_cb = none ↔ cc.mon_ctx = none)) := by
  obtain ⟨s, hs, hatt, hc⟩ := vdev_create_all_succeed_attached o vdev s0 h1 h2 h3 h4 h5 h6
  obtain ⟨s', cc', hrun, hatt', hread, hpair, -⟩ :=
    run_callback_calls_attached vdev _ _ _ calls s _ hatt hc
  refine ⟨s, s', _, _, _, cc', hs, hrun, hatt', hread, hpair, ?_⟩
  intro hall
  have := last_pair_matched calls (none, none) rfl hall
  rw [← hpair] at this
  exact this

/-- The amended property on device 7 of the empty state, for a registration of the
pair (21, 22) followed by a deregistration. -/
theorem callback_pair_is_last_registered_witness :
    ∃ s s' p c m cc,
      pkt_capture_vdev_create_notification
        ⟨true, QDF_STATUS_SUCCESS, true, true, QDF_STATUS_SUCCESS, QDF_STATUS_SUCCESS,
          QDF_STATUS_SUCCESS⟩ 7 State.empty = some (QDF_STATUS_SUCCESS, s) ∧
      run_callback_calls 7
        [CallbackCall.register (some 21) (some 22), CallbackCall.deregister] s = some s' ∧
      vdev_priv_attached s' 7 p c m ∧
      s'.read_cb_ctx (some c) = some cc ∧
      (cc.mon_cb, cc.mon_ctx) = (none, none) :=
  (callback_pair_is_last_registered
    ⟨true, QDF_STATUS_SUCCESS, true, true, QDF_STATUS_SUCCESS, QDF_STATUS_SUCCESS,
      QDF_STATUS_SUCCESS⟩ 7 State.empty
    [CallbackCall.register (some 21) (some 22), CallbackCall.deregister]
    rfl rfl rfl rfl rfl rfl).imp
    fun _ h => h.imp fun _ h => h.imp fun _ h => h.imp fun _ h => h.imp fun _ h =>
      h.imp fun _ h => ⟨h.1, h.2.1, h.2.2.1, h.2.2.2.1, h.2.2.2.2.1⟩

/-! ## Device references and the Disabled mode -/

/-- C14: `pkt_capture_set_pktcap_mode` and `pkt_capture_get_pktcap_mode` leave every
device's reference count as it was.  With no controller they make no call; when the
station-mode lookup finds no device they make the lookup only and no release; when
it finds a device, whether or not the device has private state, they make the
lookup and then exactly one release of that device.  And whenever either call
returns, in any state, the reference counts are those before the call. -/
theorem pktcap_mode_accessors_release_reference (mode : pkt_capture_mode) (s : State) :
    (pkt_capture_set_pktcap_mode none mode s = some s ∧
      pkt_capture_get_pktcap_mode none s = some (0, s)) ∧
    (∀ ps, s.sta_vdev ps = none →
      ∃ s1 s2 r, pkt_capture_set_pktcap_mode (some ps) mode s = some s1 ∧
        pkt_capture_get_pktcap_mode (some ps) s = some (r, s2) ∧
        s1.vdev_ref = s.vdev_ref ∧ s2.vdev_ref = s.vdev_ref ∧
        s1.trace = s.trace ++ [Event.get_vdev_by_opmode ps none] ∧
        s2.trace = s.trace ++ [Event.get_vdev_by_opmode ps none]) ∧
    (∀ ps vd, s.sta_vdev ps = some vd → pkt_capture_vdev_get_priv s vd = none →
      ∃ s1 s2 r, pkt_capture_set_pktcap_mode (some ps) mode s = some s1 ∧
        pkt_capture_get_pktcap_mode (some ps) s = some (r, s2) ∧
        s1.vdev_ref = s.vdev_ref ∧ s2.vdev_ref = s.vdev_ref ∧
        s1.trace = s.trace ++
          [Event.get_vdev_by_opmode ps (some vd), Event.vdev_release_ref vd] ∧
        s2.trace = s.trace ++
          [Event.get_vdev_by_opmode ps (some vd), Event.vdev_release_ref vd]) ∧
    (∀ ps vd p c m, s.sta_vdev ps = some vd → vdev_priv_attached s vd p c m →
      ∃ s1 s2 r, pkt_capture_set_pktcap_mode (some ps) mode s = some s1 ∧
        pkt_capture_get_pktcap_mode (some ps) s = some (r, s2) ∧
        s1.vdev_ref = s.vdev_ref ∧ s2.vdev_ref = s.vdev_ref ∧
        s1.trace = s.trace ++
          [Event.get_vdev_by_opmode ps (some vd), Event.vdev_release_ref vd] ∧
        s2.trace = s.trace ++
          [Event.get_vdev_by_opmode ps (some vd), Event.vdev_release_ref vd]) ∧
    (∀ psoc s1, pkt_capture_set_pktcap_mode psoc mode s = some s1 →
      s1.vdev_ref = s.vdev_ref) ∧
    (∀ psoc r s2, pkt_capture_get_pktcap_mode psoc s = some (r, s2) →
      s2.vdev_ref = s.vdev_ref) := by
  refine ⟨⟨rfl, rfl⟩, ?_, ?_, ?_, ?_, ?_⟩
  · intro ps hsta
    exact ⟨_, _, _, set_pktcap_mode_no_vdev ps mode s hsta, get_pktcap_mode_no_vdev ps s hsta,
      rfl, rfl, rfl, rfl⟩
  · intro ps vd hsta h0
    exact ⟨_, _, _, set_pktcap_mode_no_priv ps vd mode s hsta h0,
      get_pktcap_mode_no_priv ps vd s hsta h0, rfl, rfl, rfl, rfl⟩
  · intro ps vd p c m hsta h
    obtain ⟨h0, v, cc, hv, ha, hc⟩ := vdev_priv_attached_reads s vd p c m h
    exact ⟨_, _, _, set_pktcap_mode_attached ps vd p c v cc mode s hsta h0 hv ha hc,
      get_pktcap_mode_attached ps vd p c v cc s hsta h0 hv ha hc, rfl, rfl, rfl, rfl⟩
  · intro psoc s1 h
    cases psoc with
    | none => cases h; rfl
    | some ps =>
      cases hsta : s.sta_vdev ps with
      | none => rw [set_pktcap_mode_no_vdev ps mode s hsta] at h; cases h; rfl
      | some vd =>
        cases h0 : pkt_capture_vdev_get_priv s vd with
        | none => rw [set_pktcap_mode_no_priv ps vd mode s hsta h0] at h; cases h; rfl
        | some p =>
          rcases cb_ctx_readable_or_not s p with ⟨v, a, c, hv, ha, hc⟩ | hno
          · rw [set_pktcap_mode_attached ps vd p a v c mode s hsta h0 hv ha hc] at h
            cases h; rfl
          · rw [set_pktcap_mode_undefined ps vd p mode s hsta h0 hno] at h; cases h
  · intro psoc r s2 h
    cases psoc with
    | none => cases h; rfl
    | some ps =>
      cases hsta : s.sta_vdev ps with
      | none => rw [get_pktcap_mode_no_vdev ps s hsta] at h; cases h; rfl
      | some vd =>
        cases h0 : pkt_capture_vdev_get_priv s vd with
        | none => rw [get_pktcap_mode_no_priv ps vd s hsta h0] at h; cases h; rfl
        | some p =>
          rcases cb_ctx_readable_or_not s p with ⟨v, a, c, hv, ha, hc⟩ | hno
          · rw [get_pktcap_mode_attached ps vd p a v c s hsta h0 hv ha hc] at h
            cases h; rfl
          · rw [get_pktcap_mode_undefined ps vd p s hsta h0 hno] at h; cases h

/-- The reference count of device 7 across a set and a get on controller 3 of
`State.with_station_device`. -/
theorem pktcap_mode_accessors_release_reference_witness :
    State.with_station_device.sta_vdev 3 = some 7 ∧
    vdev_priv_attached State.with_station_device 7 1 2 3 ∧
    ∃ s1 s2 r, pkt_capture_set_pktcap_mode (some 3) 5 State.with_station_device = some s1 ∧
      pkt_capture_get_pktcap_mode (some 3) State.with_station_device = some (r, s2) ∧
      s1.vdev_ref = State.with_station_device.vdev_ref ∧
      s2.vdev_ref = State.with_station_device.vdev_ref ∧
      s1.trace = State.with_station_device.trace ++
        [Event.get_vdev_by_opmode 3 (some 7), Event.vdev_release_ref 7] ∧
      s2.trace = State.with_station_device.trace ++
        [Event.get_vdev_by_opmode 3 (some 7), Event.vdev_release_ref 7] :=
  ⟨rfl, by decide,
    (pktcap_mode_accessors_release_reference 5 State.with_station_device).2.2.2.1
      3 7 1 2 3 rfl (by decide)⟩

/-- C15: `pkt_capture_get_pktcap_mode` returns `PACKET_CAPTURE_MODE_DISABLE` when the
controller is absent, when the station-mode lookup finds no device and when the
device found has no attached private state; the plain `0` the first two paths
return is that same mode. -/
theorem get_pktcap_mode_disabled_when_unresolved (s : State) :
    (pkt_capture_get_pktcap_mode none s).map Prod.fst = some PACKET_CAPTURE_MODE_DISABLE ∧
    (∀ ps, s.sta_vdev ps = none →
      (pkt_capture_get_pktcap_mode (some ps) s).map Prod.fst
        = some PACKET_CAPTURE_MODE_DISABLE) ∧
    (∀ ps vd, s.sta_vdev ps = some vd → pkt_capture_vdev_get_priv s vd = none →
      (pkt_capture_get_pktcap_mode (some ps) s).map Prod.fst
        = some PACKET_CAPTURE_MODE_DISABLE) ∧
    (0 : pkt_capture_mode) = PACKET_CAPTURE_MODE_DISABLE := by
  refine ⟨rfl, ?_, ?_, rfl⟩
  · intro ps hsta
    rw [get_pktcap_mode_no_vdev ps s hsta]; rfl
  · intro ps vd hsta h0
    rw [get_pktcap_mode_no_priv ps vd s hsta h0]; rfl

/-- The active mode of controllers of the empty state (no station-mode device) and
of no controller. -/
theorem get_pktcap_mode_disabled_when_unresolved_witness :
    State.empty.sta_vdev 3 = none ∧
    (pkt_capture_get_pktcap_mode (some 3) State.empty).map Prod.fst
      = some PACKET_CAPTURE_MODE_DISABLE :=
  ⟨rfl, (get_pktcap_mode_disabled_when_unresolved State.empty).2.1 3 rfl⟩

/-! ## The configuration record -/

/-- C16: the configuration record of a controller with attached (live) private state
is not changed by any operation other than the controller's own create and destroy
hooks.  Whenever `pkt_capture_set_pktcap_mode` (any controller, any mode),
`pkt_capture_register_callbacks` or `pkt_capture_deregister_callbacks` (any device,
any arguments) returns, `pkt_capture_get_mode` returns for the controller what it
returned before, and these calls do return on a device with attached (live) private
state; `pkt_capture_vdev_create_notification` always returns, whatever its outcomes,
and `pkt_capture_vdev_destroy_notification` returns on a device with attached (live)
private state or with none, both with the same property. -/
theorem configured_mode_is_immutable (ps q : Nat) (s : State)
    (hq : psoc_priv_attached s ps q) :
    ∃ V, pkt_capture_get_mode s (some ps) = some V ∧
      (∀ psoc mode s', pkt_capture_set_pktcap_mode psoc mode s = some s' →
        pkt_capture_get_mode s' (some ps) = some V) ∧
      (∀ vdev mon_cb context st s',
        pkt_capture_register_callbacks vdev mon_cb context s = some (st, s') →
        pkt_capture_get_mode s' (some ps) = some V) ∧
      (∀ vdev st s', pkt_capture_deregister_callbacks vdev s = some (st, s') →
        pkt_capture_get_mode s' (some ps) = some V) ∧
      (∀ P vd p c m mode mon_cb context, s.sta_vdev P = some vd →
        vdev_priv_attached s vd p c m →
        (∃ s', pkt_capture_set_pktcap_mode (some P) mode s = some s') ∧
        (∃ s', pkt_capture_register_callbacks (some vd) mon_cb context s
          = some (QDF_STATUS_SUCCESS, s')) ∧
        (∃ s', pkt_capture_deregister_callbacks (some vd) s
          = some (QDF_STATUS_SUCCESS, s'))) ∧
      (∀ o vdev, ∃ st s', pkt_capture_vdev_create_notification o vdev s = some (st, s') ∧
        pkt_capture_get_mode s' (some ps) = some V) ∧
      (∀ d vdev, pkt_capture_vdev_get_priv s vdev = none →
        pkt_capture_vdev_destroy_notification d vdev s = some (QDF_STATUS_E_FAILURE, s)) ∧
      (∀ d vdev p c m, vdev_priv_attached s vdev p c m →
        ∃ s', pkt_capture_vdev_destroy_notification d vdev s = some (d, s') ∧
          pkt_capture_get_mode s' (some ps) = some V) := by
  obtain ⟨hslot, pp, hcell⟩ := psoc_priv_attached_cells s ps q hq
  simp only [pkt_capture_psoc_get_priv] at hslot
  refine ⟨pp.cfg_param.pkt_capture_mode, get_mode_of_cell s ps q pp hslot hcell,
    ?_, ?_, ?_, ?_, ?_, ?_, ?_⟩
  · intro psoc mode s' h
    cases psoc with
    | none => cases h; exact get_mode_of_cell s ps q pp hslot hcell
    | some P =>
      cases hsta : s.sta_vdev P with
      | none =>
        rw [set_pktcap_mode_no_vdev P mode s hsta] at h; cases h
        exact get_mode_of_cell _ ps q pp hslot hcell
      | some vd =>
        cases h0 : pkt_capture_vdev_get_priv s vd with
        | none =>
          rw [set_pktcap_mode_no_priv P vd mode s hsta h0] at h; cases h
          exact get_mode_of_cell _ ps q pp hslot hcell
        | some p =>
          rcases cb_ctx_readable_or_not s p with ⟨v, a, c, hv, ha, hc⟩ | hno
          · rw [set_pktcap_mode_attached P vd p a v c mode s hsta h0 hv ha hc] at h
            cases h
            exact get_mode_of_cell _ ps q pp hslot (psoc_cell_of_set_cb s a c _ q pp hc hcell)
          · rw [set_pktcap_mode_undefined P vd p mode s hsta h0 hno] at h; cases h
  · intro vdev mon_cb context st s' h
    cases vdev with
    | none => cases h; exact get_mode_of_cell s ps q pp hslot hcell
    | some vd =>
      cases h0 : pkt_capture_vdev_get_priv s vd with
      | none =>
        rw [register_callbacks_no_priv vd mon_cb context s h0] at h; cases h
        exact get_mode_of_cell s ps q pp hslot hcell
      | some p =>
        rcases cb_ctx_readable_or_not s p with ⟨v, a, c, hv, ha, hc⟩ | hno
        · rw [register_callbacks_attached vd p a v c mon_cb context s h0 hv ha hc] at h
          cases h
          exact get_mode_of_cell _ ps q pp hslot (psoc_cell_of_set_cb s a c _ q pp hc hcell)
        · rw [register_callbacks_undefined vd p mon_cb context s h0 hno] at h; cases h
  · intro vdev st s' h
    cases vdev with
    | none => cases h; exact get_mode_of_cell s ps q pp hslot hcell
    | some vd =>
      cases h0 : pkt_capture_vdev_get_priv s vd with
      | none =>
        rw [deregister_callbacks_no_priv vd s h0] at h; cases h
        exact get_mode_of_cell s ps q pp hslot hcell
      | some p =>
        rcases cb_ctx_readable_or_not s p with ⟨v, a, c, hv, ha, hc⟩ | hno
        · rw [deregister_callbacks_attached vd p a v c s h0 hv ha hc] at h
          cases h
          exact get_mode_of_cell _ ps q pp hslot (psoc_cell_of_set_cb s a c _ q pp hc hcell)
        · rw [deregister_callbacks_undefined vd p s h0 hno] at h; cases h
  · intro P vd p c m mode mon_cb context hsta h
    obtain ⟨h0, v, cc, hv, ha, hc⟩ := vdev_priv_attached_reads s vd p c m h
    exact ⟨⟨_, set_pktcap_mode_attached P vd p c v cc mode s hsta h0 hv ha hc⟩,
      ⟨_, register_callbacks_attached vd p c v cc mon_cb context s h0 hv ha hc⟩,
      ⟨_, deregister_callbacks_attached vd p c v cc s h0 hv ha hc⟩⟩
  · intro o vdev
    obtain ⟨st, s', hs, hps, hcells⟩ := vdev_create_frame o vdev s
    exact ⟨st, s', hs, get_mode_of_cell s' ps q pp (by rw [hps]; exact hslot)
      (hcells q _ hcell)⟩
  · intro d vdev h0
    simp [pkt_capture_vdev_destroy_notification, h0]
  · intro d vdev p c m h
    obtain ⟨-, ⟨back, hp⟩, ⟨cc, hc⟩, ⟨mc, hm⟩, -, -, -⟩ :=
      vdev_priv_attached_cells s vdev p c m h
    refine ⟨_, vdev_destroy_attached d vdev p c m s h,
      get_mode_of_cell _ ps q pp hslot ?_⟩
    have hqp : q ≠ p := by intro e; rw [e, hp] at hcell; cases hcell
    have hqc : q ≠ c := by intro e; rw [e, hc] at hcell; cases hcell
    have hqm : q ≠ m := by intro e; rw [e, hm] at hcell; cases hcell
    simp [Heap.get_free, hqp, hqc, hqm, hcell]

/-- The configured mode of controller 3 of `State.with_controller` across any device
creation. -/
theorem configured_mode_is_immutable_witness :
    psoc_priv_attached State.with_controller 3 1 ∧
    ∃ V, pkt_capture_get_mode State.with_controller (some 3) = some V ∧
      ∀ o vdev, ∃ st s',
        pkt_capture_vdev_create_notification o vdev State.with_controller = some (st, s') ∧
        pkt_capture_get_mode s' (some 3) = some V :=
  ⟨by decide,
    (configured_mode_is_immutable 3 1 State.with_controller (by decide)).imp
      fun _ h => ⟨h.1, h.2.2.2.2.2.1⟩⟩

/-! ## Reachable states -/

/-- C17: provided a detach of an attached object succeeds, in every state reachable
from the empty state by completed calls of the four lifecycle hooks and of the
accessors, every device whose private state is returned by the framework lookup has
that private state live, owning a live callback context and a live monitor context;
hence `pkt_capture_register_callbacks`, `pkt_capture_deregister_callbacks`,
`pkt_capture_set_pktcap_mode` and `pkt_capture_get_pktcap_mode`, whose dereferences
of the callback context are unguarded, are defined (they return) for all arguments
in every such state. -/
theorem reachable_private_state_is_live (s : State) (h : Reachable s) :
    (∀ vd p, pkt_capture_vdev_get_priv s vd = some p → ∃ c m, vdev_priv_attached s vd p c m) ∧
    (∀ vdev mon_cb context, ∃ st s',
      pkt_capture_register_callbacks vdev mon_cb context s = some (st, s')) ∧
    (∀ vdev, ∃ st s', pkt_capture_deregister_callbacks vdev s = some (st, s')) ∧
    (∀ psoc mode, ∃ s', pkt_capture_set_pktcap_mode psoc mode s = some s') ∧
    (∀ psoc, ∃ r s', pkt_capture_get_pktcap_mode psoc s = some (r, s')) := by
  have hs := reachable_ownership s h
  have hatt : ∀ vd p, pkt_capture_vdev_get_priv s vd = some p →
      ∃ c m, vdev_priv_attached s vd p c m := by
    intro vd p h0
    obtain ⟨c, m, ha, -⟩ := vdev_priv_attached_of_ownership s hs vd p h0
    exact ⟨c, m, ha⟩
  refine ⟨hatt, ?_, ?_, ?_, ?_⟩
  · intro vdev mon_cb context
    cases vdev with
    | none => exact ⟨_, _, rfl⟩
    | some vd =>
      cases h0 : pkt_capture_vdev_get_priv s vd with
      | none => exact ⟨_, _, register_callbacks_no_priv vd mon_cb context s h0⟩
      | some p =>
        obtain ⟨c, m, ha⟩ := hatt vd p h0
        obtain ⟨-, v, cc, hv, hcb, hc⟩ := vdev_priv_attached_reads s vd p c m ha
        exact ⟨_, _, register_callbacks_attached vd p c v cc mon_cb context s h0 hv hcb hc⟩
  · intro vdev
    cases vdev with
    | none => exact ⟨_, _, rfl⟩
    | some vd =>
      cases h0 : pkt_capture_vdev_get_priv s vd with
      | none => exact ⟨_, _, deregister_callbacks_no_priv vd s h0⟩
      | some p =>
        obtain ⟨c, m, ha⟩ := hatt vd p h0
        obtain ⟨-, v, cc, hv, hcb, hc⟩ := vdev_priv_attached_reads s vd p c m ha
        exact ⟨_, _, deregister_callbacks_attached vd p c v cc s h0 hv hcb hc⟩
  · intro psoc mode
    cases psoc with
    | none => exact ⟨_, rfl⟩
    | some ps =>
      cases hsta : s.sta_vdev ps with
      | none => exact ⟨_, set_pktcap_mode_no_vdev ps mode s hsta⟩
      | some vd =>
        cases h0 : pkt_capture_vdev_get_priv s vd with
        | none => exact ⟨_, set_pktcap_mode_no_priv ps vd mode s hsta h0⟩
        | some p =>
          obtain ⟨c, m, ha⟩ := hatt vd p h0
          obtain ⟨-, v, cc, hv, hcb, hc⟩ := vdev_priv_attached_reads s vd p c m ha
          exact ⟨_, set_pktcap_mode_attached ps vd p c v cc mode s hsta h0 hv hcb hc⟩
  · intro psoc
    cases psoc with
    | none => exact ⟨_, _, rfl⟩
    | some ps =>
      cases hsta : s.sta_vdev ps with
      | none => exact ⟨_, _, get_pktcap_mode_no_vdev ps s hsta⟩
      | some vd =>
        cases h0 : pkt_capture_vdev_get_priv s vd with
        | none => exact ⟨_, _, get_pktcap_mode_no_priv ps vd s hsta h0⟩
        | some p =>
          obtain ⟨c, m, ha⟩ := hatt vd p h0
          obtain ⟨-, v, cc, hv, hcb, hc⟩ := vdev_priv_attached_reads s vd p c m ha
          exact ⟨_, _, get_pktcap_mode_attached ps vd p c v cc s hsta h0 hv hcb hc⟩

/-- The state reached from the empty state by creating device 7, all stages
succeeding: the device's private state is live with live contexts. -/
theorem reachable_private_state_is_live_witness :
    ∃ s, pkt_capture_vdev_create_notification
        ⟨true, QDF_STATUS_SUCCESS, true, true, QDF_STATUS_SUCCESS, QDF_STATUS_SUCCESS,
          QDF_STATUS_SUCCESS⟩ 7 State.empty = some (QDF_STATUS_SUCCESS, s) ∧
      Reachable s ∧ pkt_capture_vdev_get_priv s 7 = some 1 ∧
      ∃ c m, vdev_priv_attached s 7 1 c m :=
  ⟨_, vdev_create_all_succeed
      ⟨true, QDF_STATUS_SUCCESS, true, true, QDF_STATUS_SUCCESS, QDF_STATUS_SUCCESS,
        QDF_STATUS_SUCCESS⟩ 7 State.empty rfl rfl rfl rfl rfl rfl,
    Reachable.vdev_create State.empty _
      ⟨true, QDF_STATUS_SUCCESS, true, true, QDF_STATUS_SUCCESS, QDF_STATUS_SUCCESS,
        QDF_STATUS_SUCCESS⟩ 7 QDF_STATUS_SUCCESS Reachable.empty rfl
      (vdev_create_all_succeed
        ⟨true, QDF_STATUS_SUCCESS, true, true, QDF_STATUS_SUCCESS, QDF_STATUS_SUCCESS,
        QDF_STATUS_SUCCESS⟩ 7 State.empty rfl rfl rfl rfl rfl rfl),
    rfl,
    (reachable_private_state_is_live _
      (Reachable.vdev_create State.empty _
        ⟨true, QDF_STATUS_SUCCESS, true, true, QDF_STATUS_SUCCESS, QDF_STATUS_SUCCESS,
        QDF_STATUS_SUCCESS⟩ 7 QDF_STATUS_SUCCESS Reachable.empty rfl
        (vdev_create_all_succeed
          ⟨true, QDF_STATUS_SUCCESS, true, true, QDF_STATUS_SUCCESS, QDF_STATUS_SUCCESS,
        QDF_STATUS_SUCCESS⟩ 7 State.empty rfl rfl rfl rfl rfl rfl))).1 7 1 rfl⟩

/-! ## What setting the active mode changes -/

/-- C18: `pkt_capture_set_pktcap_mode` changes at most the mode field of the callback
context of the controller's station-mode device.  With no controller the state is
as it was.  When no station-mode device is found, or the device found has no private
state, the heap, every slot and every reference count are as they were, and the only
calls made are the lookup and (a device found) its release.  When the device has
attached (live) private state, its callback context keeps its callback/context pair
and gets the mode; every other block (so every other device's and every
controller's private state), every slot and every reference count are as they
were. -/
theorem set_pktcap_mode_changes_mode_only (mode : pkt_capture_mode) (s : State) :
    pkt_capture_set_pktcap_mode none mode s = some s ∧
    (∀ ps, s.sta_vdev ps = none →
      ∃ s', pkt_capture_set_pktcap_mode (some ps) mode s = some s' ∧
        s'.heap = s.heap ∧ s'.vdev_comp_priv = s.vdev_comp_priv ∧
        s'.psoc_comp_priv = s.psoc_comp_priv ∧ s'.vdev_ref = s.vdev_ref ∧
        s'.sta_vdev = s.sta_vdev ∧ s'.cfg = s.cfg ∧
        s'.trace = s.trace ++ [Event.get_vdev_by_opmode ps none]) ∧
    (∀ ps vd, s.sta_vdev ps = some vd → pkt_capture_vdev_get_priv s vd = none →
      ∃ s', pkt_capture_set_pktcap_mode (some ps) mode s = some s' ∧
        s'.heap = s.heap ∧ s'.vdev_comp_priv = s.vdev_comp_priv ∧
        s'.psoc_comp_priv = s.psoc_comp_priv ∧ s'.vdev_ref = s.vdev_ref ∧
        s'.sta_vdev = s.sta_vdev ∧ s'.cfg = s.cfg ∧
        s'.trace = s.trace ++
          [Event.get_vdev_by_opmode ps (some vd), Event.vdev_release_ref vd]) ∧
    (∀ ps vd p c m cc, s.sta_vdev ps = some vd → vdev_priv_attached s vd p c m →
      s.read_cb_ctx (some c) = some cc →
      ∃ s', pkt_capture_set_pktcap_mode (some ps) mode s = some s' ∧
        s'.read_cb_ctx (some c) = some ⟨cc.mon_cb, cc.mon_ctx, mode⟩ ∧
        (∀ b, b ≠ c → s'.heap.get b = s.heap.get b) ∧
        s'.vdev_comp_priv = s.vdev_comp_priv ∧
        s'.psoc_comp_priv = s.psoc_comp_priv ∧ s'.vdev_ref = s.vdev_ref ∧
        s'.sta_vdev = s.sta_vdev ∧ s'.cfg = s.cfg ∧
        s'.trace = s.trace ++
          [Event.get_vdev_by_opmode ps (some vd), Event.vdev_release_ref vd]) := by
  refine ⟨rfl, ?_, ?_, ?_⟩
  · intro ps hsta
    exact ⟨_, set_pktcap_mode_no_vdev ps mode s hsta, rfl, rfl, rfl, rfl, rfl, rfl, rfl⟩
  · intro ps vd hsta h0
    exact ⟨_, set_pktcap_mode_no_priv ps vd mode s hsta h0, rfl, rfl, rfl, rfl, rfl, rfl, rfl⟩
  · intro ps vd p c m cc hsta h hcc
    obtain ⟨h0, v, cc1, hv, ha, hc⟩ := vdev_priv_attached_reads s vd p c m h
    have hcc1 : cc1 = cc := by rw [hc] at hcc; exact Option.some.inj hcc
    subst hcc1
    refine ⟨_, set_pktcap_mode_attached ps vd p c v cc1 mode s hsta h0 hv ha hc, ?_, ?_,
      rfl, rfl, rfl, rfl, rfl, rfl⟩
    · exact read_cb_ctx_of_set_cb s _ c _ cc1 rfl hc
    · intro b hb
      simp [Heap.get_set, hb]

/-- Setting mode 5 on controller 3 of `State.with_station_device`, whose device 7
holds the pair (11, 12). -/
theorem set_pktcap_mode_changes_mode_only_witness :
    State.with_station_device.sta_vdev 3 = some 7 ∧
    vdev_priv_attached State.with_station_device 7 1 2 3 ∧
    ∃ s', pkt_capture_set_pktcap_mode (some 3) 5 State.with_station_device = some s' ∧
      s'.read_cb_ctx (some 2) = some ⟨some 11, some 12, 5⟩ :=
  ⟨rfl, by decide,
    ((set_pktcap_mode_changes_mode_only 5 State.with_station_device).2.2.2
      3 7 1 2 3 ⟨some 11, some 12, 1⟩ rfl (by decide) rfl).imp
      fun _ h => ⟨h.1, h.2.1⟩⟩

end PktCapture
